import Mathlib

/-!
# nut-scanner SNMP probe (`tools/nut-scanner/scan_snmp.c`)

A shallow embedding of the per-host SNMP identification code of the NUT
scanner: the session builder `init_session`, the request helper
`scan_snmp_get_oid`, the descriptor builder `scan_snmp_add_device`, the
fallback `try_all_oid` and the worker `try_SysOID_thready`.

Conventions of the embedding.

* A C string (`char *`) is an `Option String`: `none` is the NULL pointer.
* An object identifier (`oid *` with its length) is a `List Nat`.
* The Net-SNMP library is a parameter (`NetSnmp`): the functions the C file
  reaches through its `nut_*` pointers.  Calls whose outcome may change
  from one call to the next (allocation, the network) receive the number of
  library requests made so far by the worker, `ScanState.calls`.
* The global `dev_ret` and a log of the observable actions of a worker are
  the explicit state `ScanState`.
* Releasing memory (`free`, `snmp_free_pdu`) is not modelled, and `malloc`
  and `strdup` inside `scan_snmp_add_device` are taken to succeed.
-/

namespace ScanSnmp

/-! ## Data model -/

/-- An object identifier: the sub-identifiers of an `oid` array, in order. -/
abbrev Oid := List Nat

/-- Row of `snmp_device_table` (`nutscan-snmp.h`): probe OID, MIB name and
sysOID.  The table itself is a `List` of the rows that precede the sentinel
row whose `mib` is NULL, so `mib` is not optional. -/
structure snmp_device_id_t where
  oid : Option String
  mib : String
  sysoid : Option String
  deriving DecidableEq, Repr

/-- The two readings that this file makes of the value buffer of a variable
binding (`netsnmp_vardata`, `val_len` bytes): as text (`val.string`) and as
`val_len / sizeof(oid)` sub-identifiers (`val.objid`). -/
structure netsnmp_vardata where
  string : String
  objid : Oid
  deriving DecidableEq, Repr

/-- One variable binding of a PDU (`netsnmp_variable_list`): `name` with
`name_length`, and `val` with `val_len`; `none` is a NULL pointer. -/
structure netsnmp_variable_list where
  name : Option Oid
  val : Option netsnmp_vardata
  deriving DecidableEq, Repr

/-- A response PDU: its error status and its chain of variable bindings
(the field `variables` of the C struct, NULL when the list is empty). -/
structure snmp_pdu where
  errstat : Int
  vars : List netsnmp_variable_list
  deriving DecidableEq, Repr

/-- The fields of `struct snmp_session` that the scanner reads or writes. -/
structure snmp_session where
  version : Int
  peername : Option String
  community : Option String
  community_len : Nat
  securityLevel : Int
  securityName : Option String
  securityNameLen : Nat
  securityAuthProto : Option Oid
  securityAuthProtoLen : Nat
  securityAuthKey : List Nat
  securityAuthKeyLen : Nat
  securityPrivProto : Option Oid
  securityPrivProtoLen : Nat
  securityPrivKey : List Nat
  securityPrivKeyLen : Nat
  retries : Int
  timeout : Int
  deriving DecidableEq, Repr

/-- An opened session (the `void *` handle, in Net-SNMP a
`struct session_list`): `session` is what `snmp_sess_session` returns for
it. -/
structure Handle where
  session : Option snmp_session
  deriving DecidableEq, Repr

/-- The credential bundle `nutscan_snmp_t` (`nut-scan.h`). -/
structure nutscan_snmp_t where
  community : Option String
  secLevel : Option String
  secName : Option String
  authPassword : Option String
  privPassword : Option String
  authProtocol : Option String
  privProtocol : Option String
  peername : Option String
  handle : Option Handle
  deriving DecidableEq, Repr

/-- Device types of `nutscan_device_type_t` used here. -/
inductive nutscan_device_type_t
  | TYPE_NONE
  | TYPE_SNMP
  deriving DecidableEq, Repr

/-- A device descriptor (`nutscan_device_t`): type, driver, port and the
ordered list of options. -/
structure nutscan_device_t where
  type : nutscan_device_type_t
  driver : Option String
  port : Option String
  opt : List (String × String)
  deriving DecidableEq, Repr

/-- Observable actions of one worker, in the order they happen. -/
inductive Event
  /-- Call of `wrap_nut_snmp_sess_open`. -/
  | sess_open
  /-- Call of `nut_snmp_sess_close`. -/
  | sess_close
  /-- The sysObjectID request of `try_SysOID_thready` was sent; the argument
  is the response pointer it got back. -/
  | sysoid_request (response : Option snmp_pdu)
  /-- A call `scan_snmp_get_oid(oid_str, handle)` and what it returned. -/
  | get_oid (oid_str : String) (result : Option snmp_pdu)
  /-- The function `try_all_oid` was entered. -/
  | try_all_oid
  deriving DecidableEq, Repr

/-- State threaded through a worker: the global list `dev_ret`, the number
of library requests made so far, and the log of actions. -/
structure ScanState where
  dev_ret : List nutscan_device_t
  calls : Nat
  trace : List Event
  deriving DecidableEq, Repr

/-- Build-time switches `NUT_HAVE_LIBNETSNMP_*` tested by `init_session`. -/
structure BuildConfig where
  usmHMACMD5AuthProtocol : Bool
  usmHMACSHA1AuthProtocol : Bool
  usmHMAC192SHA256AuthProtocol : Bool
  usmHMAC256SHA384AuthProtocol : Bool
  usmHMAC384SHA512AuthProtocol : Bool
  usmDESPrivProtocol : Bool
  usmAESPrivProtocol : Bool
  DRAFT_BLUMENTHAL_AES_04 : Bool
  usmAES192PrivProtocol : Bool
  usmAES256PrivProtocol : Bool
  deriving DecidableEq, Repr

/-- The Net-SNMP library as seen through the `nut_*` function pointers,
with the constants of its headers. -/
structure NetSnmp where
  /-- Build switches. -/
  cfg : BuildConfig
  /-- Result of `snmp_sess_init` on a fresh session. -/
  snmp_sess_init : snmp_session
  /-- Text to OID, `snmp_parse_oid`; `none` is the NULL (failure) result. -/
  snmp_parse_oid : String → Option Oid
  /-- Whether `snmp_pdu_create` returns a PDU at the given request number. -/
  snmp_pdu_create : Nat → Bool
  /-- Status and response of `snmp_sess_synch_response` at the given request
  number, for a handle and one requested OID. -/
  snmp_sess_synch_response : Nat → Option Handle → Oid → Int × Option snmp_pdu
  /-- Result of `snmp_sess_open` at the given request number. -/
  snmp_sess_open : Nat → snmp_session → Option Handle
  /-- Key generation `generate_Ku(hashtype, hashtype_len, P, pplen, Ku, kulen)`:
  return code, key and key length. -/
  generate_Ku : Option Oid → Nat → String → Nat → Nat → Int × List Nat × Nat
  usmHMACMD5AuthProtocol : Oid
  usmHMACSHA1AuthProtocol : Oid
  usmHMAC192SHA256AuthProtocol : Oid
  usmHMAC256SHA384AuthProtocol : Oid
  usmHMAC384SHA512AuthProtocol : Oid
  usmDESPrivProtocol : Oid
  usmAESPrivProtocol : Oid
  usmAES192PrivProtocol : Oid
  usmAES256PrivProtocol : Oid
  USM_AUTH_KU_LEN : Nat
  USM_PRIV_KU_LEN : Nat

/-! ## Constants of the Net-SNMP headers -/

def SNMP_VERSION_1 : Int := 0
def SNMP_VERSION_3 : Int := 3
def SNMP_SEC_LEVEL_NOAUTH : Int := 1
def SNMP_SEC_LEVEL_AUTHNOPRIV : Int := 2
def SNMP_SEC_LEVEL_AUTHPRIV : Int := 3
def STAT_SUCCESS : Int := 0
def SNMP_ERR_NOERROR : Int := 0
def SNMPERR_SUCCESS : Int := 0
def UINT_MAX : Nat := 4294967295

/-- The well-known sysObjectID, `#define SysOID`. -/
def SysOID : String := ".1.3.6.1.2.1.1.2.0"

/-- Net-SNMP's `snmp_oid_compare`: compare the common prefix element by
element, then the lengths; the result is -1, 0 or 1. -/
def snmp_oid_compare : Oid → Oid → Int
  | [], [] => 0
  | [], _ :: _ => -1
  | _ :: _, [] => 1
  | a :: as, b :: bs =>
    if a ≠ b then (if a < b then -1 else 1) else snmp_oid_compare as bs

/-! ## The session builder -/

/-- Outcome of `init_session`: the returned `int`, the session as the call
leaves it (it is written in place, also when the call fails), and the
format string passed to `upsdebugx(0, ...)` on a failure path. -/
structure InitResult where
  ret : Int
  sess : snmp_session
  warning : Option String
  deriving DecidableEq, Repr

/-- The authentication-protocol block of `init_session` (lines 747-805):
default to MD5 when the build has it, then the `strcmp` chain on
`sec->authProtocol`.  The flag is `false` on the `return 0` of the chain. -/
def init_session_auth_proto (env : NetSnmp) (sec : nutscan_snmp_t)
    (s : snmp_session) : Bool × snmp_session :=
  let s := { s with securityAuthKeyLen := env.USM_AUTH_KU_LEN }
  let s := if env.cfg.usmHMACMD5AuthProtocol then
      { s with securityAuthProto := some env.usmHMACMD5AuthProtocol,
               securityAuthProtoLen := env.usmHMACMD5AuthProtocol.length }
    else s
  match sec.authProtocol with
  | none => (true, s)
  | some p =>
    if env.cfg.usmHMACSHA1AuthProtocol ∧ p = "SHA" then
      (true, { s with securityAuthProto := some env.usmHMACSHA1AuthProtocol,
                       securityAuthProtoLen := env.usmHMACSHA1AuthProtocol.length })
    else if env.cfg.usmHMAC192SHA256AuthProtocol ∧ p = "SHA256" then
      (true, { s with securityAuthProto := some env.usmHMAC192SHA256AuthProtocol,
                       securityAuthProtoLen := env.usmHMAC192SHA256AuthProtocol.length })
    else if env.cfg.usmHMAC256SHA384AuthProtocol ∧ p = "SHA384" then
      (true, { s with securityAuthProto := some env.usmHMAC256SHA384AuthProtocol,
                       securityAuthProtoLen := env.usmHMAC256SHA384AuthProtocol.length })
    else if env.cfg.usmHMAC384SHA512AuthProtocol ∧ p = "SHA512" then
      (true, { s with securityAuthProto := some env.usmHMAC384SHA512AuthProtocol,
                       securityAuthProtoLen := env.usmHMAC384SHA512AuthProtocol.length })
    else if env.cfg.usmHMACMD5AuthProtocol = false ∨ p ≠ "MD5" then
      (false, s)
    else (true, s)

/-- The privacy-protocol block of `init_session` (lines 846-893): default
to DES when the build has it, then the `strcmp` chain on
`sec->privProtocol`.  The flag is `false` on the `return 0` of the chain. -/
def init_session_priv_proto (env : NetSnmp) (sec : nutscan_snmp_t)
    (s : snmp_session) : Bool × snmp_session :=
  let s := if env.cfg.usmDESPrivProtocol then
      { s with securityPrivProto := some env.usmDESPrivProtocol,
               securityPrivProtoLen := env.usmDESPrivProtocol.length }
    else s
  match sec.privProtocol with
  | none => (true, s)
  | some p =>
    if env.cfg.usmAESPrivProtocol ∧ p = "AES" then
      (true, { s with securityPrivProto := some env.usmAESPrivProtocol,
                       securityPrivProtoLen := env.usmAESPrivProtocol.length })
    else if env.cfg.DRAFT_BLUMENTHAL_AES_04 ∧ env.cfg.usmAES192PrivProtocol
        ∧ p = "AES192" then
      (true, { s with securityPrivProto := some env.usmAES192PrivProtocol,
                       securityPrivProtoLen := env.usmAES192PrivProtocol.length })
    else if env.cfg.DRAFT_BLUMENTHAL_AES_04 ∧ env.cfg.usmAES256PrivProtocol
        ∧ p = "AES256" then
      (true, { s with securityPrivProto := some env.usmAES256PrivProtocol,
                       securityPrivProtoLen := env.usmAES256PrivProtocol.length })
    else if env.cfg.usmDESPrivProtocol = false ∨ p ≠ "DES" then
      (false, s)
    else (true, s)

/-- The security-level block of `init_session` (lines 693-705): the `strcmp`
chain on `sec->secLevel`.  `none` is the `return 0` of the chain. -/
def init_session_sec_level (secLevel : String) : Option Int :=
  if secLevel = "noAuthNoPriv" then some SNMP_SEC_LEVEL_NOAUTH
  else if secLevel = "authNoPriv" then some SNMP_SEC_LEVEL_AUTHNOPRIV
  else if secLevel = "authPriv" then some SNMP_SEC_LEVEL_AUTHPRIV
  else none

/-- The SNMPv3 branch of `init_session` (lines 690-930), entered with
`sec->community == NULL` and `sec->secLevel` equal to `secLevel`. -/
def init_session_v3 (env : NetSnmp) (sec : nutscan_snmp_t) (secLevel : String)
    (s : snmp_session) : InitResult :=
  let s := { s with version := SNMP_VERSION_3 }
  -- Security level
  match init_session_sec_level secLevel with
  | none => ⟨0, s, some "WARNING: %s: Bad SNMPv3 securityLevel: %s"⟩
  | some lvl =>
    let s := { s with securityLevel := lvl }
    -- Security name
    match sec.secName with
    | none => ⟨0, s, some "WARNING: %s: securityName is required for SNMPv3"⟩
    | some secName =>
      let s := { s with securityName := some secName,
                        securityNameLen := secName.length }
      -- Everything is ready for NOAUTH
      if lvl = SNMP_SEC_LEVEL_NOAUTH then ⟨1, s, none⟩
      -- Process mandatory fields, based on the security level
      else if lvl = SNMP_SEC_LEVEL_AUTHNOPRIV ∧ sec.authPassword = none then
        ⟨0, s, some "WARNING: %s: authPassword is required for SNMPv3 in %s mode"⟩
      else if lvl = SNMP_SEC_LEVEL_AUTHPRIV
          ∧ (sec.authPassword = none ∨ sec.privPassword = none) then
        ⟨0, s, some
          "WARNING: %s: authPassword and privPassword are required for SNMPv3 in %s mode"⟩
      else
        -- Process authentication protocol and key
        match init_session_auth_proto env sec s with
        | (false, s) => ⟨0, s, some "WARNING: %s: Bad SNMPv3 authProtocol: %s"⟩
        | (true, s) =>
          if s.securityAuthProtoLen > UINT_MAX then
            ⟨0, s, some "WARNING: %s: Bad SNMPv3 securityAuthProtoLen: %zu"⟩
          else
            let authPassword := sec.authPassword.getD ""
            let ku := env.generate_Ku s.securityAuthProto s.securityAuthProtoLen
              authPassword authPassword.length s.securityAuthKeyLen
            if ku.1 ≠ SNMPERR_SUCCESS then
              ⟨0, s, some
                "WARNING: %s: Error generating Ku from authentication pass phrase"⟩
            else
              let s := { s with securityAuthKey := ku.2.1,
                                securityAuthKeyLen := ku.2.2 }
              -- Everything is ready for AUTHNOPRIV
              if lvl = SNMP_SEC_LEVEL_AUTHNOPRIV then ⟨1, s, none⟩
              else
                match init_session_priv_proto env sec s with
                | (false, s) =>
                  ⟨0, s, some "WARNING: %s: Bad SNMPv3 privProtocol: %s"⟩
                | (true, s) =>
                  let s := { s with securityPrivKeyLen := env.USM_PRIV_KU_LEN }
                  if s.securityAuthProtoLen > UINT_MAX then
                    ⟨0, s, some "WARNING: %s: Bad SNMPv3 securityAuthProtoLen: %zu"⟩
                  else
                    let privPassword := sec.privPassword.getD ""
                    let ku := env.generate_Ku s.securityAuthProto
                      s.securityAuthProtoLen privPassword privPassword.length
                      s.securityPrivKeyLen
                    if ku.1 ≠ SNMPERR_SUCCESS then
                      ⟨0, s, some
                        "WARNING: %s: Error generating Ku from private pass phrase"⟩
                    else
                      ⟨1, { s with securityPrivKey := ku.2.1,
                                   securityPrivKeyLen := ku.2.2 }, none⟩

/-- The function `init_session` (lines 673-933).  The three cases of the
match are the test `sec->community != NULL || sec->secLevel == NULL` with its
inner test on `sec->community`, and the `else` branch for SNMPv3. -/
def init_session (env : NetSnmp) (sec : nutscan_snmp_t) : InitResult :=
  let s := { env.snmp_sess_init with peername := sec.peername }
  match sec.community, sec.secLevel with
  | some community, _ =>
    ⟨1, { s with version := SNMP_VERSION_1, community := some community,
                 community_len := community.length }, none⟩
  | none, none =>
    ⟨1, { s with version := SNMP_VERSION_1, community := some "public",
                 community_len := "public".length }, none⟩
  | none, some secLevel => init_session_v3 env sec secLevel s

/-! ## The result sink and the descriptor builder -/

/-- Modelled from the spec: `nutscan_new_device` (`nutscan-device.c`, not in
this source tree) returns a descriptor with no field set and an empty
option map. -/
def nutscan_new_device : nutscan_device_t :=
  ⟨nutscan_device_type_t.TYPE_NONE, none, none, []⟩

/-- Modelled from the spec: `nutscan_add_option_to_device`
(`nutscan-device.c`, not in this source tree) adds one entry at the end of
the ordered key-value option map of a descriptor. -/
def nutscan_add_option_to_device (dev : nutscan_device_t)
    (option value : String) : nutscan_device_t :=
  { dev with opt := dev.opt ++ [(option, value)] }

/-- Modelled from the spec: `nutscan_add_device_to_device`
(`nutscan-device.c`, not in this source tree) is the `publish` of the result
sink: it appends one descriptor to the list. -/
def nutscan_add_device_to_device (first : List nutscan_device_t)
    (second : nutscan_device_t) : List nutscan_device_t :=
  first ++ [second]

/-- The statement `if (x) nutscan_add_option_to_device(dev, key, x);` used
for each SNMPv3 field in `scan_snmp_add_device`. -/
def add_option_if_set (dev : nutscan_device_t) (key : String)
    (x : Option String) : nutscan_device_t :=
  match x with
  | some value => nutscan_add_option_to_device dev key value
  | none => dev

/-- The descriptor that `scan_snmp_add_device` builds (lines 518-573) from
the credentials, the session of the handle, the probe response (NULL when
there is none) and the MIB name.  A response passed here comes from
`scan_snmp_get_oid`, so it has a first variable with a value; for any other
response the C code dereferences NULL and the model adds no `desc`. -/
def scan_snmp_device (sec : nutscan_snmp_t) (session : snmp_session)
    (response : Option snmp_pdu) (mib : String) : nutscan_device_t :=
  let dev := nutscan_new_device
  let dev := { dev with type := nutscan_device_type_t.TYPE_SNMP,
                        driver := some "snmp-ups",
                        port := session.peername }
  let dev := match response with
    | none => dev
    | some r =>
      match r.vars with
      | [] => dev
      | v :: _ =>
        match v.val with
        | none => dev
        | some val => nutscan_add_option_to_device dev "desc" val.string
  let dev := nutscan_add_option_to_device dev "mibs" mib
  -- SNMP v3
  if session.community = none ∨ session.community = some "" then
    let dev := nutscan_add_option_to_device dev "snmp_version" "v3"
    let dev := add_option_if_set dev "secLevel" sec.secLevel
    let dev := add_option_if_set dev "secName" sec.secName
    let dev := add_option_if_set dev "authPassword" sec.authPassword
    let dev := add_option_if_set dev "privPassword" sec.privPassword
    let dev := add_option_if_set dev "authProtocol" sec.authProtocol
    add_option_if_set dev "privProtocol" sec.privProtocol
  else
    nutscan_add_option_to_device dev "community"
      (String.mk ((session.community.getD "").data.take session.community_len))

/-- The function `scan_snmp_add_device` (lines 507-583): nothing happens when
`snmp_sess_session(sec->handle)` is NULL, otherwise the descriptor is built
and appended to `dev_ret`. -/
def scan_snmp_add_device (sec : nutscan_snmp_t) (response : Option snmp_pdu)
    (mib : String) (st : ScanState) : ScanState :=
  match sec.handle.bind Handle.session with
  | none => st
  | some session =>
    { st with dev_ret := nutscan_add_device_to_device st.dev_ret
                (scan_snmp_device sec session response mib) }

/-! ## Requests -/

/-- The test of lines 615-623 on a non-NULL response: `none` when the
response is freed and NULL is returned. -/
def check_response (status : Int) (name : Oid) (r : snmp_pdu) : Option snmp_pdu :=
  if status ≠ STAT_SUCCESS ∨ r.errstat ≠ SNMP_ERR_NOERROR then none
  else
    match r.vars with
    | [] => none
    | v :: _ =>
      match v.name with
      | none => none
      | some vname =>
        if snmp_oid_compare vname name ≠ 0 then none
        else
          match v.val with
          | none => none
          | some _ => some r

/-- The value returned by `scan_snmp_get_oid(oid_str, handle)` (lines
585-631) when it is the request number `calls` of the worker. -/
def scan_snmp_get_oid_result (env : NetSnmp) (oid_str : String)
    (handle : Option Handle) (calls : Nat) : Option snmp_pdu :=
  match env.snmp_parse_oid oid_str with
  | none => none
  | some name =>
    if env.snmp_pdu_create calls = false then none
    else
      match env.snmp_sess_synch_response calls handle name with
      | (_, none) => none
      | (status, some r) => check_response status name r

/-- The function `scan_snmp_get_oid` with its effect on the state: one more
request, and the call with its result in the log. -/
def scan_snmp_get_oid (env : NetSnmp) (oid_str : String)
    (handle : Option Handle) (st : ScanState) : Option snmp_pdu × ScanState :=
  let result := scan_snmp_get_oid_result env oid_str handle st.calls
  (result, { st with calls := st.calls + 1,
                     trace := st.trace ++ [Event.get_oid oid_str result] })

/-! ## The two phases of the probe -/

/-- The `while` loop of `try_all_oid` (lines 641-670) over the rows of the
table that are still to be visited. -/
def try_all_oid_loop (env : NetSnmp) (sec : nutscan_snmp_t)
    (mib_found : Option String) : List snmp_device_id_t → ScanState → ScanState
  | [], st => st
  | e :: rest, st =>
    match e.oid with
    | none => try_all_oid_loop env sec mib_found rest st
    | some oid =>
      if oid = "" then try_all_oid_loop env sec mib_found rest st
      else
        match scan_snmp_get_oid env oid sec.handle st with
        | (none, st) => try_all_oid_loop env sec mib_found rest st
        | (some response, st) =>
          -- add device only if not yet detected with the same mib
          if mib_found = none ∨ mib_found ≠ some e.mib then
            try_all_oid_loop env sec mib_found rest
              (scan_snmp_add_device sec (some response) e.mib st)
          else
            try_all_oid_loop env sec mib_found rest st

/-- The function `try_all_oid` (lines 633-671). -/
def try_all_oid (env : NetSnmp) (snmp_device_table : List snmp_device_id_t)
    (sec : nutscan_snmp_t) (mib_found : Option String) (st : ScanState) : ScanState :=
  try_all_oid_loop env sec mib_found snmp_device_table
    { st with trace := st.trace ++ [Event.try_all_oid] }

/-- The `while` loop of `try_SysOID_thready` (lines 1011-1054) over the rows
still to be visited, for the sysObjectID value `objid` of the response; it
carries the local variable `mib_found`. -/
def sysoid_loop (env : NetSnmp) (sec : nutscan_snmp_t) (handle : Handle)
    (objid : Oid) :
    List snmp_device_id_t → Option String → ScanState → Option String × ScanState
  | [], mib_found, st => (mib_found, st)
  | e :: rest, mib_found, st =>
    match e.sysoid with
    | none => sysoid_loop env sec handle objid rest mib_found st
    | some sysoid =>
      match env.snmp_parse_oid sysoid with
      | none => sysoid_loop env sec handle objid rest mib_found st
      | some name =>
        if snmp_oid_compare objid name = 0 then
          -- we have found a relevant sysoid
          if e.oid = none ∨ e.oid = some "" then
            -- add mib if no complementary oid is present
            sysoid_loop env sec handle objid rest (some sysoid)
              (scan_snmp_add_device sec none e.mib st)
          else
            -- else test complementary oid before adding mib
            match scan_snmp_get_oid env (e.oid.getD "") (some handle) st with
            | (some resp, st) =>
              sysoid_loop env sec handle objid rest (some e.mib)
                (scan_snmp_add_device sec (some resp) e.mib st)
            | (none, st) => sysoid_loop env sec handle objid rest mib_found st
        else sysoid_loop env sec handle objid rest mib_found st

/-- Phase 1 on a received response (lines 1008-1055): the catalog is walked
only when the response has a first variable whose value is not NULL.  The
result is the final `mib_found` and the state. -/
def phase1 (env : NetSnmp) (snmp_device_table : List snmp_device_id_t)
    (sec : nutscan_snmp_t) (handle : Handle) (response : snmp_pdu)
    (st : ScanState) : Option String × ScanState :=
  match response.vars with
  | [] => (none, st)
  | v :: _ =>
    match v.val with
    | none => (none, st)
    | some val => sysoid_loop env sec handle val.objid snmp_device_table none st

/-- The block `if (response) ...` of `try_SysOID_thready` (lines 1001-1063):
`sec->handle` is set, Phase 1 runs, and `try_all_oid` is called when
`mib_found` is still NULL. -/
def try_SysOID_response (env : NetSnmp) (snmp_device_table : List snmp_device_id_t)
    (sec : nutscan_snmp_t) (handle : Handle) (response : snmp_pdu)
    (st : ScanState) : ScanState :=
  let sec := { sec with handle := some handle }
  let p := phase1 env snmp_device_table sec handle response st
  -- try a list of known OID, if no device was found otherwise
  if p.1 = none then try_all_oid env snmp_device_table sec p.1 p.2
  else p.2

/-- The call `nut_snmp_sess_close(handle)`. -/
def sess_close (st : ScanState) : ScanState :=
  { st with trace := st.trace ++ [Event.sess_close] }

/-- The function `try_SysOID_thready` (lines 945-1074): the probe of one
host, whose address is `sec->peername`. -/
def try_SysOID_thready (env : NetSnmp) (snmp_device_table : List snmp_device_id_t)
    (g_usec_timeout : Int) (sec : nutscan_snmp_t) (st : ScanState) : ScanState :=
  -- Initialize session
  let r := init_session env sec
  if r.ret = 0 then st
  else
    let snmp_sess := { r.sess with retries := 0, timeout := g_usec_timeout }
    -- Open the session
    let opened := env.snmp_sess_open st.calls snmp_sess
    let st := { st with calls := st.calls + 1,
                        trace := st.trace ++ [Event.sess_open] }
    match opened with
    | none => st
    | some handle =>
      -- create and send request
      match env.snmp_parse_oid SysOID with
      | none => sess_close st
      | some name =>
        if env.snmp_pdu_create st.calls = false then sess_close st
        else
          let response := (env.snmp_sess_synch_response st.calls (some handle) name).2
          let st := { st with calls := st.calls + 1,
                              trace := st.trace ++ [Event.sysoid_request response] }
          match response with
          | some response =>
            sess_close (try_SysOID_response env snmp_device_table sec handle response st)
          | none => sess_close st

/-! ## The range driver without threads -/

/-- Modelled from the spec: `nutscan_rewind_device` (`nutscan-device.c`, not
in this source tree) returns the head of the device list, that is the
contents of the sink in insertion order. -/
def nutscan_rewind_device (dev_ret : List nutscan_device_t) : List nutscan_device_t :=
  dev_ret

/-- The `while` loop of `nutscan_scan_ip_range_snmp` (lines 1210-1413) in a
build without `HAVE_PTHREAD`: `pass` stays TRUE, and for each address the
credentials are copied, the address is bound as `peername`, and
`try_SysOID_thready` runs in place (line 1361).  The list holds the addresses
that the iterator still yields; `malloc_ok n` tells whether the allocation
of the copy number `n` succeeds (a failure leaves the loop). -/
def scan_loop_nothread (env : NetSnmp) (snmp_device_table : List snmp_device_id_t)
    (g_usec_timeout : Int) (sec : nutscan_snmp_t) (malloc_ok : Nat → Bool) :
    List String → Nat → ScanState → ScanState
  | [], _, st => st
  | ip_str :: rest, n, st =>
    if malloc_ok n = false then st
    else
      scan_loop_nothread env snmp_device_table g_usec_timeout sec malloc_ok rest (n + 1)
        (try_SysOID_thready env snmp_device_table g_usec_timeout
          { sec with peername := some ip_str } st)

/-- The function `nutscan_scan_ip_range_snmp` (lines 1104-1471) in a build
without `HAVE_PTHREAD`: the returned list and the state it leaves, with
`dev_ret` reset.  `irl` is `none` for a NULL or empty range list, otherwise
the addresses that the iterator yields.  The initialisation of the library
and the output option do not touch the state modelled here. -/
def nutscan_scan_ip_range_snmp_nothread (env : NetSnmp)
    (snmp_device_table : List snmp_device_id_t) (nutscan_avail_snmp : Bool)
    (malloc_ok : Nat → Bool) (irl : Option (List String)) (usec_timeout : Int)
    (sec : nutscan_snmp_t) (st : ScanState) : List nutscan_device_t × ScanState :=
  if nutscan_avail_snmp = false then ([], st)
  else
    match irl with
    | none => ([], st)
    | some addresses =>
      let st := scan_loop_nothread env snmp_device_table usec_timeout sec malloc_ok
        addresses 0 st
      (nutscan_rewind_device st.dev_ret, { st with dev_ret := [] })

/-! ## The range driver with semaphores

The driver loop of `nutscan_scan_ip_range_snmp` in a build with
`HAVE_PTHREAD` and `HAVE_SEMAPHORE_UNNAMED` or `HAVE_SEMAPHORE_NAMED`, as a
step function over the two semaphores, the worker table and the address
iterator.  The driver is taken in isolation: no other thread waits on or
posts the two semaphores, so a `sem_wait` on a semaphore without ticket
never returns.  What the workers do to `dev_ret` is not part of this state;
the addresses handed to `try_SysOID_thready` are recorded in order.
-/

/-- Entry of `thread_array` (`nutscan_thread_t`): thread and `active`. -/
structure nutscan_thread_t where
  thread : Nat
  active : Bool
  deriving DecidableEq, Repr

/-- What the driver does not decide: the scan-type cap `max_threads_scantype`
as it is after `sem_init` (lines 1127-1171), and whether the `malloc`, the
`pthread_create` and the `realloc` of the loop iteration number `n`
succeed. -/
structure DriverEnv where
  max_threads_scantype : Nat
  malloc_ok : Nat → Bool
  pthread_create_ok : Nat → Bool
  realloc_ok : Nat → Bool

/-- Where the driver stands. -/
inductive DriverPc
  /-- At the test of `while (ip_str != NULL)` (line 1210). -/
  | loop_test
  /-- At `if (pass)` with `pass` TRUE (line 1325). -/
  | dispatch
  /-- In the `for` of the clean-up midway (line 1380), before index `i`. -/
  | drain (i : Nat)
  /-- In the final `for` (line 1418), before index `i`. -/
  | join (i : Nat)
  /-- Inside a `sem_wait` that does not return. -/
  | blocked
  /-- After the final `for` (line 1451). -/
  | done
  deriving DecidableEq, Repr

/-- State of the driver.  `ip` holds the addresses that the iterator still
yields (its head is `ip_str`, the empty list is NULL); `semaphore` and
`semaphore_scantype` are the counts of the two semaphores; `iterations`
counts the loop iterations entered.  The last three fields are not in the C
code: `live` counts the workers created and not yet joined, `dispatched`
lists the addresses handed to `try_SysOID_thready`, and `out_of_bounds` tells
whether a slot of `thread_array` beyond its allocated size was read. -/
structure DriverState where
  pc : DriverPc
  ip : List String
  semaphore : Nat
  semaphore_scantype : Nat
  thread_array : Option (List nutscan_thread_t)
  thread_count : Nat
  iterations : Nat
  live : Nat
  dispatched : List String
  out_of_bounds : Bool
  deriving DecidableEq, Repr

/-- The call `sem_trywait`: success flag and new count; the count is
unchanged when there is no ticket. -/
def sem_trywait (count : Nat) : Bool × Nat :=
  if count = 0 then (false, count) else (true, count - 1)

/-- The two statements `sem_post(semaphore); if (max_threads_scantype > 0)
sem_post(semaphore_scantype);`. -/
def sem_post_both (D : DriverEnv) (s : DriverState) : DriverState :=
  { s with semaphore := s.semaphore + 1,
           semaphore_scantype :=
             if D.max_threads_scantype > 0 then s.semaphore_scantype + 1
             else s.semaphore_scantype }

/-- The statement `pthread_join(thread_array[i].thread, NULL)` with
`thread_array[i].active = FALSE`, for the entry `e` read at index `i`. -/
def join_thread (i : Nat) (e : nutscan_thread_t) (s : DriverState) : DriverState :=
  { s with thread_array := s.thread_array.map (fun a => a.set i { e with active := false }),
           live := s.live - 1 }

/-- Where the driver goes after the `while` loop (line 1415): into the final
`for` when `thread_array` is not NULL. -/
def after_loop (s : DriverState) : DriverState :=
  match s.thread_array with
  | some _ => { s with pc := DriverPc.join 0 }
  | none => { s with pc := DriverPc.done }

/-- The acquisition of the tickets at the head of the loop body (lines
1223-1247), entered with `ip_str` not NULL. -/
def acquire_tickets (D : DriverEnv) (s : DriverState) : DriverState :=
  let s := { s with iterations := s.iterations + 1 }
  match s.thread_array with
  | none =>
    -- Starting point, or after a wait to complete all earlier runners
    if D.max_threads_scantype > 0 ∧ s.semaphore_scantype = 0 then
      { s with pc := DriverPc.blocked }
    else
      let s := if D.max_threads_scantype > 0 then
          { s with semaphore_scantype := s.semaphore_scantype - 1 }
        else s
      if s.semaphore = 0 then { s with pc := DriverPc.blocked }
      else { s with semaphore := s.semaphore - 1, pc := DriverPc.dispatch }
  | some _ =>
    let stwST := sem_trywait s.semaphore_scantype
    let stwS := sem_trywait s.semaphore
    let s := { s with semaphore_scantype := stwST.2, semaphore := stwS.2 }
    if (D.max_threads_scantype = 0 ∨ stwST.1 = true) ∧ stwS.1 = true then
      { s with pc := DriverPc.dispatch }
    else
      -- if not pass -- all slots busy
      { s with pc := DriverPc.drain 0 }

/-- The branch `if (pass)` (lines 1325-1370) for the address `ip_str`, the
iterator yielding `rest` afterwards.  The worker table grows by one slot
that holds the new thread; `thread_count` is the number of slots whenever
this point is reached. -/
def dispatch_worker (D : DriverEnv) (ip_str : String) (rest : List String)
    (s : DriverState) : DriverState :=
  if D.malloc_ok s.iterations = false then after_loop s
  else if D.pthread_create_ok s.iterations = true then
    let s := { s with live := s.live + 1, dispatched := s.dispatched ++ [ip_str],
                      thread_count := s.thread_count + 1 }
    if D.realloc_ok s.iterations = false then after_loop s
    else
      { s with thread_array :=
                 some (s.thread_array.getD [] ++ [⟨s.dispatched.length, true⟩]),
               ip := rest, pc := DriverPc.loop_test }
  else { s with ip := rest, pc := DriverPc.loop_test }

/-- One turn of the `for` of the clean-up midway (lines 1380-1405), before
index `i`. -/
def drain_step (D : DriverEnv) (i : Nat) (s : DriverState) : DriverState :=
  if i < s.thread_count then
    match s.thread_array.bind (fun a => a[i]?) with
    | none => { s with out_of_bounds := true, pc := DriverPc.drain (i + 1) }
    | some e =>
      if e.active = false then
        { sem_post_both D s with pc := DriverPc.drain (i + 1) }
      else
        { sem_post_both D (join_thread i e s) with pc := DriverPc.drain (i + 1) }
  else
    { s with thread_count := 0, thread_array := none, pc := DriverPc.loop_test }

/-- One turn of the final `for` (lines 1418-1447), before index `i`. -/
def join_step (D : DriverEnv) (i : Nat) (s : DriverState) : DriverState :=
  if i < s.thread_count then
    match s.thread_array.bind (fun a => a[i]?) with
    | none => { s with out_of_bounds := true, pc := DriverPc.join (i + 1) }
    | some e =>
      if e.active = false then { s with pc := DriverPc.join (i + 1) }
      else
        { sem_post_both D (join_thread i e s) with pc := DriverPc.join (i + 1) }
  else { s with pc := DriverPc.done }

/-- One step of the driver. -/
def driver_step (D : DriverEnv) (s : DriverState) : DriverState :=
  match s.pc with
  | DriverPc.loop_test =>
    match s.ip with
    | [] => after_loop s
    | _ :: _ => acquire_tickets D s
  | DriverPc.dispatch =>
    match s.ip with
    | [] => after_loop s
    | ip_str :: rest => dispatch_worker D ip_str rest s
  | DriverPc.drain i => drain_step D i s
  | DriverPc.join i => join_step D i s
  | DriverPc.blocked => s
  | DriverPc.done => s

/-- The state after `n` steps of the driver. -/
def driver_run (D : DriverEnv) : Nat → DriverState → DriverState
  | 0, s => s
  | n + 1, s => driver_run D n (driver_step D s)

/-- The state in which the loop is entered (line 1208): the global semaphore
holds `global_count` tickets, the scan-type semaphore was initialised with
`max_threads_scantype`, and there is no worker table. -/
def driver_init (D : DriverEnv) (global_count : Nat) (addresses : List String) :
    DriverState :=
  { pc := DriverPc.loop_test, ip := addresses, semaphore := global_count,
    semaphore_scantype := D.max_threads_scantype, thread_array := none,
    thread_count := 0, iterations := 0, live := 0, dispatched := [],
    out_of_bounds := false }

/-- A driver for which every allocation and thread creation succeeds. -/
def demo_driver (max_threads_scantype : Nat) : DriverEnv :=
  ⟨max_threads_scantype, fun _ => true, fun _ => true, fun _ => true⟩

/-! ## The initialisation of the library -/

/-- The static flag `nut_initialized_snmp` (line 129).  The second field is
not in the C code: it counts the calls of `nut_init_snmp` made so far. -/
structure LibState where
  nut_initialized_snmp : Int
  init_snmp_calls : Nat
  deriving DecidableEq, Repr

/-- The function `init_snmp_once` (lines 1076-1083). -/
def init_snmp_once (l : LibState) : LibState :=
  if l.nut_initialized_snmp = 0 then
    { nut_initialized_snmp := 1, init_snmp_calls := l.init_snmp_calls + 1 }
  else l

/-- The function `nutscan_unload_snmp_library` (lines 196-204) on the flag:
nothing in a build `WITH_SNMP_STATIC`, a reset of the flag otherwise. -/
def nutscan_unload_snmp_library (WITH_SNMP_STATIC : Bool) (l : LibState) : LibState :=
  if WITH_SNMP_STATIC = true then l else { l with nut_initialized_snmp := 0 }

/-- What one call of `nutscan_scan_ip_range_snmp` does to the flag (lines
1176-1206): the two early returns come before `init_snmp_once`, and nothing
after line 1206 reads or writes the flag.  `irl_set` is false when `irl` or
`irl->ip_ranges` is NULL. -/
def nutscan_scan_ip_range_snmp_init (l : LibState) (call : Bool × Bool) : LibState :=
  -- call.1 is nutscan_avail_snmp, call.2 is irl_set
  if call.1 = false then l
  else if call.2 = false then l
  else init_snmp_once l

/-- A sequence of calls of `nutscan_scan_ip_range_snmp`, each with the value
of `nutscan_avail_snmp` and of `irl_set` at the call. -/
def scan_sequence_init (calls : List (Bool × Bool)) (l : LibState) : LibState :=
  calls.foldl nutscan_scan_ip_range_snmp_init l

/-! ## The range driver with its workers

In a build with `HAVE_PTHREAD` and semaphores the driver runs together with
the workers it has created.  Each worker appends its descriptors to
`dev_ret` between `pthread_mutex_lock(&dev_mutex)` and
`pthread_mutex_unlock(&dev_mutex)` (lines 575-581), so one publication is
one indivisible step.  The scheduler, given as the list of who takes the
next step, decides the order of the steps of the driver and of the workers;
a `pthread_join` of the driver returns only once the joined worker has
ended.  A worker that the driver never joins goes on after
`nutscan_scan_ip_range_snmp` has returned.
-/

/-- The descriptors that the worker of one address publishes, in order: what
`try_SysOID_thready`, with `peername` bound to the address, appends to
`dev_ret`, the worker numbering its own requests from 0.  A worker only
appends to `dev_ret` and never reads it, so this list does not depend on
what the other workers have published. -/
def worker_publications (env : NetSnmp) (snmp_device_table : List snmp_device_id_t)
    (g_usec_timeout : Int) (sec : nutscan_snmp_t) (ip_str : String) :
    List nutscan_device_t :=
  (try_SysOID_thready env snmp_device_table g_usec_timeout
    { sec with peername := some ip_str } ⟨[], 0, []⟩).dev_ret

/-- Who takes the next step: the driver, or the worker number `k` in order
of creation, from 0. -/
inductive Turn
  | driver
  | worker (k : Nat)
  deriving DecidableEq, Repr

/-- State of a scan with threads: the driver, for each worker created so far
the descriptors it has still to publish, the sink `dev_ret`, and the list
that the function returned once it has returned. -/
structure ThreadedState where
  driver : DriverState
  pending : List (List nutscan_device_t)
  dev_ret : List nutscan_device_t
  result : Option (List nutscan_device_t)
  deriving DecidableEq, Repr

/-- The next descriptor of the worker number `k` with the work that is left
once it is taken; `none` when there is no such worker or it has nothing left
to publish. -/
def next_publication : Nat → List (List nutscan_device_t) →
    Option (nutscan_device_t × List (List nutscan_device_t))
  | _, [] => none
  | 0, [] :: _ => none
  | 0, (dev :: rest) :: ps => some (dev, rest :: ps)
  | k + 1, p :: ps => (next_publication k ps).map (fun r => (r.1, p :: r.2))

/-- One publication by the worker number `k`, under `dev_mutex` (lines
575-581): its next descriptor is appended to `dev_ret`.  Nothing happens
when the worker has ended. -/
def worker_turn (k : Nat) (s : ThreadedState) : ThreadedState :=
  match next_publication k s.pending with
  | some (dev, pending) =>
    { s with pending := pending,
             dev_ret := nutscan_add_device_to_device s.dev_ret dev }
  | none => s

/-- The entry `thread_array[i]` when the driver, in one of its two `for`
loops before index `i`, is about to call `pthread_join` on it (lines 1393 and
1423): the index is below `thread_count`, the slot is allocated and
`active`. -/
def join_entry (d : DriverState) (i : Nat) : Option nutscan_thread_t :=
  if i < d.thread_count then
    match d.thread_array.bind (fun a => a[i]?) with
    | some e => if e.active = true then some e else none
    | none => none
  else none

/-- The thread that the next step of the driver joins, if it joins one. -/
def join_target (d : DriverState) : Option Nat :=
  match d.pc with
  | DriverPc.drain i => (join_entry d i).map (fun e => e.thread)
  | DriverPc.join i => (join_entry d i).map (fun e => e.thread)
  | _ => none

/-- Whether the thread has ended.  Threads are numbered from 1 in order of
creation (`dispatch_worker`), so the thread `thread` is the worker number
`thread - 1`; it has ended when it has nothing left to publish. -/
def worker_ended (pending : List (List nutscan_device_t)) (thread : Nat) : Bool :=
  match pending[thread - 1]? with
  | some (_ :: _) => false
  | _ => true

/-- One step of the driver thread.  Once the function has returned nothing
happens.  At the end of the driver the function returns (lines 1468-1470):
the result is the rewound `dev_ret`, and `dev_ret` is reset.  A step that
joins a thread is taken only if the thread has ended, otherwise the driver
waits.  Any other step is the step of `driver_step`; when it creates a
worker, the worker starts with all its publications before it. -/
def driver_turn (D : DriverEnv) (publications : String → List nutscan_device_t)
    (s : ThreadedState) : ThreadedState :=
  match s.result with
  | some _ => s
  | none =>
    if s.driver.pc = DriverPc.done then
      { s with result := some (nutscan_rewind_device s.dev_ret), dev_ret := [] }
    else
      match join_target s.driver with
      | some thread =>
        if worker_ended s.pending thread = true then
          { s with driver := driver_step D s.driver }
        else s
      | none =>
        { s with driver := driver_step D s.driver,
                 pending := s.pending
                   ++ ((driver_step D s.driver).dispatched.drop
                        s.driver.dispatched.length).map publications }

/-- One step of the scan with threads. -/
def threaded_step (D : DriverEnv) (publications : String → List nutscan_device_t)
    (s : ThreadedState) : Turn → ThreadedState
  | Turn.driver => driver_turn D publications s
  | Turn.worker k => worker_turn k s

/-- The steps of a schedule, one after the other. -/
def threaded_run (D : DriverEnv) (publications : String → List nutscan_device_t)
    (schedule : List Turn) (s : ThreadedState) : ThreadedState :=
  schedule.foldl (threaded_step D publications) s

/-- The state in which the loop of `nutscan_scan_ip_range_snmp` is entered
(line 1208) in a build with threads and semaphores, `dev_ret` holding
`dev_ret` at the call; after one of the two early returns (lines 1176-1182)
the function has returned NULL and `dev_ret` is as it was. -/
def threaded_entry (D : DriverEnv) (global_count : Nat) (nutscan_avail_snmp : Bool)
    (irl : Option (List String)) (dev_ret : List nutscan_device_t) : ThreadedState :=
  if nutscan_avail_snmp = false then
    ⟨driver_init D global_count [], [], dev_ret, some []⟩
  else
    match irl with
    | none =>
      ⟨driver_init D global_count [], [], dev_ret, some []⟩
    | some addresses => ⟨driver_init D global_count addresses, [], dev_ret, none⟩

/-- The function `nutscan_scan_ip_range_snmp` (lines 1104-1471) in a build
with threads and semaphores, under a schedule: the state after the steps of
the schedule, whose field `result` holds the returned list once the
function has returned. -/
def nutscan_scan_ip_range_snmp_threaded (env : NetSnmp)
    (snmp_device_table : List snmp_device_id_t) (D : DriverEnv) (global_count : Nat)
    (nutscan_avail_snmp : Bool) (irl : Option (List String)) (usec_timeout : Int)
    (sec : nutscan_snmp_t) (schedule : List Turn) (dev_ret : List nutscan_device_t) :
    ThreadedState :=
  threaded_run D (worker_publications env snmp_device_table usec_timeout sec) schedule
    (threaded_entry D global_count nutscan_avail_snmp irl dev_ret)

/-! ## Reading descriptors -/

/-- Value of an option of a descriptor: the first entry with that key. -/
def device_option (d : nutscan_device_t) (key : String) : Option String :=
  d.opt.lookup key

/-- The key `(peer, mib)` of a descriptor in the result sink. -/
def device_key (d : nutscan_device_t) : Option String × Option String :=
  (d.port, device_option d "mibs")

/-- Rows of the table whose sysOID is set, parses, and compares equal to
`objid` (the test of lines 1012-1030). -/
def sysoid_matches (env : NetSnmp) (objid : Oid) (e : snmp_device_id_t) : Bool :=
  match e.sysoid with
  | none => false
  | some sysoid =>
    match env.snmp_parse_oid sysoid with
    | none => false
    | some name => snmp_oid_compare objid name = 0

/-- Rows of the table without a probe OID (`oid` NULL or empty). -/
def no_probe_oid (e : snmp_device_id_t) : Bool :=
  e.oid = none ∨ e.oid = some ""

/-- The text that a response contributes as `desc`: the value of its first
variable, read as a string; nothing when there is no response. -/
def response_value (response : Option snmp_pdu) : Option String :=
  match response with
  | none => none
  | some r =>
    match r.vars with
    | [] => none
    | v :: _ => v.val.map (fun val => val.string)

/-- A session as `snmp_sess_init` leaves it: every field zero or NULL. -/
def demo_session : snmp_session :=
  ⟨0, none, none, 0, 0, none, 0, none, 0, [], 0, none, 0, [], 0, 0, 0⟩

/-- A parser that knows the three OID texts of the examples. -/
def demo_parse_oid (s : String) : Option Oid :=
  if s = ".1.3.6.1.2.1.1.2.0" then some [1, 3, 6, 1, 2, 1, 1, 2, 0]
  else if s = ".1.3.6.1.4.1.1.1" then some [1, 3, 6, 1, 4, 1, 1, 1]
  else if s = ".1.3.6.1.2.1.1.5.0" then some [1, 3, 6, 1, 2, 1, 1, 5, 0]
  else none

/-- A key generator that rejects pass phrases shorter than 8 characters. -/
def demo_generate_Ku (_hashtype : Option Oid) (hashtype_len : Nat) (_P : String)
    (pplen : Nat) (kulen : Nat) : Int × List Nat × Nat :=
  if pplen < 8 then (-1, [], kulen) else (0, List.replicate 4 (hashtype_len + pplen), 4)

/-- A library with every protocol built in, whose `snmp_sess_open` keeps the
session it is given, over a host described by `agent`. -/
def demo_net (agent : Nat → Option Handle → Oid → Int × Option snmp_pdu) : NetSnmp where
  cfg := ⟨true, true, true, true, true, true, true, true, true, true⟩
  snmp_sess_init := demo_session
  snmp_parse_oid := demo_parse_oid
  snmp_pdu_create := fun _ => true
  snmp_sess_synch_response := agent
  snmp_sess_open := fun _ s => some ⟨some s⟩
  generate_Ku := demo_generate_Ku
  usmHMACMD5AuthProtocol := [1, 3, 6, 1, 6, 3, 10, 1, 1, 2]
  usmHMACSHA1AuthProtocol := [1, 3, 6, 1, 6, 3, 10, 1, 1, 3]
  usmHMAC192SHA256AuthProtocol := [1, 3, 6, 1, 6, 3, 10, 1, 1, 5]
  usmHMAC256SHA384AuthProtocol := [1, 3, 6, 1, 6, 3, 10, 1, 1, 6]
  usmHMAC384SHA512AuthProtocol := [1, 3, 6, 1, 6, 3, 10, 1, 1, 7]
  usmDESPrivProtocol := [1, 3, 6, 1, 6, 3, 10, 1, 2, 2]
  usmAESPrivProtocol := [1, 3, 6, 1, 6, 3, 10, 1, 2, 4]
  usmAES192PrivProtocol := [1, 3, 6, 1, 4, 1, 14832, 1, 3]
  usmAES256PrivProtocol := [1, 3, 6, 1, 4, 1, 14832, 1, 4]
  USM_AUTH_KU_LEN := 32
  USM_PRIV_KU_LEN := 32

/-- A well-formed response carrying `val` for the requested `name`. -/
def demo_reply (name : Oid) (val : netsnmp_vardata) : Int × Option snmp_pdu :=
  (STAT_SUCCESS, some ⟨SNMP_ERR_NOERROR, [⟨some name, some val⟩]⟩)

/-- A host whose sysObjectID is `.1.3.6.1.4.1.1.1` and whose sysName is
"ACME UPS"; any other request times out. -/
def demo_agent (_calls : Nat) (_handle : Option Handle) (name : Oid) :
    Int × Option snmp_pdu :=
  if name = [1, 3, 6, 1, 2, 1, 1, 2, 0] then
    demo_reply name ⟨"", [1, 3, 6, 1, 4, 1, 1, 1]⟩
  else if name = [1, 3, 6, 1, 2, 1, 1, 5, 0] then
    demo_reply name ⟨"ACME UPS", []⟩
  else (2, none)

/-- A host that answers no request at all. -/
def silent_agent (_calls : Nat) (_handle : Option Handle) (_name : Oid) :
    Int × Option snmp_pdu :=
  (2, none)

/-- Credentials of an SNMPv1 scan of host 10.0.0.1 with the given
community. -/
def demo_sec (community : Option String) : nutscan_snmp_t :=
  ⟨community, none, none, none, none, none, none, some "10.0.0.1", none⟩

/-- The empty state: nothing published, no request made. -/
def demo_state : ScanState := ⟨[], 0, []⟩

/-- Scenario S1: one row, matched by sysOID, without probe OID. -/
def table_S1 : List snmp_device_id_t :=
  [⟨some "", "ietf", some ".1.3.6.1.4.1.1.1"⟩]

/-- Scenario S2: the sysOID of the row matches nothing, its probe OID is
answered. -/
def table_S2 : List snmp_device_id_t :=
  [⟨some ".1.3.6.1.2.1.1.5.0", "ietf", some ".1.3.6.1.4.1.9.9"⟩]

/-- Scenario S6: two rows with the same sysOID and no probe OID. -/
def table_S6 : List snmp_device_id_t :=
  [⟨some "", "A", some ".1.3.6.1.4.1.1.1"⟩, ⟨none, "B", some ".1.3.6.1.4.1.1.1"⟩]

/-- A table that names the MIB "ietf" in two rows with the same sysOID. -/
def table_twice : List snmp_device_id_t :=
  [⟨some "", "ietf", some ".1.3.6.1.4.1.1.1"⟩, ⟨none, "ietf", some ".1.3.6.1.4.1.1.1"⟩]

/-- A host that answers the sysObjectID request with a NULL value, as an
SNMPv1 agent reporting noSuchName does, and nothing else. -/
def null_agent (_calls : Nat) (_handle : Option Handle) (name : Oid) :
    Int × Option snmp_pdu :=
  if name = [1, 3, 6, 1, 2, 1, 1, 2, 0] then
    (STAT_SUCCESS, some ⟨2, [⟨some name, none⟩]⟩)
  else (2, none)

/-- The session that `init_session` builds for `demo_sec (some "public")`,
with the `retries` and `timeout` set by the worker for a timeout of one
second. -/
def demo_open_session : snmp_session :=
  { demo_session with peername := some "10.0.0.1", version := SNMP_VERSION_1,
                      community := some "public", community_len := 6,
                      retries := 0, timeout := 1000000 }

/-- The handle that the example library returns for `demo_open_session`. -/
def demo_handle : Handle := ⟨some demo_open_session⟩

/-- Credentials of an SNMPv3 scan of host 10.0.0.1 with the given security
level, the user "u" and the pass phrases "password1" and "password2". -/
def demo_sec_v3 (secLevel : String) : nutscan_snmp_t :=
  ⟨none, some secLevel, some "u", some "password1", some "password2", none, none,
    some "10.0.0.1", none⟩

/-- The session of `init_session` at line 714, on the SNMPv3 path: version,
security level and security name are written. -/
def init_session_v3_named (env : NetSnmp) (sec : nutscan_snmp_t) (lvl : Int)
    (secName : String) : snmp_session :=
  { env.snmp_sess_init with peername := sec.peername, version := SNMP_VERSION_3,
                            securityLevel := lvl, securityName := some secName,
                            securityNameLen := secName.length }

/-- The session of `init_session` at line 805, after the authentication
protocol block, with the flag of that block. -/
def init_session_auth_stage (env : NetSnmp) (sec : nutscan_snmp_t) (lvl : Int)
    (secName : String) : Bool × snmp_session :=
  init_session_auth_proto env sec (init_session_v3_named env sec lvl secName)

/-- The return code, key and key length of the call of `generate_Ku` on the
authentication pass phrase (lines 826-831). -/
def init_session_auth_Ku (env : NetSnmp) (sec : nutscan_snmp_t) (lvl : Int)
    (secName : String) : Int × List Nat × Nat :=
  env.generate_Ku (init_session_auth_stage env sec lvl secName).2.securityAuthProto
    (init_session_auth_stage env sec lvl secName).2.securityAuthProtoLen
    (sec.authPassword.getD "") (sec.authPassword.getD "").length
    (init_session_auth_stage env sec lvl secName).2.securityAuthKeyLen

/-- The authentication part of the SNMPv3 branch (lines 747-839) goes
through: the protocol is known, its length is in range and the key is
generated. -/
def init_session_auth_ok (env : NetSnmp) (sec : nutscan_snmp_t) (lvl : Int)
    (secName : String) : Bool :=
  (init_session_auth_stage env sec lvl secName).1
  && decide ((init_session_auth_stage env sec lvl secName).2.securityAuthProtoLen ≤ UINT_MAX)
  && decide ((init_session_auth_Ku env sec lvl secName).1 = SNMPERR_SUCCESS)

/-- The session of `init_session` at line 839, with the authentication key
stored. -/
def init_session_auth_session (env : NetSnmp) (sec : nutscan_snmp_t) (lvl : Int)
    (secName : String) : snmp_session :=
  { (init_session_auth_stage env sec lvl secName).2 with
    securityAuthKey := (init_session_auth_Ku env sec lvl secName).2.1,
    securityAuthKeyLen := (init_session_auth_Ku env sec lvl secName).2.2 }

/-- The example library with a key generator that accepts every pass
phrase. -/
def lenient_net : NetSnmp :=
  { demo_net demo_agent with generate_Ku := fun _ _ _ pplen _ => (0, [pplen], 1) }

/-- The format strings of the warnings of `init_session`, in the order of
the source: bad security level, missing security name, missing
authentication pass phrase (authNoPriv), missing pass phrase (authPriv), bad
authentication protocol, bad protocol length, failed authentication key, bad
privacy protocol, failed privacy key. -/
def init_session_warnings : List String :=
  ["WARNING: %s: Bad SNMPv3 securityLevel: %s",
   "WARNING: %s: securityName is required for SNMPv3",
   "WARNING: %s: authPassword is required for SNMPv3 in %s mode",
   "WARNING: %s: authPassword and privPassword are required for SNMPv3 in %s mode",
   "WARNING: %s: Bad SNMPv3 authProtocol: %s",
   "WARNING: %s: Bad SNMPv3 securityAuthProtoLen: %zu",
   "WARNING: %s: Error generating Ku from authentication pass phrase",
   "WARNING: %s: Bad SNMPv3 privProtocol: %s",
   "WARNING: %s: Error generating Ku from private pass phrase"]

/-- The entry that `if (x) nutscan_add_option_to_device(dev, key, x);` adds
to the option map: one pair when `x` is supplied, nothing otherwise. -/
def optional_entry (key : String) (x : Option String) : List (String × String) :=
  match x with
  | some value => [(key, value)]
  | none => []

/-- The ticket bound for the global cap `G` and the scan-type cap of `D`,
with `extra` workers about to be created: the live workers, those about to
be created and the free tickets do not exceed either cap. -/
def TicketBound (D : DriverEnv) (G : Nat) (extra : Nat) (s : DriverState) : Prop :=
  s.live + extra + s.semaphore ≤ G
  ∧ (D.max_threads_scantype > 0 →
      s.live + extra + s.semaphore_scantype ≤ D.max_threads_scantype)

/-- The worker table at the head of the loop: `thread_count` is the number
of allocated slots, every slot is active, and each slot is a live worker. -/
def TableOk (s : DriverState) : Prop :=
  match s.thread_array with
  | none => s.thread_count = 0
  | some a => s.thread_count = a.length ∧ (∀ e ∈ a, e.active = true) ∧ a.length ≤ s.live

/-- The invariant of the driver, by program point. -/
def DriverInv (D : DriverEnv) (G : Nat) (s : DriverState) : Prop :=
  match s.pc with
  | DriverPc.loop_test => TicketBound D G 0 s ∧ TableOk s
  | DriverPc.dispatch => TicketBound D G 1 s ∧ TableOk s
  | DriverPc.drain i =>
    TicketBound D G 0 s
    ∧ ∃ a, s.thread_array = some a ∧ s.thread_count = a.length
        ∧ (∀ e ∈ a.drop i, e.active = true) ∧ (a.drop i).length ≤ s.live
  | DriverPc.join i =>
    TicketBound D G 0 s
    ∧ ∃ a, s.thread_array = some a
        ∧ ((a.drop i).filter (fun e => e.active)).length ≤ s.live
  | DriverPc.blocked => TicketBound D G 0 s
  | DriverPc.done => TicketBound D G 0 s

/-- The state `st` with the descriptors `pre` in front of its `dev_ret`:
the same worker state over a sink that already holds `pre`. -/
def with_sink (pre : List nutscan_device_t) (st : ScanState) : ScanState :=
  { st with dev_ret := pre ++ st.dev_ret }

/-- The descriptors that the loop of one scan (build without threads)
publishes over the addresses, in order of publication: what it leaves in a
sink that was empty. -/
def scan_published (env : NetSnmp) (snmp_device_table : List snmp_device_id_t)
    (g_usec_timeout : Int) (sec : nutscan_snmp_t) (malloc_ok : Nat → Bool)
    (addresses : List String) (st : ScanState) : List nutscan_device_t :=
  (scan_loop_nothread env snmp_device_table g_usec_timeout sec malloc_ok addresses 0
    { st with dev_ret := [] }).dev_ret

/-- Every `malloc`, `pthread_create` and `realloc` of the driver succeeds. -/
def AllSucceed (D : DriverEnv) : Prop :=
  (∀ n, D.malloc_ok n = true) ∧ (∀ n, D.pthread_create_ok n = true)
    ∧ (∀ n, D.realloc_ok n = true)

/-- The worker table seen from index `i` on: `thread_count` is its size, it
has at least one slot and no more slots than addresses were dispatched, the
slots from `i` on hold threads that are not joined yet, and these are all
the live workers. -/
def TableFrom (i : Nat) (s : DriverState) : Prop :=
  ∃ a, s.thread_array = some a ∧ s.thread_count = a.length ∧ 1 ≤ a.length
    ∧ i ≤ a.length ∧ a.length ≤ s.dispatched.length
    ∧ (∀ e ∈ a.drop i, e.active = true) ∧ s.live + i = a.length

/-- The worker table at the head of the loop: either there is none and no
worker is live, or every slot holds a live worker. -/
def TableAt (s : DriverState) : Prop :=
  (s.thread_array = none ∧ s.thread_count = 0 ∧ s.live = 0) ∨ TableFrom 0 s

/-- What holds at every step of a driver for which every allocation and
thread creation succeeds, started on `addresses` with a free ticket in each
semaphore: the addresses dispatched so far and the addresses left make up
`addresses`; no slot outside the table was read; a blocking acquisition is
reached with a free ticket in each semaphore; the driver is never stuck in a
`sem_wait`. -/
def DriverProgress (D : DriverEnv) (addresses : List String) (s : DriverState) : Prop :=
  s.dispatched ++ s.ip = addresses ∧ s.out_of_bounds = false ∧
  match s.pc with
  | DriverPc.loop_test =>
    TableAt s ∧ (s.thread_array = none →
      1 ≤ s.semaphore ∧ (D.max_threads_scantype > 0 → 1 ≤ s.semaphore_scantype))
  | DriverPc.dispatch => TableAt s ∧ s.ip ≠ []
  | DriverPc.drain i =>
    TableFrom i s ∧ s.ip ≠ [] ∧ i ≤ s.semaphore
      ∧ (D.max_threads_scantype > 0 → i ≤ s.semaphore_scantype)
  | DriverPc.join i => TableFrom i s ∧ s.ip = []
  | DriverPc.blocked => False
  | DriverPc.done => s.ip = [] ∧ s.live = 0

/-- A bound on the number of steps that the driver still takes, for `N`
addresses in all: each address left costs at most `N + 5` steps (a drain of
at most `N` workers, two acquisitions, one dispatch), plus what the current
program point needs. -/
def driver_measure (N : Nat) (s : DriverState) : Nat :=
  s.ip.length * (N + 5) +
  match s.pc with
  | DriverPc.loop_test => if s.thread_count = 0 then 2 else s.thread_count + 4
  | DriverPc.dispatch => 1
  | DriverPc.drain i => (s.thread_count - i) + 3
  | DriverPc.join i => (s.thread_count - i) + 1
  | DriverPc.blocked => 0
  | DriverPc.done => 0

/-- The 64 addresses 10.0.0.0 to 10.0.0.63. -/
def demo_range64 : List String :=
  (List.range 64).map (fun i => "10.0.0." ++ toString i)

/-- A driver whose `realloc` fails in the loop iteration number `k` and
nowhere else, every `malloc` and `pthread_create` succeeding. -/
def realloc_fails_at (k : Nat) (max_threads_scantype : Nat) : DriverEnv :=
  ⟨max_threads_scantype, fun _ => true, fun _ => true, fun n => decide (n ≠ k)⟩

/-- A driver whose `malloc` fails in the loop iteration number `k` and
nowhere else, every `pthread_create` and `realloc` succeeding. -/
def malloc_fails_at (k : Nat) (max_threads_scantype : Nat) : DriverEnv :=
  ⟨max_threads_scantype, fun n => decide (n ≠ k), fun _ => true, fun _ => true⟩

/-- The worker table seen from index `i` on, for a driver whose `realloc`
never fails: `thread_count` is the size of the table, the slots from `i` on
hold threads that are not joined yet, and these are all the live workers. -/
def TrackedFrom (i : Nat) (s : DriverState) : Prop :=
  ∃ a, s.thread_array = some a ∧ s.thread_count = a.length ∧ i ≤ a.length
    ∧ (∀ e ∈ a.drop i, e.active = true) ∧ s.live + i = a.length

/-- What holds at every step of a driver whose `realloc` never fails: no
slot outside the worker table was read, every live worker has its slot in the
table, and at the end no worker is live. -/
def Tracked (s : DriverState) : Prop :=
  s.out_of_bounds = false ∧
  match s.pc with
  | DriverPc.loop_test =>
    (s.thread_array = none ∧ s.thread_count = 0 ∧ s.live = 0) ∨ TrackedFrom 0 s
  | DriverPc.dispatch =>
    (s.thread_array = none ∧ s.thread_count = 0 ∧ s.live = 0) ∨ TrackedFrom 0 s
  | DriverPc.drain i => TrackedFrom i s
  | DriverPc.join i => TrackedFrom i s
  | DriverPc.blocked => True
  | DriverPc.done => s.live = 0

/-- The thread numbers in the worker table, for a driver whose `realloc`
never fails: the table has no more slots than workers were created, and its
slots hold, in order, the threads created last. -/
def ThreadIds (d : DriverState) : Prop :=
  ∀ a, d.thread_array = some a →
    a.length ≤ d.dispatched.length
    ∧ ∀ j e, a[j]? = some e → e.thread = d.dispatched.length - a.length + j + 1

/-- What holds at every step of a scan with threads whose `realloc` never
fails, started on `addresses` with `dev0` in the sink: the driver is in a
state of `driver_run`; there is one worker per address handed over; every
worker but the live ones (those created last) has ended; before the return
the sink and the publications to come are, up to order, `dev0` and the
publications of all workers; after the return the driver is at the end, the
sink is empty, every worker has ended and the result is, up to order, `dev0`
and the publications of all workers. -/
def ThreadedInv (D : DriverEnv) (publications : String → List nutscan_device_t)
    (global_count : Nat) (addresses : List String) (dev0 : List nutscan_device_t)
    (s : ThreadedState) : Prop :=
  (∃ m, s.driver = driver_run D m (driver_init D global_count addresses))
  ∧ s.pending.length = s.driver.dispatched.length
  ∧ (∀ k, k + s.driver.live < s.driver.dispatched.length → s.pending[k]? = some [])
  ∧ match s.result with
    | none =>
      List.Perm (s.dev_ret ++ s.pending.flatten)
        (dev0 ++ (s.driver.dispatched.map publications).flatten)
    | some r =>
      s.driver.pc = DriverPc.done ∧ s.dev_ret = [] ∧ (∀ p ∈ s.pending, p = [])
      ∧ List.Perm r (dev0 ++ (s.driver.dispatched.map publications).flatten)

/-- The scan with threads of the example hosts: library `demo_net
demo_agent`, catalog `table_S1`, community "public", 3 tickets in the global
semaphore. -/
def demo_threaded_scan (D : DriverEnv) (addresses : List String) (schedule : List Turn)
    (dev_ret : List nutscan_device_t) : ThreadedState :=
  nutscan_scan_ip_range_snmp_threaded (demo_net demo_agent) table_S1 D 3 true
    (some addresses) 1000000 (demo_sec (some "public")) schedule dev_ret

/-- The peers of a list of descriptors. -/
def device_ports (l : List nutscan_device_t) : List (Option String) :=
  l.map (fun d => d.port)

/-- A schedule for the failing `realloc` of the second iteration: the
driver creates two workers, the first worker publishes, and the driver goes
through its final loop and returns. -/
def schedule_return_early : List Turn :=
  [Turn.driver, Turn.driver, Turn.driver, Turn.driver, Turn.worker 0,
   Turn.driver, Turn.driver, Turn.driver, Turn.driver]

/-- The same steps, the second worker publishing before the driver goes
through its final loop. -/
def schedule_publish_first : List Turn :=
  [Turn.driver, Turn.driver, Turn.driver, Turn.driver, Turn.worker 0, Turn.worker 1,
   Turn.driver, Turn.driver, Turn.driver, Turn.driver]

/-- A schedule for one address: the driver creates the worker, the worker
publishes, and the driver joins it and returns. -/
def schedule_one_address : List Turn :=
  [Turn.driver, Turn.driver, Turn.worker 0, Turn.driver, Turn.driver, Turn.driver,
   Turn.driver]

/-- A schedule for two addresses without failure, the first worker publishing
first. -/
def schedule_two_in_order : List Turn :=
  [Turn.driver, Turn.driver, Turn.driver, Turn.driver, Turn.worker 0, Turn.worker 1,
   Turn.driver, Turn.driver, Turn.driver, Turn.driver, Turn.driver]

/-- A schedule for two addresses without failure, the second worker
publishing first. -/
def schedule_two_reversed : List Turn :=
  [Turn.driver, Turn.driver, Turn.driver, Turn.driver, Turn.worker 1, Turn.worker 0,
   Turn.driver, Turn.driver, Turn.driver, Turn.driver, Turn.driver]

/-- A schedule for the failing `realloc` of the first iteration: the driver
creates the first worker, leaves the loop and returns, the worker not having
published. -/
def schedule_first_failure : List Turn :=
  [Turn.driver, Turn.driver, Turn.driver]

/-- The same steps, the worker publishing before the driver returns. -/
def schedule_first_failure_published : List Turn :=
  [Turn.driver, Turn.driver, Turn.worker 0, Turn.driver]

/-! ## Auxiliary facts -/

theorem snmp_oid_compare_eq_zero_iff (a b : Oid) :
    snmp_oid_compare a b = 0 ↔ a = b := by
  induction a generalizing b with
  | nil => cases b <;> simp [snmp_oid_compare]
  | cons x xs ih =>
    cases b with
    | nil => simp [snmp_oid_compare]
    | cons y ys =>
      simp only [snmp_oid_compare]
      by_cases hxy : x = y
      · simp [hxy, ih]
      · simp only [ne_eq, hxy, not_false_eq_true, if_true, List.cons.injEq, false_and, iff_false]
        split <;> decide

theorem scan_snmp_add_device_calls (sec : nutscan_snmp_t) (response : Option snmp_pdu)
    (mib : String) (st : ScanState) :
    (scan_snmp_add_device sec response mib st).calls = st.calls := by
  unfold scan_snmp_add_device
  split <;> rfl

theorem scan_snmp_add_device_trace (sec : nutscan_snmp_t) (response : Option snmp_pdu)
    (mib : String) (st : ScanState) :
    (scan_snmp_add_device sec response mib st).trace = st.trace := by
  unfold scan_snmp_add_device
  split <;> rfl

/-- The log written by the Phase 1 loop holds calls of `scan_snmp_get_oid`
only. -/
theorem sysoid_loop_trace (env : NetSnmp) (sec : nutscan_snmp_t) (handle : Handle)
    (objid : Oid) (table : List snmp_device_id_t) :
    ∀ (mib_found : Option String) (st : ScanState),
      ∃ l, (sysoid_loop env sec handle objid table mib_found st).2.trace = st.trace ++ l
        ∧ Event.try_all_oid ∉ l := by
  induction table with
  | nil => intro mf st; exact ⟨[], by simp [sysoid_loop]⟩
  | cons e rest ih =>
    intro mf st
    simp only [sysoid_loop]
    split
    · exact ih mf st
    · split
      · exact ih mf st
      · split
        · split
          · obtain ⟨l, hl, hn⟩ := ih (some _) (scan_snmp_add_device sec none e.mib st)
            exact ⟨l, by rw [hl, scan_snmp_add_device_trace], hn⟩
          · split
            · rename_i resp st1 heq
              obtain ⟨l, hl, hn⟩ := ih (some e.mib) (scan_snmp_add_device sec (some resp) e.mib st1)
              simp only [scan_snmp_get_oid, Prod.mk.injEq] at heq
              refine ⟨Event.get_oid (e.oid.getD "") (some resp) :: l, ?_, ?_⟩
              · rw [hl, scan_snmp_add_device_trace, ← heq.2, heq.1]; simp
              · simp [hn]
            · rename_i st1 heq
              obtain ⟨l, hl, hn⟩ := ih mf st1
              simp only [scan_snmp_get_oid, Prod.mk.injEq] at heq
              refine ⟨Event.get_oid (e.oid.getD "") none :: l, ?_, ?_⟩
              · rw [hl, ← heq.2, heq.1]; simp
              · simp [hn]
        · exact ih mf st

theorem device_option_add (dev : nutscan_device_t) (k v key : String) :
    device_option (nutscan_add_option_to_device dev k v) key
      = (device_option dev key).or (if key = k then some v else none) := by
  simp only [device_option, nutscan_add_option_to_device, List.lookup_append]
  congr 1
  by_cases h : key = k
  · simp [h, List.lookup]
  · have hb : (key == k) = false := by simpa using h
    simp [h, List.lookup, hb]

theorem device_option_add_if_set (dev : nutscan_device_t) (k key : String)
    (x : Option String) :
    device_option (add_option_if_set dev k x) key
      = (device_option dev key).or (if key = k then x else none) := by
  cases x with
  | none => simp [add_option_if_set]
  | some v => simp [add_option_if_set, device_option_add]

theorem scan_snmp_device_port (sec : nutscan_snmp_t) (session : snmp_session)
    (response : Option snmp_pdu) (mib : String) :
    (scan_snmp_device sec session response mib).port = session.peername := by
  unfold scan_snmp_device
  simp only [nutscan_add_option_to_device, add_option_if_set]
  split
  · (repeat' split) <;> rfl
  · (repeat' split) <;> rfl

theorem scan_snmp_device_mibs (sec : nutscan_snmp_t) (session : snmp_session)
    (response : Option snmp_pdu) (mib : String) :
    device_option (scan_snmp_device sec session response mib) "mibs" = some mib := by
  unfold scan_snmp_device
  (repeat' split) <;>
    (simp only [device_option_add, device_option_add_if_set]
     simp [device_option, nutscan_new_device])

theorem scan_snmp_add_device_published (sec : nutscan_snmp_t)
    (response : Option snmp_pdu) (mib : String) (st : ScanState) :
    ∃ D, (scan_snmp_add_device sec response mib st).dev_ret = st.dev_ret ++ D
      ∧ (D.map (fun d => device_option d "mibs")).Sublist [some mib] := by
  unfold scan_snmp_add_device
  split
  · exact ⟨[], by simp⟩
  · rename_i session _
    exact ⟨[scan_snmp_device sec session response mib],
      by simp [nutscan_add_device_to_device, scan_snmp_device_mibs]⟩

theorem scan_snmp_get_oid_dev_ret (env : NetSnmp) (oid_str : String)
    (handle : Option Handle) (st : ScanState) :
    (scan_snmp_get_oid env oid_str handle st).2.dev_ret = st.dev_ret := rfl

/-- Once `mib_found` is set, the Phase 1 loop never clears it. -/
theorem sysoid_loop_found (env : NetSnmp) (sec : nutscan_snmp_t) (handle : Handle)
    (objid : Oid) (table : List snmp_device_id_t) :
    ∀ (mib_found : Option String) (st : ScanState), mib_found ≠ none →
      (sysoid_loop env sec handle objid table mib_found st).1 ≠ none := by
  induction table with
  | nil => intro mf st h; simpa [sysoid_loop] using h
  | cons e rest ih =>
    intro mf st h
    simp only [sysoid_loop]
    (repeat' split) <;> first | exact ih _ _ h | exact ih _ _ (by simp)

/-- What the Phase 1 loop publishes: the MIB names of the new descriptors
are taken from the table in table order, and nothing is published when
`mib_found` is NULL at the end. -/
theorem sysoid_loop_published (env : NetSnmp) (sec : nutscan_snmp_t) (handle : Handle)
    (objid : Oid) (table : List snmp_device_id_t) :
    ∀ (mib_found : Option String) (st : ScanState),
      ∃ L, (sysoid_loop env sec handle objid table mib_found st).2.dev_ret
            = st.dev_ret ++ L
        ∧ (L.map (fun d => device_option d "mibs")).Sublist
            (table.map (fun e => some e.mib))
        ∧ ((sysoid_loop env sec handle objid table mib_found st).1 = none → L = []) := by
  induction table with
  | nil => intro mf st; exact ⟨[], by simp [sysoid_loop]⟩
  | cons e rest ih =>
    intro mf st
    simp only [sysoid_loop]
    split
    · obtain ⟨L, h1, h2, h3⟩ := ih mf st
      exact ⟨L, h1, h2.trans (List.sublist_cons_self _ _), h3⟩
    · split
      · obtain ⟨L, h1, h2, h3⟩ := ih mf st
        exact ⟨L, h1, h2.trans (List.sublist_cons_self _ _), h3⟩
      · split
        · split
          · obtain ⟨D, hD, hDs⟩ := scan_snmp_add_device_published sec none e.mib st
            obtain ⟨L, h1, h2, _⟩ := ih _ (scan_snmp_add_device sec none e.mib st)
            refine ⟨D ++ L, ?_, ?_, ?_⟩
            · rw [h1, hD, List.append_assoc]
            · simpa using List.Sublist.append hDs h2
            · intro h
              exact absurd h (sysoid_loop_found env sec handle objid rest _ _ (by simp))
          · split
            · rename_i resp st1 heq
              have hst1 : st1.dev_ret = st.dev_ret := by
                have := scan_snmp_get_oid_dev_ret env (e.oid.getD "") (some handle) st
                rw [heq] at this; exact this
              obtain ⟨D, hD, hDs⟩ := scan_snmp_add_device_published sec (some resp) e.mib st1
              obtain ⟨L, h1, h2, _⟩ :=
                ih (some e.mib) (scan_snmp_add_device sec (some resp) e.mib st1)
              refine ⟨D ++ L, ?_, ?_, ?_⟩
              · rw [h1, hD, hst1, List.append_assoc]
              · simpa using List.Sublist.append hDs h2
              · intro h
                exact absurd h (sysoid_loop_found env sec handle objid rest _ _ (by simp))
            · rename_i st1 heq
              have hst1 : st1.dev_ret = st.dev_ret := by
                have := scan_snmp_get_oid_dev_ret env (e.oid.getD "") (some handle) st
                rw [heq] at this; exact this
              obtain ⟨L, h1, h2, h3⟩ := ih mf st1
              exact ⟨L, by rw [h1, hst1], h2.trans (List.sublist_cons_self _ _), h3⟩
        · obtain ⟨L, h1, h2, h3⟩ := ih mf st
          exact ⟨L, h1, h2.trans (List.sublist_cons_self _ _), h3⟩

/-- What the loop of `try_all_oid` publishes: the MIB names of the new
descriptors are taken from the table in table order. -/
theorem try_all_oid_loop_published (env : NetSnmp) (sec : nutscan_snmp_t)
    (mib_found : Option String) (table : List snmp_device_id_t) :
    ∀ (st : ScanState),
      ∃ L, (try_all_oid_loop env sec mib_found table st).dev_ret = st.dev_ret ++ L
        ∧ (L.map (fun d => device_option d "mibs")).Sublist
            (table.map (fun e => some e.mib)) := by
  induction table with
  | nil => intro st; exact ⟨[], by simp [try_all_oid_loop]⟩
  | cons e rest ih =>
    intro st
    simp only [try_all_oid_loop]
    split
    · obtain ⟨L, h1, h2⟩ := ih st
      exact ⟨L, h1, h2.trans (List.sublist_cons_self _ _)⟩
    · rename_i oid _
      split
      · obtain ⟨L, h1, h2⟩ := ih st
        exact ⟨L, h1, h2.trans (List.sublist_cons_self _ _)⟩
      · split
        · rename_i st1 heq
          have hst1 : st1.dev_ret = st.dev_ret := by
            have := scan_snmp_get_oid_dev_ret env oid sec.handle st
            rw [heq] at this; exact this
          obtain ⟨L, h1, h2⟩ := ih st1
          exact ⟨L, by rw [h1, hst1], h2.trans (List.sublist_cons_self _ _)⟩
        · rename_i resp st1 heq
          have hst1 : st1.dev_ret = st.dev_ret := by
            have := scan_snmp_get_oid_dev_ret env oid sec.handle st
            rw [heq] at this; exact this
          split
          · obtain ⟨D, hD, hDs⟩ := scan_snmp_add_device_published sec (some resp) e.mib st1
            obtain ⟨L, h1, h2⟩ := ih (scan_snmp_add_device sec (some resp) e.mib st1)
            refine ⟨D ++ L, ?_, ?_⟩
            · rw [h1, hD, hst1, List.append_assoc]
            · simpa using List.Sublist.append hDs h2
          · obtain ⟨L, h1, h2⟩ := ih st1
            exact ⟨L, by rw [h1, hst1], h2.trans (List.sublist_cons_self _ _)⟩

/-- What the block `if (response)` publishes: the MIB names of the new
descriptors are taken from the table in table order, whichever phase
published them. -/
theorem try_SysOID_response_published (env : NetSnmp)
    (table : List snmp_device_id_t) (sec : nutscan_snmp_t) (handle : Handle)
    (response : snmp_pdu) (st : ScanState) :
    ∃ L, (try_SysOID_response env table sec handle response st).dev_ret = st.dev_ret ++ L
      ∧ (L.map (fun d => device_option d "mibs")).Sublist
          (table.map (fun e => some e.mib)) := by
  have hp : ∃ L, (phase1 env table { sec with handle := some handle } handle response st).2.dev_ret
        = st.dev_ret ++ L
      ∧ (L.map (fun d => device_option d "mibs")).Sublist (table.map (fun e => some e.mib))
      ∧ ((phase1 env table { sec with handle := some handle } handle response st).1 = none
          → L = []) := by
    unfold phase1
    split
    · exact ⟨[], by simp⟩
    · split
      · exact ⟨[], by simp⟩
      · exact sysoid_loop_published env _ handle _ table none st
  obtain ⟨L, h1, h2, h3⟩ := hp
  simp only [try_SysOID_response]
  split
  · rename_i hnone
    obtain ⟨L2, g1, g2⟩ := try_all_oid_loop_published env { sec with handle := some handle }
      (phase1 env table { sec with handle := some handle } handle response st).1 table
      { (phase1 env table { sec with handle := some handle } handle response st).2 with
        trace := (phase1 env table { sec with handle := some handle } handle response st).2.trace
          ++ [Event.try_all_oid] }
    refine ⟨L2, ?_, g2⟩
    simp only [try_all_oid]
    rw [g1, h1, h3 hnone, List.append_nil]
  · exact ⟨L, h1, h2⟩

/-- What one worker publishes: the MIB names of the new descriptors are
taken from the table in table order. -/
theorem try_SysOID_thready_published (env : NetSnmp) (table : List snmp_device_id_t)
    (g_usec_timeout : Int) (sec : nutscan_snmp_t) (st : ScanState) :
    ∃ L, (try_SysOID_thready env table g_usec_timeout sec st).dev_ret = st.dev_ret ++ L
      ∧ (L.map (fun d => device_option d "mibs")).Sublist
          (table.map (fun e => some e.mib)) := by
  simp only [try_SysOID_thready]
  split
  · exact ⟨[], by simp⟩
  · split
    · exact ⟨[], by simp⟩
    · split
      · exact ⟨[], by simp [sess_close]⟩
      · split
        · exact ⟨[], by simp [sess_close]⟩
        · split
          · exact try_SysOID_response_published env table sec _ _ _
          · exact ⟨[], by simp [sess_close]⟩

/-- C1: when Phase 1 ends with `mib_found` set, the block `if (response)` of
`try_SysOID_thready` ends in the state Phase 1 left, so its descriptors are
those of Phase 1 only, and `try_all_oid` is not entered. -/
theorem phase1_found_skips_try_all_oid (env : NetSnmp)
    (table : List snmp_device_id_t) (sec : nutscan_snmp_t) (handle : Handle)
    (response : snmp_pdu) (st : ScanState)
    (hfound : (phase1 env table { sec with handle := some handle } handle response st).1
      ≠ none) :
    try_SysOID_response env table sec handle response st
        = (phase1 env table { sec with handle := some handle } handle response st).2
      ∧ ∃ l, (try_SysOID_response env table sec handle response st).trace = st.trace ++ l
          ∧ Event.try_all_oid ∉ l := by
  have heq : try_SysOID_response env table sec handle response st
      = (phase1 env table { sec with handle := some handle } handle response st).2 := by
    simp only [try_SysOID_response]
    rw [if_neg hfound]
  refine ⟨heq, ?_⟩
  rw [heq]
  unfold phase1
  split
  · exact ⟨[], by simp⟩
  · split
    · exact ⟨[], by simp⟩
    · exact sysoid_loop_trace env _ handle _ table none st

/-- C1, scenario S1: the host answers the sysObjectID of the only row; the
descriptor of Phase 1 is the whole output. -/
theorem phase1_found_skips_try_all_oid_witness :
    (phase1 (demo_net demo_agent) table_S1
        { demo_sec (some "public") with handle := some ⟨some demo_session⟩ }
        ⟨some demo_session⟩ ⟨0, [⟨none, some ⟨"", [1, 3, 6, 1, 4, 1, 1, 1]⟩⟩]⟩ demo_state).1
      ≠ none
    ∧ (try_SysOID_response (demo_net demo_agent) table_S1 (demo_sec (some "public"))
        ⟨some demo_session⟩ ⟨0, [⟨none, some ⟨"", [1, 3, 6, 1, 4, 1, 1, 1]⟩⟩]⟩ demo_state
        = (phase1 (demo_net demo_agent) table_S1
            { demo_sec (some "public") with handle := some ⟨some demo_session⟩ }
            ⟨some demo_session⟩ ⟨0, [⟨none, some ⟨"", [1, 3, 6, 1, 4, 1, 1, 1]⟩⟩]⟩
            demo_state).2
      ∧ ∃ l, (try_SysOID_response (demo_net demo_agent) table_S1 (demo_sec (some "public"))
          ⟨some demo_session⟩ ⟨0, [⟨none, some ⟨"", [1, 3, 6, 1, 4, 1, 1, 1]⟩⟩]⟩
          demo_state).trace = demo_state.trace ++ l
          ∧ Event.try_all_oid ∉ l) :=
  ⟨by decide, phase1_found_skips_try_all_oid _ _ _ _ _ _ (by decide)⟩

/-- C2, as stated, fails: with a table that names the MIB "ietf" in two rows
of the same sysOID, one worker publishes the pair (10.0.0.1, ietf) twice. -/
theorem worker_publishes_pair_twice :
    ¬ ((try_SysOID_thready (demo_net demo_agent) table_twice 1000000
          (demo_sec (some "public")) demo_state).dev_ret.map device_key).Nodup := by
  decide

/-- C2, amended: when the MIB names of the table are pairwise distinct, the
descriptors that one worker adds to `dev_ret` have pairwise distinct
`(peer, mib)` keys, whatever the host answers. -/
theorem worker_publishes_each_mib_once (env : NetSnmp) (table : List snmp_device_id_t)
    (g_usec_timeout : Int) (sec : nutscan_snmp_t) (st : ScanState)
    (hdistinct : (table.map (fun e => e.mib)).Nodup) :
    ∃ L, (try_SysOID_thready env table g_usec_timeout sec st).dev_ret = st.dev_ret ++ L
      ∧ (L.map device_key).Nodup := by
  obtain ⟨L, h1, h2⟩ := try_SysOID_thready_published env table g_usec_timeout sec st
  refine ⟨L, h1, ?_⟩
  have hsome : (table.map (fun e => some e.mib)).Nodup := by
    have := hdistinct.map (Option.some_injective String)
    simpa [List.map_map] using this
  have hmibs : (L.map (fun d => device_option d "mibs")).Nodup := h2.nodup hsome
  apply List.Nodup.of_map Prod.snd
  simpa [List.map_map, device_key, Function.comp_def] using hmibs

/-- C2, amended, on scenario S6: two rows A and B of the same sysOID give two
descriptors with distinct keys. -/
theorem worker_publishes_each_mib_once_witness :
    (table_S6.map (fun e => e.mib)).Nodup
    ∧ ∃ L, (try_SysOID_thready (demo_net demo_agent) table_S6 1000000
          (demo_sec (some "public")) demo_state).dev_ret = demo_state.dev_ret ++ L
        ∧ (L.map device_key).Nodup :=
  ⟨by decide, worker_publishes_each_mib_once _ _ _ _ _ (by decide)⟩

/-- C3, as stated, fails: for a host that sends no response at all, the
worker opens the session, sends the sysObjectID request, and closes the
session; `try_all_oid` is not entered although the table has a probe OID. -/
theorem silent_host_gets_no_try_all_oid :
    try_SysOID_thready (demo_net silent_agent) table_S2 1000000
        (demo_sec (some "public")) demo_state
      = ⟨[], 2, [Event.sess_open, Event.sysoid_request none, Event.sess_close]⟩ := by
  decide

/-- C3, amended: once the session is open and the sysObjectID request is
sent, (1) without any response the worker publishes nothing and closes the
session, `try_all_oid` not being entered; (2) with a response whose variable
list is empty or whose first value is NULL, Phase 1 publishes nothing and
`try_all_oid` runs with `mib_found` NULL. -/
theorem sysoid_request_without_value (env : NetSnmp) (table : List snmp_device_id_t)
    (g_usec_timeout : Int) (sec : nutscan_snmp_t) (st : ScanState)
    (handle : Handle) (name : Oid)
    (hinit : (init_session env sec).ret ≠ 0)
    (hopen : env.snmp_sess_open st.calls
      { (init_session env sec).sess with retries := 0, timeout := g_usec_timeout }
        = some handle)
    (hparse : env.snmp_parse_oid SysOID = some name)
    (hpdu : env.snmp_pdu_create (st.calls + 1) = true) :
    ((env.snmp_sess_synch_response (st.calls + 1) (some handle) name).2 = none →
      try_SysOID_thready env table g_usec_timeout sec st
        = ⟨st.dev_ret, st.calls + 2,
            st.trace ++ [Event.sess_open, Event.sysoid_request none, Event.sess_close]⟩)
    ∧ (∀ r, (env.snmp_sess_synch_response (st.calls + 1) (some handle) name).2 = some r →
        (r.vars = [] ∨ ∃ v rest, r.vars = v :: rest ∧ v.val = none) →
        try_SysOID_thready env table g_usec_timeout sec st
          = sess_close (try_all_oid env table { sec with handle := some handle } none
              ⟨st.dev_ret, st.calls + 2,
                st.trace ++ [Event.sess_open, Event.sysoid_request (some r)]⟩)) := by
  constructor
  · intro hresp
    simp [try_SysOID_thready, hinit, hopen, hparse, hpdu, hresp, sess_close]
  · intro r hresp hval
    have hp : phase1 env table { sec with handle := some handle } handle r
        ⟨st.dev_ret, st.calls + 2,
          st.trace ++ [Event.sess_open, Event.sysoid_request (some r)]⟩
        = (none, ⟨st.dev_ret, st.calls + 2,
          st.trace ++ [Event.sess_open, Event.sysoid_request (some r)]⟩) := by
      unfold phase1
      rcases hval with h | ⟨v, rest, h, hv⟩
      · simp [h]
      · simp [h, hv]
    simp [try_SysOID_thready, hinit, hopen, hparse, hpdu, hresp, try_SysOID_response, hp]

/-- C3, amended, on a host that answers the sysObjectID request with a NULL
value: the worker goes on with `try_all_oid`. -/
theorem sysoid_request_without_value_witness :
    ((init_session (demo_net null_agent) (demo_sec (some "public"))).ret ≠ 0
      ∧ (demo_net null_agent).snmp_sess_open demo_state.calls
          { (init_session (demo_net null_agent) (demo_sec (some "public"))).sess with
            retries := 0, timeout := 1000000 } = some ⟨some demo_open_session⟩
      ∧ (demo_net null_agent).snmp_parse_oid SysOID = some [1, 3, 6, 1, 2, 1, 1, 2, 0]
      ∧ (demo_net null_agent).snmp_pdu_create (demo_state.calls + 1) = true
      ∧ ((demo_net null_agent).snmp_sess_synch_response (demo_state.calls + 1)
          (some ⟨some demo_open_session⟩) [1, 3, 6, 1, 2, 1, 1, 2, 0]).2
          = some ⟨2, [⟨some [1, 3, 6, 1, 2, 1, 1, 2, 0], none⟩]⟩)
    ∧ try_SysOID_thready (demo_net null_agent) table_S2 1000000
        (demo_sec (some "public")) demo_state
      = sess_close (try_all_oid (demo_net null_agent) table_S2
          { demo_sec (some "public") with handle := some ⟨some demo_open_session⟩ } none
          ⟨demo_state.dev_ret, demo_state.calls + 2,
            demo_state.trace ++ [Event.sess_open, Event.sysoid_request
              (some ⟨2, [⟨some [1, 3, 6, 1, 2, 1, 1, 2, 0], none⟩]⟩)]⟩) :=
  ⟨by decide,
   (sysoid_request_without_value (demo_net null_agent) table_S2 1000000
      (demo_sec (some "public")) demo_state ⟨some demo_open_session⟩
      [1, 3, 6, 1, 2, 1, 1, 2, 0] (by decide) (by decide) (by decide) (by decide)).2
      ⟨2, [⟨some [1, 3, 6, 1, 2, 1, 1, 2, 0], none⟩]⟩ (by decide)
      (Or.inr ⟨_, _, rfl, rfl⟩)⟩

/-- C4: `scan_snmp_get_oid` returns the response `r` exactly when the OID
text parses, the request PDU is created, and the reply is `r` with status
success, no error, a first variable whose name compares equal to the
requested OID and whose value is not NULL (in every other case the result
is NULL, no response being returned); `snmp_oid_compare` is zero exactly
on equal OIDs, length included. -/
theorem scan_snmp_get_oid_some_iff (env : NetSnmp) (oid_str : String)
    (handle : Option Handle) (st : ScanState) :
    (∀ r, (scan_snmp_get_oid env oid_str handle st).1 = some r ↔
      ∃ name, env.snmp_parse_oid oid_str = some name
        ∧ env.snmp_pdu_create st.calls = true
        ∧ ∃ status, env.snmp_sess_synch_response st.calls handle name = (status, some r)
          ∧ status = STAT_SUCCESS
          ∧ r.errstat = SNMP_ERR_NOERROR
          ∧ ∃ v rest, r.vars = v :: rest
            ∧ (∃ vname, v.name = some vname ∧ snmp_oid_compare vname name = 0)
            ∧ v.val ≠ none)
    ∧ (∀ a b : Oid, snmp_oid_compare a b = 0 ↔ a = b) := by
  refine ⟨?_, snmp_oid_compare_eq_zero_iff⟩
  · intro r
    simp only [scan_snmp_get_oid, scan_snmp_get_oid_result]
    cases hparse : env.snmp_parse_oid oid_str with
    | none => simp
    | some name =>
      cases hpdu : env.snmp_pdu_create st.calls with
      | false => simp
      | true =>
        rcases hs : env.snmp_sess_synch_response st.calls handle name with ⟨status, resp⟩
        simp only [Option.some.injEq, exists_eq_left', true_and, hs, Bool.true_eq_false,
          if_false]
        cases resp with
        | none => simp
        | some r0 =>
          simp only [check_response]
          constructor
          · intro h
            split at h
            · simp at h
            · rename_i hst
              split at h
              · simp at h
              · rename_i v rest hv
                split at h
                · simp at h
                · rename_i vname hn
                  split at h
                  · simp at h
                  · rename_i hc
                    split at h
                    · simp at h
                    · rename_i val hval
                      simp only [Option.some.injEq] at h
                      subst h
                      simp only [not_or, not_not] at hst hc
                      exact ⟨status, rfl, hst.1, hst.2, v, rest, hv,
                        ⟨vname, hn, hc⟩, by simp [hval]⟩
          · rintro ⟨status1, hs1, hst, herr, v, rest, hv, ⟨vname, hn, hc⟩, hval⟩
            simp only [Prod.mk.injEq, Option.some.injEq] at hs1
            obtain ⟨rfl, rfl⟩ := hs1
            obtain ⟨val, hval1⟩ := Option.ne_none_iff_exists'.mp hval
            simp [hst, herr, hv, hn, hc, hval1]

theorem scan_snmp_device_desc (sec : nutscan_snmp_t) (session : snmp_session)
    (response : Option snmp_pdu) (mib : String) :
    device_option (scan_snmp_device sec session response mib) "desc"
      = response_value response := by
  unfold scan_snmp_device response_value
  (repeat' split) <;>
    (simp only [device_option_add, device_option_add_if_set]
     simp_all [device_option, nutscan_new_device])

theorem scan_snmp_add_device_of_session (sec : nutscan_snmp_t) (session : snmp_session)
    (response : Option snmp_pdu) (mib : String) (st : ScanState)
    (hsession : sec.handle.bind Handle.session = some session) :
    scan_snmp_add_device sec response mib st
      = { st with dev_ret := st.dev_ret ++ [scan_snmp_device sec session response mib] } := by
  simp [scan_snmp_add_device, hsession, nutscan_add_device_to_device]

/-- A response returned by `scan_snmp_get_oid` has a first variable with a
value. -/
theorem scan_snmp_get_oid_result_value (env : NetSnmp) (oid_str : String)
    (handle : Option Handle) (calls : Nat) (r : snmp_pdu)
    (h : scan_snmp_get_oid_result env oid_str handle calls = some r) :
    ∃ v rest val, r.vars = v :: rest ∧ v.val = some val := by
  unfold scan_snmp_get_oid_result at h
  split at h
  · simp at h
  · split at h
    · simp at h
    · split at h
      · simp at h
      · rename_i status r0 _
        unfold check_response at h
        split at h
        · simp at h
        · split at h
          · simp at h
          · rename_i v rest hv
            split at h
            · simp at h
            · split at h
              · simp at h
              · split at h
                · simp at h
                · rename_i val hval
                  simp only [Option.some.injEq] at h
                  subst h
                  exact ⟨v, rest, val, hv, hval⟩

/-- One turn of the Phase 1 loop, by cases on the row. -/
theorem sysoid_loop_cons (env : NetSnmp) (sec : nutscan_snmp_t) (handle : Handle)
    (objid : Oid) (e : snmp_device_id_t) (rest : List snmp_device_id_t)
    (mib_found : Option String) (st : ScanState) :
    sysoid_loop env sec handle objid (e :: rest) mib_found st
      = if sysoid_matches env objid e then
          if no_probe_oid e then
            sysoid_loop env sec handle objid rest e.sysoid
              (scan_snmp_add_device sec none e.mib st)
          else
            match scan_snmp_get_oid_result env (e.oid.getD "") (some handle) st.calls with
            | some resp =>
              sysoid_loop env sec handle objid rest (some e.mib)
                (scan_snmp_add_device sec (some resp) e.mib
                  ⟨st.dev_ret, st.calls + 1,
                    st.trace ++ [Event.get_oid (e.oid.getD "") (some resp)]⟩)
            | none =>
              sysoid_loop env sec handle objid rest mib_found
                ⟨st.dev_ret, st.calls + 1,
                  st.trace ++ [Event.get_oid (e.oid.getD "") none]⟩
        else sysoid_loop env sec handle objid rest mib_found st := by
  simp only [sysoid_loop, sysoid_matches, no_probe_oid, scan_snmp_get_oid]
  cases hs : e.sysoid with
  | none => simp
  | some sysoid =>
    cases hp : env.snmp_parse_oid sysoid with
    | none => simp [hp]
    | some name =>
      by_cases hc : snmp_oid_compare objid name = 0
      · by_cases hn : e.oid = none ∨ e.oid = some ""
        · simp [hp, hc, hn]
        · simp only [hp, hc, hn, if_true, if_false, decide_True, decide_False]
          cases scan_snmp_get_oid_result env (e.oid.getD "") (some handle) st.calls <;> simp
      · simp [hp, hc]

/-- One turn of the loop of `try_all_oid`, by cases on the row. -/
theorem try_all_oid_loop_cons (env : NetSnmp) (sec : nutscan_snmp_t)
    (mib_found : Option String) (e : snmp_device_id_t) (rest : List snmp_device_id_t)
    (st : ScanState) :
    try_all_oid_loop env sec mib_found (e :: rest) st
      = if no_probe_oid e then try_all_oid_loop env sec mib_found rest st
        else
          match scan_snmp_get_oid_result env (e.oid.getD "") sec.handle st.calls with
          | some resp =>
            if mib_found = some e.mib then
              try_all_oid_loop env sec mib_found rest
                ⟨st.dev_ret, st.calls + 1,
                  st.trace ++ [Event.get_oid (e.oid.getD "") (some resp)]⟩
            else
              try_all_oid_loop env sec mib_found rest
                (scan_snmp_add_device sec (some resp) e.mib
                  ⟨st.dev_ret, st.calls + 1,
                    st.trace ++ [Event.get_oid (e.oid.getD "") (some resp)]⟩)
          | none =>
            try_all_oid_loop env sec mib_found rest
              ⟨st.dev_ret, st.calls + 1,
                st.trace ++ [Event.get_oid (e.oid.getD "") none]⟩ := by
  simp only [try_all_oid_loop, no_probe_oid, scan_snmp_get_oid]
  obtain ho | ⟨oid, ho⟩ : e.oid = none ∨ ∃ o, e.oid = some o := by
    cases e.oid <;> simp
  · simp [ho]
  · by_cases hn : oid = ""
    · simp [ho, hn]
    · simp only [ho, hn, if_false, Option.getD_some, Option.some.injEq, reduceCtorEq,
        false_or, decide_False, Bool.false_eq_true]
      cases scan_snmp_get_oid_result env oid sec.handle st.calls with
      | none => simp
      | some resp =>
        by_cases hm : mib_found = some e.mib
        · simp [hm]
        · simp [hm]

theorem sysoid_matches_sysoid (env : NetSnmp) (objid : Oid) (e : snmp_device_id_t)
    (h : sysoid_matches env objid e = true) : e.sysoid ≠ none := by
  intro hs
  simp [sysoid_matches, hs] at h

/-- The descriptors without `desc` that the Phase 1 loop publishes are, in
table order, those of the matching rows without probe OID; and the loop ends
with `mib_found` set when there is such a row. -/
theorem sysoid_loop_no_probe (env : NetSnmp) (sec : nutscan_snmp_t) (handle : Handle)
    (session : snmp_session) (objid : Oid)
    (hsession : sec.handle.bind Handle.session = some session)
    (table : List snmp_device_id_t) :
    ∀ (mib_found : Option String) (st : ScanState),
      ∃ L, (sysoid_loop env sec handle objid table mib_found st).2.dev_ret = st.dev_ret ++ L
        ∧ L.filter (fun d => decide (device_option d "desc" = none))
            = (table.filter (fun e => sysoid_matches env objid e && no_probe_oid e)).map
                (fun e => scan_snmp_device sec session none e.mib)
        ∧ ((∃ e ∈ table, sysoid_matches env objid e = true ∧ no_probe_oid e = true) →
            (sysoid_loop env sec handle objid table mib_found st).1 ≠ none) := by
  induction table with
  | nil => intro mf st; exact ⟨[], by simp [sysoid_loop]⟩
  | cons e rest ih =>
    intro mf st
    rw [sysoid_loop_cons]
    by_cases hm : sysoid_matches env objid e = true
    · by_cases hn : no_probe_oid e = true
      · simp only [hm, hn, if_true]
        rw [scan_snmp_add_device_of_session sec session _ _ _ hsession]
        obtain ⟨L, h1, h2, _⟩ := ih e.sysoid
          { st with dev_ret := st.dev_ret ++ [scan_snmp_device sec session none e.mib] }
        refine ⟨scan_snmp_device sec session none e.mib :: L, ?_, ?_, ?_⟩
        · rw [h1]; simp
        · simp [List.filter_cons, hm, hn, h2, scan_snmp_device_desc, response_value]
        · intro _
          exact sysoid_loop_found env sec handle objid rest _ _
            (sysoid_matches_sysoid env objid e hm)
      · simp only [hm, hn, if_true, if_false, Bool.false_eq_true]
        cases hr : scan_snmp_get_oid_result env (e.oid.getD "") (some handle) st.calls with
        | none =>
          simp only []
          obtain ⟨L, h1, h2, h3⟩ := ih mf
            ⟨st.dev_ret, st.calls + 1, st.trace ++ [Event.get_oid (e.oid.getD "") none]⟩
          refine ⟨L, h1, ?_, ?_⟩
          · simp [List.filter_cons, hn, h2]
          · rintro ⟨x, hx, hxm, hxn⟩
            rcases List.mem_cons.mp hx with rfl | hx
            · exact absurd hxn hn
            · exact h3 ⟨x, hx, hxm, hxn⟩
        | some resp =>
          simp only []
          rw [scan_snmp_add_device_of_session sec session _ _ _ hsession]
          obtain ⟨v, vs, val, hv, hval⟩ := scan_snmp_get_oid_result_value _ _ _ _ _ hr
          obtain ⟨L, h1, h2, _⟩ := ih (some e.mib)
            { (⟨st.dev_ret, st.calls + 1,
                st.trace ++ [Event.get_oid (e.oid.getD "") (some resp)]⟩ : ScanState) with
              dev_ret := st.dev_ret ++ [scan_snmp_device sec session (some resp) e.mib] }
          refine ⟨scan_snmp_device sec session (some resp) e.mib :: L, ?_, ?_, ?_⟩
          · rw [h1]; simp
          · simp [List.filter_cons, hn, h2, scan_snmp_device_desc, response_value, hv, hval]
          · intro _
            exact sysoid_loop_found env sec handle objid rest _ _ (by simp)
    · simp only [hm, if_false, Bool.false_eq_true]
      obtain ⟨L, h1, h2, h3⟩ := ih mf st
      refine ⟨L, h1, ?_, ?_⟩
      · simp [List.filter_cons, hm, h2]
      · rintro ⟨x, hx, hxm, hxn⟩
        rcases List.mem_cons.mp hx with rfl | hx
        · exact absurd hxm hm
        · exact h3 ⟨x, hx, hxm, hxn⟩

/-- C5: on a sysObjectID response whose first variable has the value `val`,
the descriptors without `desc` that Phase 1 adds to `dev_ret` are exactly one
per row, in table order, whose sysOID parses and compares equal to the value
and whose probe OID is NULL or empty; each carries the peer and the MIB of
its row; the walk goes on over the whole table; and `mib_found` is set at
the end when there is such a row. -/
theorem phase1_no_probe_rows (env : NetSnmp) (table : List snmp_device_id_t)
    (sec : nutscan_snmp_t) (handle : Handle) (session : snmp_session)
    (response : snmp_pdu) (v : netsnmp_variable_list)
    (vs : List netsnmp_variable_list) (val : netsnmp_vardata) (st : ScanState)
    (hsession : handle.session = some session)
    (hvars : response.vars = v :: vs) (hval : v.val = some val) :
    (∃ L, (phase1 env table { sec with handle := some handle } handle response st).2.dev_ret
          = st.dev_ret ++ L
        ∧ L.filter (fun d => decide (device_option d "desc" = none))
            = (table.filter (fun e => sysoid_matches env val.objid e && no_probe_oid e)).map
                (fun e => scan_snmp_device { sec with handle := some handle } session none
                  e.mib))
    ∧ (∀ mib, (scan_snmp_device { sec with handle := some handle } session none mib).port
          = session.peername
        ∧ device_option
            (scan_snmp_device { sec with handle := some handle } session none mib) "mibs"
          = some mib
        ∧ device_option
            (scan_snmp_device { sec with handle := some handle } session none mib) "desc"
          = none)
    ∧ ((∃ e ∈ table, sysoid_matches env val.objid e = true ∧ no_probe_oid e = true) →
        (phase1 env table { sec with handle := some handle } handle response st).1 ≠ none) := by
  have hs : ({ sec with handle := some handle } : nutscan_snmp_t).handle.bind Handle.session
      = some session := by simp [hsession]
  have hp : phase1 env table { sec with handle := some handle } handle response st
      = sysoid_loop env { sec with handle := some handle } handle val.objid table none st := by
    simp [phase1, hvars, hval]
  obtain ⟨L, h1, h2, h3⟩ := sysoid_loop_no_probe env _ handle session val.objid hs table none st
  rw [hp]
  refine ⟨⟨L, h1, h2⟩, ?_, h3⟩
  intro mib
  exact ⟨scan_snmp_device_port _ _ _ _, scan_snmp_device_mibs _ _ _ _,
    by rw [scan_snmp_device_desc]; rfl⟩

/-- C5, scenario S6: rows A and B with the sysOID of the host and no probe
OID give the descriptors of A and of B, in this order. -/
theorem phase1_no_probe_rows_witness :
    (demo_handle.session = some demo_open_session
      ∧ (⟨0, [⟨none, some ⟨"", [1, 3, 6, 1, 4, 1, 1, 1]⟩⟩]⟩ : snmp_pdu).vars
          = [⟨none, some ⟨"", [1, 3, 6, 1, 4, 1, 1, 1]⟩⟩]
      ∧ (phase1 (demo_net demo_agent) table_S6
            { demo_sec (some "public") with handle := some demo_handle } demo_handle
            ⟨0, [⟨none, some ⟨"", [1, 3, 6, 1, 4, 1, 1, 1]⟩⟩]⟩ demo_state).2.dev_ret.map
          device_key = [(some "10.0.0.1", some "A"), (some "10.0.0.1", some "B")])
    ∧ ∃ L, (phase1 (demo_net demo_agent) table_S6
          { demo_sec (some "public") with handle := some demo_handle } demo_handle
          ⟨0, [⟨none, some ⟨"", [1, 3, 6, 1, 4, 1, 1, 1]⟩⟩]⟩ demo_state).2.dev_ret
          = demo_state.dev_ret ++ L
        ∧ L.filter (fun d => decide (device_option d "desc" = none))
            = (table_S6.filter (fun e =>
                sysoid_matches (demo_net demo_agent) [1, 3, 6, 1, 4, 1, 1, 1] e
                  && no_probe_oid e)).map
                (fun e => scan_snmp_device
                  { demo_sec (some "public") with handle := some demo_handle }
                  demo_open_session none e.mib) :=
  ⟨by decide,
   (phase1_no_probe_rows (demo_net demo_agent) table_S6 (demo_sec (some "public"))
      demo_handle demo_open_session ⟨0, [⟨none, some ⟨"", [1, 3, 6, 1, 4, 1, 1, 1]⟩⟩]⟩
      ⟨none, some ⟨"", [1, 3, 6, 1, 4, 1, 1, 1]⟩⟩ [] ⟨"", [1, 3, 6, 1, 4, 1, 1, 1]⟩
      demo_state rfl rfl rfl).1⟩

/-- The authentication-protocol block leaves the version, the peer, the
community and the security level of the session as they were. -/
theorem init_session_auth_proto_keeps (env : NetSnmp) (sec : nutscan_snmp_t)
    (s s1 : snmp_session) (ok : Bool)
    (h : init_session_auth_proto env sec s = (ok, s1)) :
    s1.community = s.community ∧ s1.community_len = s.community_len
    ∧ s1.peername = s.peername ∧ s1.version = s.version
    ∧ s1.securityLevel = s.securityLevel := by
  have hs : s1 = (init_session_auth_proto env sec s).2 := by rw [h]
  subst hs
  unfold init_session_auth_proto
  (repeat' split) <;> exact ⟨rfl, rfl, rfl, rfl, rfl⟩

/-- The privacy-protocol block leaves the version, the peer, the community
and the security level of the session as they were. -/
theorem init_session_priv_proto_keeps (env : NetSnmp) (sec : nutscan_snmp_t)
    (s s1 : snmp_session) (ok : Bool)
    (h : init_session_priv_proto env sec s = (ok, s1)) :
    s1.community = s.community ∧ s1.community_len = s.community_len
    ∧ s1.peername = s.peername ∧ s1.version = s.version
    ∧ s1.securityLevel = s.securityLevel := by
  have hs : s1 = (init_session_priv_proto env sec s).2 := by rw [h]
  subst hs
  unfold init_session_priv_proto
  (repeat' split) <;> exact ⟨rfl, rfl, rfl, rfl, rfl⟩

/-- The SNMPv3 branch leaves the peer and the community of the session as
they were, sets the version, and sets the security level once it is
parsed. -/
theorem init_session_v3_frame (env : NetSnmp) (sec : nutscan_snmp_t) (secLevel : String)
    (s : snmp_session) :
    (init_session_v3 env sec secLevel s).sess.community = s.community
    ∧ (init_session_v3 env sec secLevel s).sess.community_len = s.community_len
    ∧ (init_session_v3 env sec secLevel s).sess.peername = s.peername
    ∧ (init_session_v3 env sec secLevel s).sess.version = SNMP_VERSION_3
    ∧ (∀ lvl, init_session_sec_level secLevel = some lvl →
        (init_session_v3 env sec secLevel s).sess.securityLevel = lvl) := by
  unfold init_session_v3
  cases hl : init_session_sec_level secLevel with
  | none => simp
  | some lvl =>
    simp only [Option.some.injEq, forall_eq']
    cases hn : sec.secName with
    | none => simp
    | some secName =>
      simp only []
      split
      · simp
      · split
        · simp
        · split
          · simp
          · split
            · rename_i s1 heq
              have h1 := init_session_auth_proto_keeps env sec _ _ _ heq
              simpa using h1
            · rename_i s1 heq
              have h1 := init_session_auth_proto_keeps env sec _ _ _ heq
              simp only [] at h1
              split
              · simpa using h1
              · split
                · simpa using h1
                · split
                  · simpa using h1
                  · split
                    · rename_i s2 heq2
                      have h2 := init_session_priv_proto_keeps env sec _ _ _ heq2
                      simp only [] at h2
                      simp only [h2]
                      simpa using h1
                    · rename_i s2 heq2
                      have h2 := init_session_priv_proto_keeps env sec _ _ _ heq2
                      simp only [] at h2
                      split
                      · simp only [h2]
                        simpa using h1
                      · split
                        · simp only [h2]
                          simpa using h1
                        · simp only [h2]
                          simpa using h1

/-- A descriptor built over a session without community (NULL or empty)
carries `snmp_version=v3` and no `community`. -/
theorem scan_snmp_device_v3 (sec : nutscan_snmp_t) (session : snmp_session)
    (response : Option snmp_pdu) (mib : String)
    (h : session.community = none ∨ session.community = some "") :
    device_option (scan_snmp_device sec session response mib) "snmp_version" = some "v3"
    ∧ device_option (scan_snmp_device sec session response mib) "community" = none := by
  unfold scan_snmp_device
  simp only [h, if_true]
  constructor <;>
    ((repeat' split) <;>
      (simp only [device_option_add, device_option_add_if_set]
       simp [device_option, nutscan_new_device]))

/-- C9: when the community is set or the security level is not set,
`init_session` returns 1 with an SNMPv1 session whose community is the one
of the credentials, or "public" when there is none, with its length; the
result depends on the community and the peer only, and on whether the
security level is set. -/
theorem init_session_community_path (env : NetSnmp) (sec : nutscan_snmp_t)
    (h : sec.community ≠ none ∨ sec.secLevel = none) :
    init_session env sec
        = ⟨1, { env.snmp_sess_init with
                peername := sec.peername, version := SNMP_VERSION_1,
                community := some (sec.community.getD "public"),
                community_len := (sec.community.getD "public").length }, none⟩
    ∧ ∀ sec2 : nutscan_snmp_t, sec2.community = sec.community →
        sec2.peername = sec.peername → (sec2.secLevel = none ↔ sec.secLevel = none) →
        init_session env sec2 = init_session env sec := by
  have key : ∀ t : nutscan_snmp_t, (t.community ≠ none ∨ t.secLevel = none) →
      init_session env t
        = ⟨1, { env.snmp_sess_init with
                peername := t.peername, version := SNMP_VERSION_1,
                community := some (t.community.getD "public"),
                community_len := (t.community.getD "public").length }, none⟩ := by
    intro t ht
    unfold init_session
    cases hc : t.community with
    | some c => simp
    | none =>
      have hl : t.secLevel = none := by
        rcases ht with ht | ht
        · exact absurd hc ht
        · exact ht
      simp [hl]
  refine ⟨key sec h, ?_⟩
  intro sec2 hc hp hl
  have h2 : sec2.community ≠ none ∨ sec2.secLevel = none := by
    rcases h with h | h
    · exact Or.inl (by rw [hc]; exact h)
    · exact Or.inr (hl.mpr h)
  rw [key sec h, key sec2 h2, hc, hp]

/-- C9, on a bundle that sets both the community and a security level. -/
theorem init_session_community_path_witness :
    (({ demo_sec_v3 "authPriv" with community := some "private" } : nutscan_snmp_t).community
        ≠ none
      ∨ ({ demo_sec_v3 "authPriv" with community := some "private" } : nutscan_snmp_t).secLevel
        = none)
    ∧ init_session (demo_net demo_agent)
        { demo_sec_v3 "authPriv" with community := some "private" }
      = ⟨1, { demo_session with
              peername := some "10.0.0.1", version := SNMP_VERSION_1,
              community := some "private", community_len := 7 }, none⟩ :=
  ⟨by decide,
   (init_session_community_path (demo_net demo_agent)
      { demo_sec_v3 "authPriv" with community := some "private" } (by decide)).1⟩

/-- C10: on the SNMPv3 path (community not set, security level set),
`init_session` writes the security level NOAUTH for "noAuthNoPriv",
AUTHNOPRIV for "authNoPriv" and AUTHPRIV for "authPriv" into the session,
and returns 0 with the warning of a bad security level for every other
string. -/
theorem init_session_sec_level_map (env : NetSnmp) (sec : nutscan_snmp_t)
    (secLevel : String)
    (hcommunity : sec.community = none) (hlevel : sec.secLevel = some secLevel) :
    (secLevel = "noAuthNoPriv" →
      (init_session env sec).sess.securityLevel = SNMP_SEC_LEVEL_NOAUTH)
    ∧ (secLevel = "authNoPriv" →
      (init_session env sec).sess.securityLevel = SNMP_SEC_LEVEL_AUTHNOPRIV)
    ∧ (secLevel = "authPriv" →
      (init_session env sec).sess.securityLevel = SNMP_SEC_LEVEL_AUTHPRIV)
    ∧ (secLevel ≠ "noAuthNoPriv" → secLevel ≠ "authNoPriv" → secLevel ≠ "authPriv" →
      (init_session env sec).ret = 0
      ∧ (init_session env sec).warning
          = some "WARNING: %s: Bad SNMPv3 securityLevel: %s") := by
  have hv3 : init_session env sec
      = init_session_v3 env sec secLevel
          { env.snmp_sess_init with peername := sec.peername } := by
    simp [init_session, hcommunity, hlevel]
  rw [hv3]
  refine ⟨?_, ?_, ?_, ?_⟩
  · intro h
    exact (init_session_v3_frame env sec secLevel _).2.2.2.2 _
      (by simp [init_session_sec_level, h])
  · intro h
    exact (init_session_v3_frame env sec secLevel _).2.2.2.2 _
      (by simp [init_session_sec_level, h])
  · intro h
    exact (init_session_v3_frame env sec secLevel _).2.2.2.2 _
      (by simp [init_session_sec_level, h])
  · intro h1 h2 h3
    have hnone : init_session_sec_level secLevel = none := by
      simp [init_session_sec_level, h1, h2, h3]
    simp [init_session_v3, hnone]

/-- C10, on the level "authPriv" with user and pass phrases given. -/
theorem init_session_sec_level_map_witness :
    ((demo_sec_v3 "authPriv").community = none
      ∧ (demo_sec_v3 "authPriv").secLevel = some "authPriv"
      ∧ (init_session (demo_net demo_agent) (demo_sec_v3 "authPriv")).ret = 1
      ∧ (init_session (demo_net demo_agent) (demo_sec_v3 "bogus")).ret = 0)
    ∧ (init_session (demo_net demo_agent) (demo_sec_v3 "authPriv")).sess.securityLevel
        = SNMP_SEC_LEVEL_AUTHPRIV :=
  ⟨by decide,
   (init_session_sec_level_map (demo_net demo_agent) (demo_sec_v3 "authPriv") "authPriv"
      rfl rfl).2.2.1 rfl⟩

/-- The SNMPv3 branch once the security level and the security name are
read: what is left of `init_session` from line 716 on. -/
theorem init_session_v3_of_named (env : NetSnmp) (sec : nutscan_snmp_t)
    (secLevel : String) (lvl : Int) (secName : String)
    (hcommunity : sec.community = none) (hlevel : sec.secLevel = some secLevel)
    (hlvl : init_session_sec_level secLevel = some lvl)
    (hname : sec.secName = some secName) :
    init_session env sec
      = if lvl = SNMP_SEC_LEVEL_NOAUTH then
          ⟨1, init_session_v3_named env sec lvl secName, none⟩
        else if lvl = SNMP_SEC_LEVEL_AUTHNOPRIV ∧ sec.authPassword = none then
          ⟨0, init_session_v3_named env sec lvl secName,
            some "WARNING: %s: authPassword is required for SNMPv3 in %s mode"⟩
        else if lvl = SNMP_SEC_LEVEL_AUTHPRIV
            ∧ (sec.authPassword = none ∨ sec.privPassword = none) then
          ⟨0, init_session_v3_named env sec lvl secName, some
            "WARNING: %s: authPassword and privPassword are required for SNMPv3 in %s mode"⟩
        else
          match init_session_auth_proto env sec (init_session_v3_named env sec lvl secName) with
          | (false, s) => ⟨0, s, some "WARNING: %s: Bad SNMPv3 authProtocol: %s"⟩
          | (true, s) =>
            if s.securityAuthProtoLen > UINT_MAX then
              ⟨0, s, some "WARNING: %s: Bad SNMPv3 securityAuthProtoLen: %zu"⟩
            else if (env.generate_Ku s.securityAuthProto s.securityAuthProtoLen
                (sec.authPassword.getD "") (sec.authPassword.getD "").length
                s.securityAuthKeyLen).1 ≠ SNMPERR_SUCCESS then
              ⟨0, s, some
                "WARNING: %s: Error generating Ku from authentication pass phrase"⟩
            else if lvl = SNMP_SEC_LEVEL_AUTHNOPRIV then
              ⟨1, { s with
                    securityAuthKey := (env.generate_Ku s.securityAuthProto
                      s.securityAuthProtoLen (sec.authPassword.getD "")
                      (sec.authPassword.getD "").length s.securityAuthKeyLen).2.1,
                    securityAuthKeyLen := (env.generate_Ku s.securityAuthProto
                      s.securityAuthProtoLen (sec.authPassword.getD "")
                      (sec.authPassword.getD "").length s.securityAuthKeyLen).2.2 }, none⟩
            else
              match init_session_priv_proto env sec
                  { s with
                    securityAuthKey := (env.generate_Ku s.securityAuthProto
                      s.securityAuthProtoLen (sec.authPassword.getD "")
                      (sec.authPassword.getD "").length s.securityAuthKeyLen).2.1,
                    securityAuthKeyLen := (env.generate_Ku s.securityAuthProto
                      s.securityAuthProtoLen (sec.authPassword.getD "")
                      (sec.authPassword.getD "").length s.securityAuthKeyLen).2.2 } with
              | (false, s) => ⟨0, s, some "WARNING: %s: Bad SNMPv3 privProtocol: %s"⟩
              | (true, s) =>
                if s.securityAuthProtoLen > UINT_MAX then
                  ⟨0, { s with securityPrivKeyLen := env.USM_PRIV_KU_LEN },
                    some "WARNING: %s: Bad SNMPv3 securityAuthProtoLen: %zu"⟩
                else if (env.generate_Ku s.securityAuthProto s.securityAuthProtoLen
                    (sec.privPassword.getD "") (sec.privPassword.getD "").length
                    env.USM_PRIV_KU_LEN).1 ≠ SNMPERR_SUCCESS then
                  ⟨0, { s with securityPrivKeyLen := env.USM_PRIV_KU_LEN }, some
                    "WARNING: %s: Error generating Ku from private pass phrase"⟩
                else
                  ⟨1, { s with
                        securityPrivKey := (env.generate_Ku s.securityAuthProto
                          s.securityAuthProtoLen (sec.privPassword.getD "")
                          (sec.privPassword.getD "").length env.USM_PRIV_KU_LEN).2.1,
                        securityPrivKeyLen := (env.generate_Ku s.securityAuthProto
                          s.securityAuthProtoLen (sec.privPassword.getD "")
                          (sec.privPassword.getD "").length env.USM_PRIV_KU_LEN).2.2 },
                    none⟩ := by
  simp only [init_session, hcommunity, hlevel, init_session_v3, hlvl, hname,
    init_session_v3_named]

/-- C11: on the SNMPv3 path with a valid security level, `init_session`
returns 0 when the security name is absent, whatever the level; when the
level is "authNoPriv" and the authentication pass phrase is absent; and when
the level is "authPriv" and the authentication or the privacy pass phrase is
absent. -/
theorem init_session_required_fields (env : NetSnmp) (sec : nutscan_snmp_t)
    (secLevel : String) (lvl : Int)
    (hcommunity : sec.community = none) (hlevel : sec.secLevel = some secLevel)
    (hlvl : init_session_sec_level secLevel = some lvl) :
    (sec.secName = none →
      (init_session env sec).ret = 0
      ∧ (init_session env sec).warning
          = some "WARNING: %s: securityName is required for SNMPv3")
    ∧ (secLevel = "authNoPriv" → sec.authPassword = none →
      (init_session env sec).ret = 0)
    ∧ (secLevel = "authPriv" → (sec.authPassword = none ∨ sec.privPassword = none) →
      (init_session env sec).ret = 0) := by
  have hname0 : sec.secName = none →
      (init_session env sec).ret = 0
      ∧ (init_session env sec).warning
          = some "WARNING: %s: securityName is required for SNMPv3" := by
    intro hn
    simp [init_session, hcommunity, hlevel, init_session_v3, hlvl, hn]
  refine ⟨hname0, ?_, ?_⟩
  · intro hl hpw
    cases hn : sec.secName with
    | none => exact (hname0 hn).1
    | some secName =>
      have h2 : lvl = SNMP_SEC_LEVEL_AUTHNOPRIV := by
        simpa [init_session_sec_level, hl] using hlvl.symm
      rw [init_session_v3_of_named env sec secLevel lvl secName hcommunity hlevel hlvl hn]
      subst h2
      simp [hpw, SNMP_SEC_LEVEL_AUTHNOPRIV, SNMP_SEC_LEVEL_NOAUTH]
  · intro hl hpw
    cases hn : sec.secName with
    | none => exact (hname0 hn).1
    | some secName =>
      have h3 : lvl = SNMP_SEC_LEVEL_AUTHPRIV := by
        simpa [init_session_sec_level, hl] using hlvl.symm
      rw [init_session_v3_of_named env sec secLevel lvl secName hcommunity hlevel hlvl hn]
      subst h3
      simp [hpw, SNMP_SEC_LEVEL_AUTHPRIV, SNMP_SEC_LEVEL_AUTHNOPRIV, SNMP_SEC_LEVEL_NOAUTH]

/-- C11, scenario S4: level "authNoPriv" without authentication pass
phrase. -/
theorem init_session_required_fields_witness :
    (({ demo_sec_v3 "authNoPriv" with authPassword := none } : nutscan_snmp_t).community = none
      ∧ ({ demo_sec_v3 "authNoPriv" with authPassword := none } : nutscan_snmp_t).secLevel
          = some "authNoPriv"
      ∧ init_session_sec_level "authNoPriv" = some SNMP_SEC_LEVEL_AUTHNOPRIV
      ∧ ({ demo_sec_v3 "authNoPriv" with authPassword := none } : nutscan_snmp_t).authPassword
          = none)
    ∧ (init_session (demo_net demo_agent)
        { demo_sec_v3 "authNoPriv" with authPassword := none }).ret = 0 :=
  ⟨by decide,
   (init_session_required_fields (demo_net demo_agent)
      { demo_sec_v3 "authNoPriv" with authPassword := none } "authNoPriv"
      SNMP_SEC_LEVEL_AUTHNOPRIV rfl rfl (by decide)).2.1 rfl rfl⟩

/-- The SNMPv3 branch once the credentials required by the level are
present: the authentication part decides, and for AUTHPRIV the privacy part
follows. -/
theorem init_session_v3_of_auth (env : NetSnmp) (sec : nutscan_snmp_t)
    (secLevel : String) (lvl : Int) (secName : String)
    (hcommunity : sec.community = none) (hlevel : sec.secLevel = some secLevel)
    (hlvl : init_session_sec_level secLevel = some lvl)
    (hname : sec.secName = some secName)
    (hnoauth : lvl ≠ SNMP_SEC_LEVEL_NOAUTH)
    (hpw : sec.authPassword ≠ none)
    (hpp : lvl = SNMP_SEC_LEVEL_AUTHPRIV → sec.privPassword ≠ none) :
    init_session env sec
      = if (init_session_auth_stage env sec lvl secName).1 = false then
          ⟨0, (init_session_auth_stage env sec lvl secName).2,
            some "WARNING: %s: Bad SNMPv3 authProtocol: %s"⟩
        else if (init_session_auth_stage env sec lvl secName).2.securityAuthProtoLen
            > UINT_MAX then
          ⟨0, (init_session_auth_stage env sec lvl secName).2,
            some "WARNING: %s: Bad SNMPv3 securityAuthProtoLen: %zu"⟩
        else if (init_session_auth_Ku env sec lvl secName).1 ≠ SNMPERR_SUCCESS then
          ⟨0, (init_session_auth_stage env sec lvl secName).2, some
            "WARNING: %s: Error generating Ku from authentication pass phrase"⟩
        else if lvl = SNMP_SEC_LEVEL_AUTHNOPRIV then
          ⟨1, init_session_auth_session env sec lvl secName, none⟩
        else if (init_session_priv_proto env sec
            (init_session_auth_session env sec lvl secName)).1 = false then
          ⟨0, (init_session_priv_proto env sec
              (init_session_auth_session env sec lvl secName)).2,
            some "WARNING: %s: Bad SNMPv3 privProtocol: %s"⟩
        else if (init_session_priv_proto env sec
            (init_session_auth_session env sec lvl secName)).2.securityAuthProtoLen
            > UINT_MAX then
          ⟨0, { (init_session_priv_proto env sec
                  (init_session_auth_session env sec lvl secName)).2 with
                securityPrivKeyLen := env.USM_PRIV_KU_LEN },
            some "WARNING: %s: Bad SNMPv3 securityAuthProtoLen: %zu"⟩
        else if (env.generate_Ku
            (init_session_priv_proto env sec
              (init_session_auth_session env sec lvl secName)).2.securityAuthProto
            (init_session_priv_proto env sec
              (init_session_auth_session env sec lvl secName)).2.securityAuthProtoLen
            (sec.privPassword.getD "") (sec.privPassword.getD "").length
            env.USM_PRIV_KU_LEN).1 ≠ SNMPERR_SUCCESS then
          ⟨0, { (init_session_priv_proto env sec
                  (init_session_auth_session env sec lvl secName)).2 with
                securityPrivKeyLen := env.USM_PRIV_KU_LEN }, some
            "WARNING: %s: Error generating Ku from private pass phrase"⟩
        else
          ⟨1, { (init_session_priv_proto env sec
                  (init_session_auth_session env sec lvl secName)).2 with
                securityPrivKey := (env.generate_Ku
                  (init_session_priv_proto env sec
                    (init_session_auth_session env sec lvl secName)).2.securityAuthProto
                  (init_session_priv_proto env sec
                    (init_session_auth_session env sec lvl secName)).2.securityAuthProtoLen
                  (sec.privPassword.getD "") (sec.privPassword.getD "").length
                  env.USM_PRIV_KU_LEN).2.1,
                securityPrivKeyLen := (env.generate_Ku
                  (init_session_priv_proto env sec
                    (init_session_auth_session env sec lvl secName)).2.securityAuthProto
                  (init_session_priv_proto env sec
                    (init_session_auth_session env sec lvl secName)).2.securityAuthProtoLen
                  (sec.privPassword.getD "") (sec.privPassword.getD "").length
                  env.USM_PRIV_KU_LEN).2.2 }, none⟩ := by
  rw [init_session_v3_of_named env sec secLevel lvl secName hcommunity hlevel hlvl hname]
  have h1 : ¬ (lvl = SNMP_SEC_LEVEL_AUTHNOPRIV ∧ sec.authPassword = none) :=
    fun h => hpw h.2
  have h2 : ¬ (lvl = SNMP_SEC_LEVEL_AUTHPRIV
      ∧ (sec.authPassword = none ∨ sec.privPassword = none)) := by
    rintro ⟨h, h3 | h3⟩
    · exact hpw h3
    · exact hpp h h3
  simp only [hnoauth, h1, h2, if_false]
  simp only [init_session_auth_session, init_session_auth_Ku, init_session_auth_stage]
  rcases hA : init_session_auth_proto env sec (init_session_v3_named env sec lvl secName)
    with ⟨okA, sA⟩
  cases okA with
  | false => simp
  | true =>
    simp only [Bool.true_eq_false, if_false]
    split
    · rfl
    · split
      · rfl
      · split
        · rfl
        · rcases hP : init_session_priv_proto env sec
            { sA with
              securityAuthKey := (env.generate_Ku sA.securityAuthProto
                sA.securityAuthProtoLen (sec.authPassword.getD "")
                (sec.authPassword.getD "").length sA.securityAuthKeyLen).2.1,
              securityAuthKeyLen := (env.generate_Ku sA.securityAuthProto
                sA.securityAuthProtoLen (sec.authPassword.getD "")
                (sec.authPassword.getD "").length sA.securityAuthKeyLen).2.2 }
            with ⟨okP, sP⟩
          cases okP with
          | false => simp
          | true => simp

/-- The privacy-protocol block leaves the authentication fields of the
session as they were. -/
theorem init_session_priv_proto_keeps_auth (env : NetSnmp) (sec : nutscan_snmp_t)
    (s : snmp_session) :
    (init_session_priv_proto env sec s).2.securityAuthProto = s.securityAuthProto
    ∧ (init_session_priv_proto env sec s).2.securityAuthProtoLen = s.securityAuthProtoLen
    ∧ (init_session_priv_proto env sec s).2.securityAuthKey = s.securityAuthKey
    ∧ (init_session_priv_proto env sec s).2.securityAuthKeyLen = s.securityAuthKeyLen := by
  unfold init_session_priv_proto
  (repeat' split) <;> exact ⟨rfl, rfl, rfl, rfl⟩

/-- The authentication-protocol block sets the key length to
`USM_AUTH_KU_LEN`. -/
theorem init_session_auth_proto_key_len (env : NetSnmp) (sec : nutscan_snmp_t)
    (s : snmp_session) :
    (init_session_auth_proto env sec s).2.securityAuthKeyLen = env.USM_AUTH_KU_LEN := by
  unfold init_session_auth_proto
  (repeat' split) <;> rfl

/-- On the SNMPv3 path with the required credentials, the authentication
protocol of the session is the one that the authentication-protocol block
selected, whatever happens later. -/
theorem init_session_v3_auth_proto_field (env : NetSnmp) (sec : nutscan_snmp_t)
    (secLevel : String) (lvl : Int) (secName : String)
    (hcommunity : sec.community = none) (hlevel : sec.secLevel = some secLevel)
    (hlvl : init_session_sec_level secLevel = some lvl)
    (hname : sec.secName = some secName)
    (hnoauth : lvl ≠ SNMP_SEC_LEVEL_NOAUTH)
    (hpw : sec.authPassword ≠ none)
    (hpp : lvl = SNMP_SEC_LEVEL_AUTHPRIV → sec.privPassword ≠ none) :
    (init_session env sec).sess.securityAuthProto
        = (init_session_auth_stage env sec lvl secName).2.securityAuthProto
    ∧ (init_session env sec).sess.securityAuthProtoLen
        = (init_session_auth_stage env sec lvl secName).2.securityAuthProtoLen := by
  rw [init_session_v3_of_auth env sec secLevel lvl secName hcommunity hlevel hlvl hname
    hnoauth hpw hpp]
  have hk := init_session_priv_proto_keeps_auth env sec
    (init_session_auth_session env sec lvl secName)
  (repeat' split) <;> first | exact ⟨rfl, rfl⟩ | exact ⟨hk.1, hk.2.1⟩

/-- The level of a security-level string that is "authNoPriv" or
"authPriv". -/
theorem init_session_sec_level_auth (secLevel : String)
    (h : secLevel = "authNoPriv" ∨ secLevel = "authPriv") :
    ∃ lvl, init_session_sec_level secLevel = some lvl ∧ lvl ≠ SNMP_SEC_LEVEL_NOAUTH
      ∧ (lvl = SNMP_SEC_LEVEL_AUTHPRIV ↔ secLevel = "authPriv")
      ∧ (lvl = SNMP_SEC_LEVEL_AUTHNOPRIV ↔ secLevel = "authNoPriv") := by
  rcases h with h | h
  · subst h
    exact ⟨SNMP_SEC_LEVEL_AUTHNOPRIV, by decide, by decide, by decide, by decide⟩
  · subst h
    exact ⟨SNMP_SEC_LEVEL_AUTHPRIV, by decide, by decide, by decide, by decide⟩

/-- C12, as stated, fails: the text "SHA1" is not an authentication
protocol for `init_session`, which returns 0 with the warning of a bad
authentication protocol; the SHA1 protocol is selected by the text "SHA". -/
theorem init_session_rejects_SHA1 :
    (init_session (demo_net demo_agent)
        { demo_sec_v3 "authNoPriv" with authProtocol := some "SHA1" }).ret = 0
    ∧ (init_session (demo_net demo_agent)
        { demo_sec_v3 "authNoPriv" with authProtocol := some "SHA1" }).warning
        = some "WARNING: %s: Bad SNMPv3 authProtocol: %s"
    ∧ (init_session (demo_net demo_agent)
        { demo_sec_v3 "authNoPriv" with authProtocol := some "SHA" }).ret = 1
    ∧ (init_session (demo_net demo_agent)
        { demo_sec_v3 "authNoPriv" with authProtocol := some "SHA" }).sess.securityAuthProto
        = some (demo_net demo_agent).usmHMACSHA1AuthProtocol := by
  decide

/-- C12, amended: for an SNMPv3 bundle of level "authNoPriv" or "authPriv"
with its required fields present, `init_session` writes into the session the
HMAC-MD5 protocol when the authentication protocol is omitted or is "MD5",
and the SHA1, SHA256, SHA384, SHA512 protocol when it is "SHA", "SHA256",
"SHA384", "SHA512" (each in a build that has the protocol); for every other
text it returns 0 with the warning of a bad authentication protocol. -/
theorem init_session_auth_protocol (env : NetSnmp) (sec : nutscan_snmp_t)
    (secLevel : String) (secName : String)
    (hcommunity : sec.community = none) (hlevel : sec.secLevel = some secLevel)
    (hauth : secLevel = "authNoPriv" ∨ secLevel = "authPriv")
    (hname : sec.secName = some secName)
    (hpw : sec.authPassword ≠ none)
    (hpp : secLevel = "authPriv" → sec.privPassword ≠ none) :
    ((sec.authProtocol = none ∨ sec.authProtocol = some "MD5") →
      env.cfg.usmHMACMD5AuthProtocol = true →
      (init_session env sec).sess.securityAuthProto = some env.usmHMACMD5AuthProtocol
      ∧ (init_session env sec).sess.securityAuthProtoLen
          = env.usmHMACMD5AuthProtocol.length)
    ∧ (sec.authProtocol = some "SHA" → env.cfg.usmHMACSHA1AuthProtocol = true →
      (init_session env sec).sess.securityAuthProto = some env.usmHMACSHA1AuthProtocol
      ∧ (init_session env sec).sess.securityAuthProtoLen
          = env.usmHMACSHA1AuthProtocol.length)
    ∧ (sec.authProtocol = some "SHA256" → env.cfg.usmHMAC192SHA256AuthProtocol = true →
      (init_session env sec).sess.securityAuthProto
          = some env.usmHMAC192SHA256AuthProtocol
      ∧ (init_session env sec).sess.securityAuthProtoLen
          = env.usmHMAC192SHA256AuthProtocol.length)
    ∧ (sec.authProtocol = some "SHA384" → env.cfg.usmHMAC256SHA384AuthProtocol = true →
      (init_session env sec).sess.securityAuthProto
          = some env.usmHMAC256SHA384AuthProtocol
      ∧ (init_session env sec).sess.securityAuthProtoLen
          = env.usmHMAC256SHA384AuthProtocol.length)
    ∧ (sec.authProtocol = some "SHA512" → env.cfg.usmHMAC384SHA512AuthProtocol = true →
      (init_session env sec).sess.securityAuthProto
          = some env.usmHMAC384SHA512AuthProtocol
      ∧ (init_session env sec).sess.securityAuthProtoLen
          = env.usmHMAC384SHA512AuthProtocol.length)
    ∧ (∀ p, sec.authProtocol = some p →
        p ≠ "MD5" → p ≠ "SHA" → p ≠ "SHA256" → p ≠ "SHA384" → p ≠ "SHA512" →
      (init_session env sec).ret = 0
      ∧ (init_session env sec).warning
          = some "WARNING: %s: Bad SNMPv3 authProtocol: %s") := by
  obtain ⟨lvl, hlvl, hnoauth, hpriv, -⟩ := init_session_sec_level_auth secLevel hauth
  have hpp2 : lvl = SNMP_SEC_LEVEL_AUTHPRIV → sec.privPassword ≠ none :=
    fun h => hpp (hpriv.mp h)
  obtain ⟨hf1, hf2⟩ := init_session_v3_auth_proto_field env sec secLevel lvl secName
    hcommunity hlevel hlvl hname hnoauth hpw hpp2
  rw [hf1, hf2]
  refine ⟨?_, ?_, ?_, ?_, ?_, ?_⟩
  · rintro (h | h) hcfg <;>
      simp [init_session_auth_stage, init_session_auth_proto, h, hcfg]
  · intro h hcfg
    simp [init_session_auth_stage, init_session_auth_proto, h, hcfg]
  · intro h hcfg
    simp [init_session_auth_stage, init_session_auth_proto, h, hcfg]
  · intro h hcfg
    simp [init_session_auth_stage, init_session_auth_proto, h, hcfg]
  · intro h hcfg
    simp [init_session_auth_stage, init_session_auth_proto, h, hcfg]
  · intro p h h1 h2 h3 h4 h5
    rw [init_session_v3_of_auth env sec secLevel lvl secName hcommunity hlevel hlvl hname
      hnoauth hpw hpp2]
    have hA : (init_session_auth_stage env sec lvl secName).1 = false := by
      simp [init_session_auth_stage, init_session_auth_proto, h, h1, h2, h3, h4, h5]
    simp [hA]

/-- C12, amended, on the level "authNoPriv" with the protocol "SHA256". -/
theorem init_session_auth_protocol_witness :
    (({ demo_sec_v3 "authNoPriv" with authProtocol := some "SHA256" }
          : nutscan_snmp_t).community = none
      ∧ ({ demo_sec_v3 "authNoPriv" with authProtocol := some "SHA256" }
          : nutscan_snmp_t).authPassword ≠ none
      ∧ (demo_net demo_agent).cfg.usmHMAC192SHA256AuthProtocol = true)
    ∧ (init_session (demo_net demo_agent)
          { demo_sec_v3 "authNoPriv" with authProtocol := some "SHA256" }).sess.securityAuthProto
        = some (demo_net demo_agent).usmHMAC192SHA256AuthProtocol
    ∧ (init_session (demo_net demo_agent)
          { demo_sec_v3 "authNoPriv" with authProtocol := some "SHA256" }).sess.securityAuthProtoLen
        = (demo_net demo_agent).usmHMAC192SHA256AuthProtocol.length :=
  ⟨by decide,
   (init_session_auth_protocol (demo_net demo_agent)
      { demo_sec_v3 "authNoPriv" with authProtocol := some "SHA256" } "authNoPriv" "u"
      rfl rfl (Or.inl rfl) rfl (by decide) (by decide)).2.2.1 rfl rfl⟩

/-- On the SNMPv3 path of level AUTHPRIV with the required credentials and a
valid authentication part, the privacy protocol of the session is the one
that the privacy-protocol block selected. -/
theorem init_session_v3_priv_proto_field (env : NetSnmp) (sec : nutscan_snmp_t)
    (secName : String)
    (hcommunity : sec.community = none) (hlevel : sec.secLevel = some "authPriv")
    (hname : sec.secName = some secName)
    (hpw : sec.authPassword ≠ none) (hpp : sec.privPassword ≠ none)
    (hok : init_session_auth_ok env sec SNMP_SEC_LEVEL_AUTHPRIV secName = true) :
    (init_session env sec).sess.securityPrivProto
        = (init_session_priv_proto env sec
            (init_session_auth_session env sec SNMP_SEC_LEVEL_AUTHPRIV
              secName)).2.securityPrivProto
    ∧ (init_session env sec).sess.securityPrivProtoLen
        = (init_session_priv_proto env sec
            (init_session_auth_session env sec SNMP_SEC_LEVEL_AUTHPRIV
              secName)).2.securityPrivProtoLen
    ∧ ((init_session_priv_proto env sec
          (init_session_auth_session env sec SNMP_SEC_LEVEL_AUTHPRIV secName)).1 = false →
        (init_session env sec).ret = 0
        ∧ (init_session env sec).warning
            = some "WARNING: %s: Bad SNMPv3 privProtocol: %s") := by
  rw [init_session_v3_of_auth env sec "authPriv" SNMP_SEC_LEVEL_AUTHPRIV secName hcommunity
    hlevel (by decide) hname (by decide) hpw (fun _ => hpp)]
  simp only [init_session_auth_ok, Bool.and_eq_true, decide_eq_true_eq] at hok
  obtain ⟨⟨h1, h2⟩, h3⟩ := hok
  have h2' : ¬ (init_session_auth_stage env sec SNMP_SEC_LEVEL_AUTHPRIV
      secName).2.securityAuthProtoLen > UINT_MAX := Nat.not_lt.mpr h2
  have h4 : ¬ (SNMP_SEC_LEVEL_AUTHPRIV = SNMP_SEC_LEVEL_AUTHNOPRIV) := by decide
  simp only [h1, h2', h3, h4, Bool.true_eq_false, ne_eq, not_true_eq_false, if_false]
  refine ⟨?_, ?_, ?_⟩
  · (repeat' split) <;> rfl
  · (repeat' split) <;> rfl
  · intro hf
    simp [hf]

/-- C13, as stated, fails: the text "AES128" is not a privacy protocol for
`init_session`, which returns 0 with the warning of a bad privacy protocol;
the AES protocol is selected by the text "AES". -/
theorem init_session_rejects_AES128 :
    (init_session (demo_net demo_agent)
        { demo_sec_v3 "authPriv" with privProtocol := some "AES128" }).ret = 0
    ∧ (init_session (demo_net demo_agent)
        { demo_sec_v3 "authPriv" with privProtocol := some "AES128" }).warning
        = some "WARNING: %s: Bad SNMPv3 privProtocol: %s"
    ∧ (init_session (demo_net demo_agent)
        { demo_sec_v3 "authPriv" with privProtocol := some "AES" }).ret = 1
    ∧ (init_session (demo_net demo_agent)
        { demo_sec_v3 "authPriv" with privProtocol := some "AES" }).sess.securityPrivProto
        = some (demo_net demo_agent).usmAESPrivProtocol := by
  decide

/-- C13, amended: for an SNMPv3 bundle of level "authPriv" with its required
fields present and a valid authentication part, `init_session` writes into
the session the DES protocol when the privacy protocol is omitted or is
"DES", the AES protocol when it is "AES", and the AES192, AES256 protocol
when it is "AES192", "AES256" (each in a build that has the protocol); for
every other text it returns 0 with the warning of a bad privacy protocol. -/
theorem init_session_priv_protocol (env : NetSnmp) (sec : nutscan_snmp_t)
    (secName : String)
    (hcommunity : sec.community = none) (hlevel : sec.secLevel = some "authPriv")
    (hname : sec.secName = some secName)
    (hpw : sec.authPassword ≠ none) (hpp : sec.privPassword ≠ none)
    (hok : init_session_auth_ok env sec SNMP_SEC_LEVEL_AUTHPRIV secName = true) :
    ((sec.privProtocol = none ∨ sec.privProtocol = some "DES") →
      env.cfg.usmDESPrivProtocol = true →
      (init_session env sec).sess.securityPrivProto = some env.usmDESPrivProtocol
      ∧ (init_session env sec).sess.securityPrivProtoLen = env.usmDESPrivProtocol.length)
    ∧ (sec.privProtocol = some "AES" → env.cfg.usmAESPrivProtocol = true →
      (init_session env sec).sess.securityPrivProto = some env.usmAESPrivProtocol
      ∧ (init_session env sec).sess.securityPrivProtoLen = env.usmAESPrivProtocol.length)
    ∧ (sec.privProtocol = some "AES192" → env.cfg.DRAFT_BLUMENTHAL_AES_04 = true →
      env.cfg.usmAES192PrivProtocol = true →
      (init_session env sec).sess.securityPrivProto = some env.usmAES192PrivProtocol
      ∧ (init_session env sec).sess.securityPrivProtoLen
          = env.usmAES192PrivProtocol.length)
    ∧ (sec.privProtocol = some "AES256" → env.cfg.DRAFT_BLUMENTHAL_AES_04 = true →
      env.cfg.usmAES256PrivProtocol = true →
      (init_session env sec).sess.securityPrivProto = some env.usmAES256PrivProtocol
      ∧ (init_session env sec).sess.securityPrivProtoLen
          = env.usmAES256PrivProtocol.length)
    ∧ (∀ p, sec.privProtocol = some p →
        p ≠ "DES" → p ≠ "AES" → p ≠ "AES192" → p ≠ "AES256" →
      (init_session env sec).ret = 0
      ∧ (init_session env sec).warning
          = some "WARNING: %s: Bad SNMPv3 privProtocol: %s") := by
  obtain ⟨hf1, hf2, hf3⟩ := init_session_v3_priv_proto_field env sec secName hcommunity
    hlevel hname hpw hpp hok
  rw [hf1, hf2]
  refine ⟨?_, ?_, ?_, ?_, ?_⟩
  · rintro (h | h) hcfg <;> simp [init_session_priv_proto, h, hcfg]
  · intro h hcfg
    simp [init_session_priv_proto, h, hcfg]
  · intro h hb hcfg
    simp [init_session_priv_proto, h, hb, hcfg]
  · intro h hb hcfg
    simp [init_session_priv_proto, h, hb, hcfg]
  · intro p h h1 h2 h3 h4
    apply hf3
    simp [init_session_priv_proto, h, h1, h2, h3, h4]

/-- C13, amended, on the level "authPriv" with the protocol "AES256". -/
theorem init_session_priv_protocol_witness :
    (({ demo_sec_v3 "authPriv" with privProtocol := some "AES256" }
          : nutscan_snmp_t).community = none
      ∧ init_session_auth_ok (demo_net demo_agent)
          { demo_sec_v3 "authPriv" with privProtocol := some "AES256" }
          SNMP_SEC_LEVEL_AUTHPRIV "u" = true
      ∧ (demo_net demo_agent).cfg.usmAES256PrivProtocol = true)
    ∧ (init_session (demo_net demo_agent)
          { demo_sec_v3 "authPriv" with privProtocol := some "AES256" }).sess.securityPrivProto
        = some (demo_net demo_agent).usmAES256PrivProtocol
    ∧ (init_session (demo_net demo_agent)
          { demo_sec_v3 "authPriv" with privProtocol := some "AES256" }).sess.securityPrivProtoLen
        = (demo_net demo_agent).usmAES256PrivProtocol.length :=
  ⟨by decide,
   (init_session_priv_protocol (demo_net demo_agent)
      { demo_sec_v3 "authPriv" with privProtocol := some "AES256" } "u"
      rfl rfl rfl (by decide) (by decide) (by decide)).2.2.2.1 rfl rfl rfl⟩

/-- C14: when `init_session` returns 1 in "authPriv" mode, the
authentication key of the session is what `generate_Ku` gives for the
authentication protocol of the session and the authentication pass phrase,
and the privacy key is what `generate_Ku` gives for the same authentication
protocol (not the privacy protocol) and the privacy pass phrase. -/
theorem init_session_keys (env : NetSnmp) (sec : nutscan_snmp_t)
    (authPassword privPassword : String)
    (hcommunity : sec.community = none) (hlevel : sec.secLevel = some "authPriv")
    (hpw : sec.authPassword = some authPassword)
    (hpp : sec.privPassword = some privPassword)
    (hret : (init_session env sec).ret = 1) :
    (init_session env sec).sess.securityAuthKey
        = (env.generate_Ku (init_session env sec).sess.securityAuthProto
            (init_session env sec).sess.securityAuthProtoLen authPassword
            authPassword.length env.USM_AUTH_KU_LEN).2.1
    ∧ (init_session env sec).sess.securityPrivKey
        = (env.generate_Ku (init_session env sec).sess.securityAuthProto
            (init_session env sec).sess.securityAuthProtoLen privPassword
            privPassword.length env.USM_PRIV_KU_LEN).2.1
    ∧ (env.generate_Ku (init_session env sec).sess.securityAuthProto
            (init_session env sec).sess.securityAuthProtoLen authPassword
            authPassword.length env.USM_AUTH_KU_LEN).1 = SNMPERR_SUCCESS
    ∧ (env.generate_Ku (init_session env sec).sess.securityAuthProto
            (init_session env sec).sess.securityAuthProtoLen privPassword
            privPassword.length env.USM_PRIV_KU_LEN).1 = SNMPERR_SUCCESS := by
  cases hname : sec.secName with
  | none =>
    have h0 : (init_session env sec).ret = 0 := by
      simp [init_session, hcommunity, hlevel, init_session_v3, hname,
        init_session_sec_level]
    rw [h0] at hret
    exact absurd hret (by decide)
  | some secName =>
    have hk := init_session_priv_proto_keeps_auth env sec
      (init_session_auth_session env sec SNMP_SEC_LEVEL_AUTHPRIV secName)
    have hlen := init_session_auth_proto_key_len env sec
      (init_session_v3_named env sec SNMP_SEC_LEVEL_AUTHPRIV secName)
    have heq := init_session_v3_of_auth env sec "authPriv" SNMP_SEC_LEVEL_AUTHPRIV secName
      hcommunity hlevel (by decide) hname (by decide) (by simp [hpw])
      (fun _ => by simp [hpp])
    have h4 : ¬ (SNMP_SEC_LEVEL_AUTHPRIV = SNMP_SEC_LEVEL_AUTHNOPRIV) := by decide
    have hret2 := hret
    rw [heq] at hret2
    split at hret2
    · simp at hret2
    · split at hret2
      · simp at hret2
      · split at hret2
        · simp at hret2
        · split at hret2
          · simp at hret2
          · split at hret2
            · simp at hret2
            · split at hret2
              · simp at hret2
              · rename_i h1 h2 h3 h5 h6 h7
                rw [heq, if_neg h1, if_neg h2, if_neg h3, if_neg h4, if_neg h5, if_neg h6,
                  if_neg h7]
                simp only [ne_eq, not_not] at h3 h7
                simp only [hpp, Option.getD_some] at h7 ⊢
                simp only [init_session_auth_Ku, hpw, Option.getD_some] at h3
                refine ⟨?_, ?_, ?_, ?_⟩
                · show (init_session_priv_proto env sec _).2.securityAuthKey
                    = (env.generate_Ku
                        (init_session_priv_proto env sec _).2.securityAuthProto
                        (init_session_priv_proto env sec _).2.securityAuthProtoLen
                        _ _ _).2.1
                  rw [hk.2.2.1, hk.1, hk.2.1]
                  simp only [init_session_auth_session, init_session_auth_Ku,
                    init_session_auth_stage, hpw, Option.getD_some, hlen]
                · trivial
                · show (env.generate_Ku
                      (init_session_priv_proto env sec _).2.securityAuthProto
                      (init_session_priv_proto env sec _).2.securityAuthProtoLen
                      _ _ _).1 = _
                  rw [hk.1, hk.2.1]
                  simp only [init_session_auth_session]
                  rw [← hlen]
                  exact h3
                · exact h7

/-- C14, on the level "authPriv" with SHA and AES: both keys come from
`generate_Ku` with the SHA1 protocol. -/
theorem init_session_keys_witness :
    (({ demo_sec_v3 "authPriv" with authProtocol := some "SHA", privProtocol := some "AES" }
          : nutscan_snmp_t).community = none
      ∧ (init_session (demo_net demo_agent)
          { demo_sec_v3 "authPriv" with
            authProtocol := some "SHA", privProtocol := some "AES" }).ret = 1
      ∧ (init_session (demo_net demo_agent)
          { demo_sec_v3 "authPriv" with
            authProtocol := some "SHA", privProtocol := some "AES" }).sess.securityAuthProto
          = some (demo_net demo_agent).usmHMACSHA1AuthProtocol
      ∧ (init_session (demo_net demo_agent)
          { demo_sec_v3 "authPriv" with
            authProtocol := some "SHA", privProtocol := some "AES" }).sess.securityPrivProto
          = some (demo_net demo_agent).usmAESPrivProtocol)
    ∧ (init_session (demo_net demo_agent)
          { demo_sec_v3 "authPriv" with
            authProtocol := some "SHA", privProtocol := some "AES" }).sess.securityPrivKey
        = ((demo_net demo_agent).generate_Ku
            (init_session (demo_net demo_agent)
              { demo_sec_v3 "authPriv" with
                authProtocol := some "SHA", privProtocol := some "AES" }).sess.securityAuthProto
            (init_session (demo_net demo_agent)
              { demo_sec_v3 "authPriv" with
                authProtocol := some "SHA", privProtocol := some "AES" }).sess.securityAuthProtoLen
            "password2" "password2".length (demo_net demo_agent).USM_PRIV_KU_LEN).2.1 :=
  ⟨by decide,
   (init_session_keys (demo_net demo_agent)
      { demo_sec_v3 "authPriv" with authProtocol := some "SHA", privProtocol := some "AES" }
      "password1" "password2" rfl rfl rfl rfl (by decide)).2.1⟩

/-- C15: for an SNMPv3 bundle of level "authNoPriv" with security name,
authentication pass phrase and a valid authentication protocol (known, with
a length in range), `init_session` returns 1 exactly when `generate_Ku`
reports success on the pass phrase; the length of the pass phrase is passed
to `generate_Ku` and tested nowhere else. -/
theorem init_session_key_generation (env : NetSnmp) (sec : nutscan_snmp_t)
    (secName authPassword : String)
    (hcommunity : sec.community = none) (hlevel : sec.secLevel = some "authNoPriv")
    (hname : sec.secName = some secName)
    (hpw : sec.authPassword = some authPassword)
    (hproto : (init_session_auth_stage env sec SNMP_SEC_LEVEL_AUTHNOPRIV secName).1 = true)
    (hlen : (init_session_auth_stage env sec SNMP_SEC_LEVEL_AUTHNOPRIV
      secName).2.securityAuthProtoLen ≤ UINT_MAX) :
    ((init_session env sec).ret = 1 ↔
      (env.generate_Ku
        (init_session_auth_stage env sec SNMP_SEC_LEVEL_AUTHNOPRIV secName).2.securityAuthProto
        (init_session_auth_stage env sec SNMP_SEC_LEVEL_AUTHNOPRIV
          secName).2.securityAuthProtoLen
        authPassword authPassword.length env.USM_AUTH_KU_LEN).1 = SNMPERR_SUCCESS)
    ∧ ((init_session env sec).ret = 0 ↔
      (env.generate_Ku
        (init_session_auth_stage env sec SNMP_SEC_LEVEL_AUTHNOPRIV secName).2.securityAuthProto
        (init_session_auth_stage env sec SNMP_SEC_LEVEL_AUTHNOPRIV
          secName).2.securityAuthProtoLen
        authPassword authPassword.length env.USM_AUTH_KU_LEN).1 ≠ SNMPERR_SUCCESS) := by
  have hkl := init_session_auth_proto_key_len env sec
    (init_session_v3_named env sec SNMP_SEC_LEVEL_AUTHNOPRIV secName)
  have hku : init_session_auth_Ku env sec SNMP_SEC_LEVEL_AUTHNOPRIV secName
      = env.generate_Ku
        (init_session_auth_stage env sec SNMP_SEC_LEVEL_AUTHNOPRIV secName).2.securityAuthProto
        (init_session_auth_stage env sec SNMP_SEC_LEVEL_AUTHNOPRIV
          secName).2.securityAuthProtoLen
        authPassword authPassword.length env.USM_AUTH_KU_LEN := by
    simp only [init_session_auth_Ku, hpw, Option.getD_some, init_session_auth_stage, hkl]
  rw [init_session_v3_of_auth env sec "authNoPriv" SNMP_SEC_LEVEL_AUTHNOPRIV secName
    hcommunity hlevel (by decide) hname (by decide) (by simp [hpw])
    (fun h => absurd h (by decide))]
  have hlen2 : ¬ (init_session_auth_stage env sec SNMP_SEC_LEVEL_AUTHNOPRIV
      secName).2.securityAuthProtoLen > UINT_MAX := Nat.not_lt.mpr hlen
  rw [if_neg (by simp [hproto]), if_neg hlen2, hku]
  by_cases hs : (env.generate_Ku
        (init_session_auth_stage env sec SNMP_SEC_LEVEL_AUTHNOPRIV secName).2.securityAuthProto
        (init_session_auth_stage env sec SNMP_SEC_LEVEL_AUTHNOPRIV
          secName).2.securityAuthProtoLen
        authPassword authPassword.length env.USM_AUTH_KU_LEN).1 = SNMPERR_SUCCESS
  · simp [hs]
  · simp [hs]

/-- C15, on a pass phrase of three characters: with a key generator that
accepts it the session is built, with one that rejects it the call
fails. -/
theorem init_session_key_generation_witness :
    (({ demo_sec_v3 "authNoPriv" with authPassword := some "abc" } : nutscan_snmp_t).community
        = none
      ∧ (init_session_auth_stage lenient_net
          { demo_sec_v3 "authNoPriv" with authPassword := some "abc" }
          SNMP_SEC_LEVEL_AUTHNOPRIV "u").1 = true
      ∧ (init_session (demo_net demo_agent)
          { demo_sec_v3 "authNoPriv" with authPassword := some "abc" }).ret = 0
      ∧ (init_session lenient_net
          { demo_sec_v3 "authNoPriv" with authPassword := some "abc" }).ret = 1)
    ∧ ((init_session lenient_net
          { demo_sec_v3 "authNoPriv" with authPassword := some "abc" }).ret = 1 ↔
        (lenient_net.generate_Ku
          (init_session_auth_stage lenient_net
            { demo_sec_v3 "authNoPriv" with authPassword := some "abc" }
            SNMP_SEC_LEVEL_AUTHNOPRIV "u").2.securityAuthProto
          (init_session_auth_stage lenient_net
            { demo_sec_v3 "authNoPriv" with authPassword := some "abc" }
            SNMP_SEC_LEVEL_AUTHNOPRIV "u").2.securityAuthProtoLen
          "abc" "abc".length lenient_net.USM_AUTH_KU_LEN).1 = SNMPERR_SUCCESS) :=
  ⟨by decide,
   (init_session_key_generation lenient_net
      { demo_sec_v3 "authNoPriv" with authPassword := some "abc" } "u" "abc"
      rfl rfl rfl rfl (by decide) (by decide)).1⟩

/-- The value returned by `init_session` is 0 with one of the warnings of
the source, or 1 without warning. -/
theorem init_session_ret_warning (env : NetSnmp) (sec : nutscan_snmp_t) :
    ((init_session env sec).ret = 0
        ∧ ∃ w ∈ init_session_warnings, (init_session env sec).warning = some w)
    ∨ ((init_session env sec).ret = 1 ∧ (init_session env sec).warning = none) := by
  cases hc : sec.community with
  | some c => exact Or.inr (by simp [init_session, hc])
  | none =>
    cases hl : sec.secLevel with
    | none => exact Or.inr (by simp [init_session, hc, hl])
    | some secLevel =>
      cases hlvl : init_session_sec_level secLevel with
      | none =>
        refine Or.inl ?_
        simp [init_session, hc, hl, init_session_v3, hlvl, init_session_warnings]
      | some lvl =>
        cases hn : sec.secName with
        | none =>
          refine Or.inl ?_
          simp [init_session, hc, hl, init_session_v3, hlvl, hn, init_session_warnings]
        | some secName =>
          rw [init_session_v3_of_named env sec secLevel lvl secName hc hl hlvl hn]
          by_cases h1 : lvl = SNMP_SEC_LEVEL_NOAUTH
          · exact Or.inr (by simp [h1])
          · by_cases h2 : lvl = SNMP_SEC_LEVEL_AUTHNOPRIV ∧ sec.authPassword = none
            · rw [if_neg h1, if_pos h2]
              exact Or.inl (by simp [init_session_warnings])
            · by_cases h3 : lvl = SNMP_SEC_LEVEL_AUTHPRIV
                  ∧ (sec.authPassword = none ∨ sec.privPassword = none)
              · rw [if_neg h1, if_neg h2, if_pos h3]
                exact Or.inl (by simp [init_session_warnings])
              · rw [if_neg h1, if_neg h2, if_neg h3]
                rcases init_session_auth_proto env sec
                  (init_session_v3_named env sec lvl secName) with ⟨okA, sA⟩
                cases okA with
                | false => exact Or.inl (by simp [init_session_warnings])
                | true =>
                  simp only []
                  by_cases h4 : sA.securityAuthProtoLen > UINT_MAX
                  · exact Or.inl (by simp [h4, init_session_warnings])
                  · rw [if_neg h4]
                    by_cases h5 : (env.generate_Ku sA.securityAuthProto
                        sA.securityAuthProtoLen (sec.authPassword.getD "")
                        (sec.authPassword.getD "").length sA.securityAuthKeyLen).1
                        ≠ SNMPERR_SUCCESS
                    · exact Or.inl (by simp [h5, init_session_warnings])
                    · rw [if_neg h5]
                      by_cases h6 : lvl = SNMP_SEC_LEVEL_AUTHNOPRIV
                      · rw [if_pos h6]
                        exact Or.inr (by simp)
                      · rw [if_neg h6]
                        rcases init_session_priv_proto env sec _ with ⟨okP, sP⟩
                        cases okP with
                        | false => exact Or.inl (by simp [init_session_warnings])
                        | true =>
                          simp only []
                          by_cases h7 : sP.securityAuthProtoLen > UINT_MAX
                          · exact Or.inl (by simp [h7, init_session_warnings])
                          · rw [if_neg h7]
                            by_cases h8 : (env.generate_Ku sP.securityAuthProto
                                sP.securityAuthProtoLen (sec.privPassword.getD "")
                                (sec.privPassword.getD "").length env.USM_PRIV_KU_LEN).1
                                ≠ SNMPERR_SUCCESS
                            · exact Or.inl (by simp [h8, init_session_warnings])
                            · exact Or.inr (by simp [h8])

/-- C16, as stated, fails: a bad security level and a missing security name
give the same return value 0, although the warnings differ. -/
theorem init_session_same_return_value :
    (init_session (demo_net demo_agent) (demo_sec_v3 "bogus")).ret
      = (init_session (demo_net demo_agent)
          { demo_sec_v3 "authNoPriv" with secName := none }).ret
    ∧ (init_session (demo_net demo_agent) (demo_sec_v3 "bogus")).warning
      ≠ (init_session (demo_net demo_agent)
          { demo_sec_v3 "authNoPriv" with secName := none }).warning := by
  decide

/-- C16, amended: every failure of `init_session` returns the same value 0,
and success returns 1; a failure is told from another by the warning that
is logged only, one of nine pairwise distinct format strings.  On the SNMPv3
path: a bad security level, a missing security name, a missing secret (one
text per level), a bad authentication protocol, a failed authentication key,
a bad privacy protocol and a failed privacy key each log their own text. -/
theorem init_session_failure_kinds (env : NetSnmp) (sec : nutscan_snmp_t) :
    (((init_session env sec).ret = 0
        ∧ ∃ w ∈ init_session_warnings, (init_session env sec).warning = some w)
      ∨ ((init_session env sec).ret = 1 ∧ (init_session env sec).warning = none))
    ∧ init_session_warnings.Nodup
    ∧ (∀ secLevel, sec.community = none → sec.secLevel = some secLevel →
        (init_session_sec_level secLevel = none →
          (init_session env sec).warning
            = some "WARNING: %s: Bad SNMPv3 securityLevel: %s")
        ∧ (init_session_sec_level secLevel ≠ none → sec.secName = none →
          (init_session env sec).warning
            = some "WARNING: %s: securityName is required for SNMPv3")
        ∧ (secLevel = "authNoPriv" → sec.secName ≠ none → sec.authPassword = none →
          (init_session env sec).warning
            = some "WARNING: %s: authPassword is required for SNMPv3 in %s mode")
        ∧ (secLevel = "authPriv" → sec.secName ≠ none →
          (sec.authPassword = none ∨ sec.privPassword = none) →
          (init_session env sec).warning = some
            "WARNING: %s: authPassword and privPassword are required for SNMPv3 in %s mode"))
    ∧ (∀ secLevel lvl secName, sec.community = none → sec.secLevel = some secLevel →
        init_session_sec_level secLevel = some lvl → sec.secName = some secName →
        lvl ≠ SNMP_SEC_LEVEL_NOAUTH → sec.authPassword ≠ none →
        (lvl = SNMP_SEC_LEVEL_AUTHPRIV → sec.privPassword ≠ none) →
        ((init_session_auth_stage env sec lvl secName).1 = false →
          (init_session env sec).warning
            = some "WARNING: %s: Bad SNMPv3 authProtocol: %s")
        ∧ ((init_session_auth_stage env sec lvl secName).1 = true →
          (init_session_auth_stage env sec lvl secName).2.securityAuthProtoLen ≤ UINT_MAX →
          (init_session_auth_Ku env sec lvl secName).1 ≠ SNMPERR_SUCCESS →
          (init_session env sec).warning
            = some "WARNING: %s: Error generating Ku from authentication pass phrase")
        ∧ (lvl = SNMP_SEC_LEVEL_AUTHPRIV →
          init_session_auth_ok env sec lvl secName = true →
          ((init_session_priv_proto env sec
              (init_session_auth_session env sec lvl secName)).1 = false →
            (init_session env sec).warning
              = some "WARNING: %s: Bad SNMPv3 privProtocol: %s")
          ∧ ((init_session_priv_proto env sec
              (init_session_auth_session env sec lvl secName)).1 = true →
            (env.generate_Ku
              (init_session_auth_stage env sec lvl secName).2.securityAuthProto
              (init_session_auth_stage env sec lvl secName).2.securityAuthProtoLen
              (sec.privPassword.getD "") (sec.privPassword.getD "").length
              env.USM_PRIV_KU_LEN).1 ≠ SNMPERR_SUCCESS →
            (init_session env sec).warning
              = some "WARNING: %s: Error generating Ku from private pass phrase"))) := by
  refine ⟨init_session_ret_warning env sec, by decide, ?_, ?_⟩
  · intro secLevel hc hl
    refine ⟨?_, ?_, ?_, ?_⟩
    · intro h
      simp [init_session, hc, hl, init_session_v3, h]
    · intro h hn
      obtain ⟨lvl, hlvl⟩ := Option.ne_none_iff_exists'.mp h
      simp [init_session, hc, hl, init_session_v3, hlvl, hn]
    · intro h hn hpw
      obtain ⟨secName, hn⟩ := Option.ne_none_iff_exists'.mp hn
      subst h
      rw [init_session_v3_of_named env sec "authNoPriv" SNMP_SEC_LEVEL_AUTHNOPRIV secName
        hc hl (by decide) hn, if_neg (by decide), if_pos ⟨rfl, hpw⟩]
    · intro h hn hpw
      obtain ⟨secName, hn⟩ := Option.ne_none_iff_exists'.mp hn
      subst h
      rw [init_session_v3_of_named env sec "authPriv" SNMP_SEC_LEVEL_AUTHPRIV secName
        hc hl (by decide) hn, if_neg (by decide),
        if_neg (fun h => absurd h.1 (by decide)), if_pos ⟨rfl, hpw⟩]
  · intro secLevel lvl secName hc hl hlvl hn hnoauth hpw hpp
    have heq := init_session_v3_of_auth env sec secLevel lvl secName hc hl hlvl hn hnoauth
      hpw hpp
    refine ⟨?_, ?_, ?_⟩
    · intro h
      rw [heq, if_pos h]
    · intro h1 h2 h3
      rw [heq, if_neg (by simp [h1]), if_neg (Nat.not_lt.mpr h2), if_pos h3]
    · intro hlv hok
      simp only [init_session_auth_ok, Bool.and_eq_true, decide_eq_true_eq] at hok
      obtain ⟨⟨h1, h2⟩, h3⟩ := hok
      have hk := init_session_priv_proto_keeps_auth env sec
        (init_session_auth_session env sec lvl secName)
      have hnp : ¬ lvl = SNMP_SEC_LEVEL_AUTHNOPRIV := by
        rw [hlv]; decide
      refine ⟨?_, ?_⟩
      · intro h
        rw [heq, if_neg (by simp [h1]), if_neg (Nat.not_lt.mpr h2),
          if_neg (by simp [h3]), if_neg hnp, if_pos h]
      · intro h hku
        have hlen : ¬ (init_session_priv_proto env sec
            (init_session_auth_session env sec lvl secName)).2.securityAuthProtoLen
            > UINT_MAX := by
          rw [hk.2.1]
          exact Nat.not_lt.mpr h2
        have hku2 : (env.generate_Ku
            (init_session_priv_proto env sec
              (init_session_auth_session env sec lvl secName)).2.securityAuthProto
            (init_session_priv_proto env sec
              (init_session_auth_session env sec lvl secName)).2.securityAuthProtoLen
            (sec.privPassword.getD "") (sec.privPassword.getD "").length
            env.USM_PRIV_KU_LEN).1 ≠ SNMPERR_SUCCESS := by
          rw [hk.1, hk.2.1]
          exact hku
        rw [heq, if_neg (by simp [h1]), if_neg (Nat.not_lt.mpr h2),
          if_neg (by simp [h3]), if_neg hnp, if_neg (by simp [h]), if_neg hlen,
          if_pos hku2]

/-- C16, amended, on the protocol text "SHA1": the call returns 0 and logs
the warning of a bad authentication protocol. -/
theorem init_session_failure_kinds_witness :
    ((init_session_auth_stage (demo_net demo_agent)
          { demo_sec_v3 "authNoPriv" with authProtocol := some "SHA1" }
          SNMP_SEC_LEVEL_AUTHNOPRIV "u").1 = false
      ∧ (init_session (demo_net demo_agent)
          { demo_sec_v3 "authNoPriv" with authProtocol := some "SHA1" }).ret = 0)
    ∧ (init_session (demo_net demo_agent)
          { demo_sec_v3 "authNoPriv" with authProtocol := some "SHA1" }).warning
        = some "WARNING: %s: Bad SNMPv3 authProtocol: %s" :=
  ⟨by decide,
   ((init_session_failure_kinds (demo_net demo_agent)
      { demo_sec_v3 "authNoPriv" with authProtocol := some "SHA1" }).2.2.2
      "authNoPriv" SNMP_SEC_LEVEL_AUTHNOPRIV "u" rfl rfl (by decide) rfl (by decide)
      (by decide) (fun h => absurd h (by decide))).1 (by decide)⟩

/-- A worker whose `init_session` fails leaves the whole state as it was:
nothing is published, no session is opened and no request is sent. -/
theorem try_SysOID_thready_of_init_failure (env : NetSnmp)
    (table : List snmp_device_id_t) (g_usec_timeout : Int) (sec : nutscan_snmp_t)
    (st : ScanState) (h : (init_session env sec).ret = 0) :
    try_SysOID_thready env table g_usec_timeout sec st = st := by
  simp [try_SysOID_thready, h]

/-- The loop without threads leaves the state as it was when `init_session`
fails for every address. -/
theorem scan_loop_nothread_of_init_failure (env : NetSnmp)
    (table : List snmp_device_id_t) (g_usec_timeout : Int) (sec : nutscan_snmp_t)
    (malloc_ok : Nat → Bool)
    (h : ∀ ip_str, (init_session env { sec with peername := some ip_str }).ret = 0)
    (addresses : List String) :
    ∀ (n : Nat) (st : ScanState),
      scan_loop_nothread env table g_usec_timeout sec malloc_ok addresses n st = st := by
  induction addresses with
  | nil => intro n st; rfl
  | cons ip_str rest ih =>
    intro n st
    simp only [scan_loop_nothread]
    split
    · rfl
    · rw [try_SysOID_thready_of_init_failure env table g_usec_timeout _ st (h ip_str)]
      exact ih (n + 1) st

/-- A bundle of level "authNoPriv" without authentication pass phrase makes
`init_session` fail for every peer. -/
theorem init_session_S4 (env : NetSnmp) (sec : nutscan_snmp_t)
    (hcommunity : sec.community = none) (hlevel : sec.secLevel = some "authNoPriv")
    (hpw : sec.authPassword = none) (peername : Option String) :
    (init_session env { sec with peername := peername }).ret = 0 := by
  obtain hn | ⟨secName, hn⟩ : sec.secName = none ∨ ∃ n, sec.secName = some n := by
    cases sec.secName <;> simp
  · simp [init_session, hcommunity, hlevel, init_session_v3, init_session_sec_level, hn]
  · rw [init_session_v3_of_named env { sec with peername := peername } "authNoPriv"
      SNMP_SEC_LEVEL_AUTHNOPRIV secName hcommunity hlevel (by decide) hn]
    simp [hpw, SNMP_SEC_LEVEL_AUTHNOPRIV, SNMP_SEC_LEVEL_NOAUTH]

/-- C17: when `init_session` fails, `try_SysOID_thready` returns the state it
was given: `dev_ret` is unchanged and the log has no session opening and no
request.  When it fails for every address, the scan (build without threads)
started with an empty `dev_ret` returns the empty list; this is the case of
the level "authNoPriv" without authentication pass phrase. -/
theorem failed_init_session_leaves_sink (env : NetSnmp) (table : List snmp_device_id_t)
    (g_usec_timeout : Int) (sec : nutscan_snmp_t) :
    (∀ st, (init_session env sec).ret = 0 →
      try_SysOID_thready env table g_usec_timeout sec st = st)
    ∧ ((∀ ip_str, (init_session env { sec with peername := some ip_str }).ret = 0) →
      ∀ (avail : Bool) (malloc_ok : Nat → Bool) (irl : Option (List String))
        (st : ScanState), st.dev_ret = [] →
        (nutscan_scan_ip_range_snmp_nothread env table avail malloc_ok irl g_usec_timeout
          sec st).1 = []
        ∧ (nutscan_scan_ip_range_snmp_nothread env table avail malloc_ok irl g_usec_timeout
          sec st).2 = st)
    ∧ (sec.community = none → sec.secLevel = some "authNoPriv" → sec.authPassword = none →
      ∀ ip_str, (init_session env { sec with peername := some ip_str }).ret = 0) := by
  refine ⟨fun st h => try_SysOID_thready_of_init_failure env table g_usec_timeout sec st h,
    ?_, fun hc hl hpw ip_str => init_session_S4 env sec hc hl hpw (some ip_str)⟩
  intro h avail malloc_ok irl st hst
  unfold nutscan_scan_ip_range_snmp_nothread
  split
  · exact ⟨rfl, rfl⟩
  · split
    · exact ⟨rfl, rfl⟩
    · rename_i addresses
      simp only [scan_loop_nothread_of_init_failure env table g_usec_timeout sec malloc_ok h
        addresses 0 st, nutscan_rewind_device, hst, true_and]
      cases st
      simp_all

/-- C17, scenario S4: level "authNoPriv" without authentication pass phrase,
three addresses, a host that would answer; the scan returns the empty list. -/
theorem failed_init_session_leaves_sink_witness :
    (({ demo_sec_v3 "authNoPriv" with authPassword := none } : nutscan_snmp_t).community = none
      ∧ ({ demo_sec_v3 "authNoPriv" with authPassword := none } : nutscan_snmp_t).secLevel
          = some "authNoPriv"
      ∧ ({ demo_sec_v3 "authNoPriv" with authPassword := none } : nutscan_snmp_t).authPassword
          = none
      ∧ demo_state.dev_ret = [])
    ∧ (nutscan_scan_ip_range_snmp_nothread (demo_net demo_agent) table_S1 true
        (fun _ => true) (some ["10.0.0.1", "10.0.0.2", "10.0.0.3"]) 1000000
        { demo_sec_v3 "authNoPriv" with authPassword := none } demo_state).1 = [] :=
  ⟨by decide,
   ((failed_init_session_leaves_sink (demo_net demo_agent) table_S1 1000000
      { demo_sec_v3 "authNoPriv" with authPassword := none }).2.1
      ((failed_init_session_leaves_sink (demo_net demo_agent) table_S1 1000000
        { demo_sec_v3 "authNoPriv" with authPassword := none }).2.2 rfl rfl rfl)
      true (fun _ => true) (some ["10.0.0.1", "10.0.0.2", "10.0.0.3"]) demo_state rfl).1⟩

theorem add_option_if_set_opt (dev : nutscan_device_t) (key : String) (x : Option String) :
    (add_option_if_set dev key x).opt = dev.opt ++ optional_entry key x := by
  cases x <;> simp [add_option_if_set, optional_entry, nutscan_add_option_to_device]

/-- C18: a descriptor built by `scan_snmp_add_device` over a session without
community (NULL or empty) has the options `desc` (when there is a response),
`mibs`, `snmp_version=v3`, and then, in this order, those of `secLevel`,
`secName`, `authPassword`, `privPassword`, `authProtocol`, `privProtocol`
whose credential field is supplied, each with the supplied value; it has no
`community` option. -/
theorem scan_snmp_device_v3_options (sec : nutscan_snmp_t) (session : snmp_session)
    (response : Option snmp_pdu) (mib : String)
    (h : session.community = none ∨ session.community = some "") :
    (scan_snmp_device sec session response mib).opt
        = optional_entry "desc" (response_value response)
          ++ [("mibs", mib), ("snmp_version", "v3")]
          ++ optional_entry "secLevel" sec.secLevel
          ++ optional_entry "secName" sec.secName
          ++ optional_entry "authPassword" sec.authPassword
          ++ optional_entry "privPassword" sec.privPassword
          ++ optional_entry "authProtocol" sec.authProtocol
          ++ optional_entry "privProtocol" sec.privProtocol
    ∧ device_option (scan_snmp_device sec session response mib) "community" = none
    ∧ device_option (scan_snmp_device sec session response mib) "snmp_version" = some "v3"
    ∧ device_option (scan_snmp_device sec session response mib) "secLevel" = sec.secLevel
    ∧ device_option (scan_snmp_device sec session response mib) "secName" = sec.secName
    ∧ device_option (scan_snmp_device sec session response mib) "authPassword"
        = sec.authPassword
    ∧ device_option (scan_snmp_device sec session response mib) "privPassword"
        = sec.privPassword
    ∧ device_option (scan_snmp_device sec session response mib) "authProtocol"
        = sec.authProtocol
    ∧ device_option (scan_snmp_device sec session response mib) "privProtocol"
        = sec.privProtocol := by
  have hv3 := scan_snmp_device_v3 sec session response mib h
  refine ⟨?_, hv3.2, hv3.1, ?_, ?_, ?_, ?_, ?_, ?_⟩
  · unfold scan_snmp_device response_value
    simp only [h, if_true]
    (repeat' split) <;>
      simp_all [add_option_if_set_opt, nutscan_add_option_to_device, nutscan_new_device,
        optional_entry]
  all_goals
    unfold scan_snmp_device
    simp only [h, if_true]
    (repeat' split) <;>
      (simp only [device_option_add, device_option_add_if_set]
       simp [device_option, nutscan_new_device])

/-- C18, scenario S3: level "authPriv" with SHA and AES; the descriptor has
`snmp_version=v3` and the six SNMPv3 options, and no `community`. -/
theorem scan_snmp_device_v3_options_witness :
    (demo_session.community = none ∨ demo_session.community = some "")
    ∧ (scan_snmp_device
          { demo_sec_v3 "authPriv" with authProtocol := some "SHA", privProtocol := some "AES" }
          demo_session none "ietf").opt
        = optional_entry "desc" (response_value none)
          ++ [("mibs", "ietf"), ("snmp_version", "v3")]
          ++ optional_entry "secLevel" (some "authPriv")
          ++ optional_entry "secName" (some "u")
          ++ optional_entry "authPassword" (some "password1")
          ++ optional_entry "privPassword" (some "password2")
          ++ optional_entry "authProtocol" (some "SHA")
          ++ optional_entry "privProtocol" (some "AES") :=
  ⟨by decide,
   (scan_snmp_device_v3_options
      { demo_sec_v3 "authPriv" with authProtocol := some "SHA", privProtocol := some "AES" }
      demo_session none "ietf" (Or.inl rfl)).1⟩

theorem driver_inv_after_loop (D : DriverEnv) (G : Nat) (s : DriverState)
    (hb : TicketBound D G 0 s)
    (ht : ∀ a, s.thread_array = some a → (a.filter (fun e => e.active)).length ≤ s.live) :
    DriverInv D G (after_loop s) := by
  obtain ⟨pc, ip, sem, st, arr, cnt, it, live, disp, oob⟩ := s
  cases arr with
  | none => simpa [after_loop, DriverInv, TicketBound] using hb
  | some a =>
    simp only [after_loop, DriverInv]
    exact ⟨by simpa [TicketBound] using hb, a, rfl, by simpa using ht a rfl⟩

theorem table_ok_filter (s : DriverState) (h : TableOk s) :
    ∀ a, s.thread_array = some a → (a.filter (fun e => e.active)).length ≤ s.live := by
  intro a ha
  simp only [TableOk, ha] at h
  exact (List.length_filter_le _ _).trans h.2.2

theorem driver_inv_acquire (D : DriverEnv) (G : Nat) (s : DriverState)
    (hb : TicketBound D G 0 s) (ht : TableOk s) :
    DriverInv D G (acquire_tickets D s) := by
  obtain ⟨pc, ip, sem, st, arr, cnt, it, live, disp, oob⟩ := s
  simp only [TicketBound, Nat.add_zero] at hb
  obtain ⟨hb1, hb2⟩ := hb
  cases arr with
  | none =>
    simp only [TableOk] at ht
    simp only [acquire_tickets]
    by_cases hmax : D.max_threads_scantype > 0
    · have hb2 := hb2 hmax
      by_cases hst : st = 0
      · simp only [hmax, hst, and_self, if_true, DriverInv, TicketBound, Nat.add_zero]
        subst hst
        exact ⟨hb1, fun _ => hb2⟩
      · simp only [hmax, hst, and_false, if_false, if_true]
        by_cases hs : sem = 0
        · simp only [hs, if_true, DriverInv, TicketBound, Nat.add_zero]
          subst hs
          exact ⟨hb1, fun _ => by omega⟩
        · simp only [hs, if_false, DriverInv, TicketBound, TableOk]
          exact ⟨⟨by omega, fun _ => by omega⟩, ht⟩
    · simp only [hmax, false_and, if_false]
      by_cases hs : sem = 0
      · simp only [hs, if_true, DriverInv, TicketBound, Nat.add_zero]
        subst hs
        exact ⟨hb1, fun h => absurd h hmax⟩
      · simp only [hs, if_false, DriverInv, TicketBound, TableOk]
        exact ⟨⟨by omega, fun h => absurd h hmax⟩, ht⟩
  | some a =>
    simp only [TableOk] at ht
    simp only [acquire_tickets, sem_trywait]
    by_cases hs : sem = 0
    · subst hs
      simp only [if_true, Bool.false_eq_true, and_false, if_false, DriverInv, TicketBound,
        Nat.add_zero]
      refine ⟨⟨hb1, fun hmax => ?_⟩, a, rfl, ht.1, by simpa using ht.2.1,
        by simpa using ht.2.2⟩
      have := hb2 hmax
      split <;> simp only <;> omega
    · by_cases hst : st = 0
      · subst hst
        by_cases hmax : D.max_threads_scantype = 0
        · simp only [hs, hmax, if_true, if_false, true_or, and_self, DriverInv, TicketBound,
            TableOk]
          exact ⟨⟨by omega, fun h => absurd h (by omega)⟩, ht⟩
        · simp only [hs, hmax, if_true, if_false, Bool.false_eq_true, or_self, false_and,
            DriverInv, TicketBound, Nat.add_zero]
          refine ⟨⟨by omega, fun hmax => ?_⟩, a, rfl, ht.1, by simpa using ht.2.1,
            by simpa using ht.2.2⟩
          have := hb2 hmax
          omega
      · simp only [hs, hst, if_false, or_true, and_self, if_true, DriverInv, TicketBound,
          TableOk]
        exact ⟨⟨by omega, fun hmax => by have := hb2 hmax; omega⟩, ht⟩


theorem driver_inv_dispatch (D : DriverEnv) (G : Nat) (s : DriverState)
    (ip_str : String) (rest : List String)
    (hb : TicketBound D G 1 s) (ht : TableOk s) :
    DriverInv D G (dispatch_worker D ip_str rest s) := by
  have hb0 : TicketBound D G 0 s :=
    ⟨by have := hb.1; omega, fun h => by have := hb.2 h; omega⟩
  have hf := table_ok_filter s ht
  by_cases hm : D.malloc_ok s.iterations = false
  · simp only [dispatch_worker, hm, if_true]
    exact driver_inv_after_loop D G s hb0 hf
  · by_cases hc : D.pthread_create_ok s.iterations = true
    · by_cases hr : D.realloc_ok s.iterations = false
      · simp only [dispatch_worker, hm, hc, hr, if_true, if_false, Bool.true_eq_false,
          Bool.false_eq_true]
        apply driver_inv_after_loop
        · exact ⟨by have := hb.1; simp only; omega,
            fun h => by have := hb.2 h; simp only; omega⟩
        · intro a ha
          have := hf a ha
          simp only
          omega
      · simp only [dispatch_worker, hm, hc, hr, if_true, if_false, Bool.true_eq_false,
          Bool.false_eq_true]
        obtain ⟨pc, ip, sem, st, arr, cnt, it, live, disp, oob⟩ := s
        simp only [TicketBound] at hb
        simp only [DriverInv, TicketBound, TableOk, Nat.add_zero]
        refine ⟨⟨by omega, fun h => by have := hb.2 h; omega⟩, ?_⟩
        cases arr with
        | none =>
          simp only [TableOk] at ht
          simp [ht]
        | some a =>
          simp only [TableOk] at ht
          refine ⟨by simp [ht.1], ?_, by simp; omega⟩
          intro e he
          simp only [Option.getD_some, List.mem_append, List.mem_singleton] at he
          rcases he with he | he
          · exact ht.2.1 e he
          · rw [he]
    · simp only [dispatch_worker, hm, hc, if_false, Bool.true_eq_false, Bool.false_eq_true]
      obtain ⟨pc, ip, sem, st, arr, cnt, it, live, disp, oob⟩ := s
      simp only [DriverInv]
      exact ⟨hb0, ht⟩

theorem driver_inv_drain (D : DriverEnv) (G : Nat) (s : DriverState) (i : Nat)
    (hb : TicketBound D G 0 s)
    (ht : ∃ a, s.thread_array = some a ∧ s.thread_count = a.length
        ∧ (∀ e ∈ a.drop i, e.active = true) ∧ (a.drop i).length ≤ s.live) :
    DriverInv D G (drain_step D i s) := by
  obtain ⟨pc, ip, sem, st, arr, cnt, it, live, disp, oob⟩ := s
  obtain ⟨a, ha, hcnt, hact, hlen⟩ := ht
  simp only at ha hcnt hact hlen
  subst ha
  subst hcnt
  simp only [TicketBound, Nat.add_zero] at hb
  unfold drain_step
  by_cases hi : i < a.length
  · have hget : a[i]? = some a[i] := List.getElem?_eq_getElem hi
    have hdrop : a.drop i = a[i] :: a.drop (i + 1) := List.drop_eq_getElem_cons hi
    have hai : a[i].active = true := hact _ (by rw [hdrop]; exact List.mem_cons_self _ _)
    have hlive : 1 ≤ live := by
      rw [hdrop] at hlen
      simp only [List.length_cons] at hlen
      omega
    simp only [hi, if_true, Option.some_bind, hget, hai, Bool.true_eq_false, if_false]
    simp only [DriverInv, sem_post_both, join_thread, TicketBound, Nat.add_zero,
      Option.map_some']
    refine ⟨⟨by omega, fun h => ?_⟩, _, rfl, by simp, ?_, ?_⟩
    · have := hb.2 h
      simp only [h, if_true]
      omega
    · intro e he
      rw [List.drop_set_of_lt _ _ (by omega : i < i + 1)] at he
      exact hact e (by rw [hdrop]; exact List.mem_cons_of_mem _ he)
    · rw [List.drop_set_of_lt _ _ (by omega : i < i + 1)]
      rw [hdrop] at hlen
      simp only [List.length_cons] at hlen
      omega
  · simp only [hi, if_false, DriverInv, TicketBound, TableOk, Nat.add_zero]
    exact ⟨hb, trivial⟩

theorem driver_inv_join (D : DriverEnv) (G : Nat) (s : DriverState) (i : Nat)
    (hb : TicketBound D G 0 s)
    (ht : ∃ a, s.thread_array = some a
        ∧ ((a.drop i).filter (fun e => e.active)).length ≤ s.live) :
    DriverInv D G (join_step D i s) := by
  obtain ⟨pc, ip, sem, st, arr, cnt, it, live, disp, oob⟩ := s
  obtain ⟨a, ha, hlen⟩ := ht
  simp only at ha hlen
  subst ha
  simp only [TicketBound, Nat.add_zero] at hb
  unfold join_step
  by_cases hi : i < cnt
  · simp only [hi, if_true, Option.some_bind]
    by_cases hia : i < a.length
    · have hget : a[i]? = some a[i] := List.getElem?_eq_getElem hia
      have hdrop : a.drop i = a[i] :: a.drop (i + 1) := List.drop_eq_getElem_cons hia
      rw [hdrop] at hlen
      simp only [hget]
      by_cases hai : a[i].active = true
      · simp only [hai, Bool.true_eq_false, if_false]
        simp only [List.filter_cons, hai, if_true, List.length_cons] at hlen
        simp only [DriverInv, sem_post_both, join_thread, TicketBound, Nat.add_zero,
          Option.map_some']
        refine ⟨⟨by omega, fun h => ?_⟩, _, rfl, ?_⟩
        · have := hb.2 h
          simp only [h, if_true]
          omega
        · rw [List.drop_set_of_lt _ _ (by omega : i < i + 1)]
          omega
      · have hai2 : a[i].active = false := by simpa using hai
        simp only [hai2, if_true]
        simp only [List.filter_cons, hai2, Bool.false_eq_true, if_false] at hlen
        simp only [DriverInv, TicketBound, Nat.add_zero]
        exact ⟨hb, _, rfl, hlen⟩
    · have hget : a[i]? = none := List.getElem?_eq_none (Nat.le_of_not_lt hia)
      simp only [hget, DriverInv, TicketBound, Nat.add_zero]
      refine ⟨hb, _, rfl, ?_⟩
      rw [List.drop_eq_nil_of_le (by omega)]
      simp
  · simp only [hi, if_false, DriverInv, TicketBound, Nat.add_zero]
    exact hb

/-- The invariant of the driver is kept by every step. -/
theorem driver_step_inv (D : DriverEnv) (G : Nat) (s : DriverState)
    (h : DriverInv D G s) : DriverInv D G (driver_step D s) := by
  unfold driver_step
  cases hpc : s.pc with
  | loop_test =>
    simp only [DriverInv, hpc] at h
    simp only []
    cases hip : s.ip with
    | nil => exact driver_inv_after_loop D G s h.1 (table_ok_filter s h.2)
    | cons ip_str rest => exact driver_inv_acquire D G s h.1 h.2
  | dispatch =>
    simp only [DriverInv, hpc] at h
    simp only []
    cases hip : s.ip with
    | nil =>
      exact driver_inv_after_loop D G s
        ⟨by have := h.1.1; omega, fun hm => by have := h.1.2 hm; omega⟩
        (table_ok_filter s h.2)
    | cons ip_str rest => exact driver_inv_dispatch D G s ip_str rest h.1 h.2
  | drain i =>
    simp only [DriverInv, hpc] at h
    exact driver_inv_drain D G s i h.1 h.2
  | join i =>
    simp only [DriverInv, hpc] at h
    exact driver_inv_join D G s i h.1 h.2
  | blocked => simpa [hpc] using h
  | done => simpa [hpc] using h

/-- The invariant of the driver holds after any number of steps. -/
theorem driver_run_inv (D : DriverEnv) (G : Nat) (n : Nat) :
    ∀ s, DriverInv D G s → DriverInv D G (driver_run D n s) := by
  induction n with
  | zero => intro s h; exact h
  | succ n ih => intro s h; exact ih _ (driver_step_inv D G s h)

/-- The invariant of the driver bounds the live workers by both caps. -/
theorem driver_inv_bound (D : DriverEnv) (G : Nat) (s : DriverState)
    (h : DriverInv D G s) :
    s.live ≤ G ∧ (D.max_threads_scantype > 0 → s.live ≤ D.max_threads_scantype) := by
  have hb : ∃ extra, TicketBound D G extra s := by
    cases hpc : s.pc with
    | loop_test => simp only [DriverInv, hpc] at h; exact ⟨0, h.1⟩
    | dispatch => simp only [DriverInv, hpc] at h; exact ⟨1, h.1⟩
    | drain i => simp only [DriverInv, hpc] at h; exact ⟨0, h.1⟩
    | join i => simp only [DriverInv, hpc] at h; exact ⟨0, h.1⟩
    | blocked => simp only [DriverInv, hpc] at h; exact ⟨0, h⟩
    | done => simp only [DriverInv, hpc] at h; exact ⟨0, h⟩
  obtain ⟨extra, h1, h2⟩ := hb
  exact ⟨by omega, fun hm => by have := h2 hm; omega⟩


theorem driver_init_inv (D : DriverEnv) (G global_count : Nat) (addresses : List String)
    (hcount : global_count ≤ G) : DriverInv D G (driver_init D global_count addresses) := by
  simp only [driver_init, DriverInv, TicketBound, TableOk, Nat.add_zero, Nat.zero_add]
  exact ⟨⟨hcount, fun _ => Nat.le_refl _⟩, trivial⟩

/-- C19: in the semaphore build with a scan-type cap of at least 1, after
any number of steps of the driver started with at most `G` tickets in the
global semaphore, the invariant of the driver holds (in particular, at the
point where a worker is created, the live workers plus the new one plus the
free tickets do not exceed either cap), and the number of workers created
and not yet joined is at most the minimum of the two caps. -/
theorem live_workers_bounded (D : DriverEnv) (G global_count : Nat)
    (addresses : List String) (n : Nat)
    (hS : 1 ≤ D.max_threads_scantype) (hcount : global_count ≤ G) :
    DriverInv D G (driver_run D n (driver_init D global_count addresses))
    ∧ (driver_run D n (driver_init D global_count addresses)).live
        ≤ min G D.max_threads_scantype := by
  have hinv := driver_run_inv D G n _ (driver_init_inv D G global_count addresses hcount)
  have hb := driver_inv_bound D G _ hinv
  exact ⟨hinv, Nat.le_min.mpr ⟨hb.1, hb.2 hS⟩⟩

/-- C19, on three addresses with a global cap of 3 and a scan-type cap of 2:
after five steps two workers are live. -/
theorem live_workers_bounded_witness :
    (1 ≤ (demo_driver 2).max_threads_scantype ∧ 3 ≤ 3
      ∧ (driver_run (demo_driver 2) 5
          (driver_init (demo_driver 2) 3 ["10.0.0.1", "10.0.0.2", "10.0.0.3"])).live = 2)
    ∧ (driver_run (demo_driver 2) 5
        (driver_init (demo_driver 2) 3 ["10.0.0.1", "10.0.0.2", "10.0.0.3"])).live
      ≤ min 3 (demo_driver 2).max_threads_scantype :=
  ⟨by decide,
   (live_workers_bounded (demo_driver 2) 3 3 ["10.0.0.1", "10.0.0.2", "10.0.0.3"] 5
      (by decide) (by decide)).2⟩

/-- C20 at a failing input: global semaphore with 3 tickets, scan-type cap 2,
three addresses, every allocation and thread creation succeeding.  The list
gives, step by step, the program point, the two semaphore counts and the
live workers.  At the third address `sem_trywait` fails on the scan-type
semaphore and succeeds on the global one (count 1 to 0); the clean-up posts
one ticket per joined worker only, and the driver ends with 2 tickets in the
global semaphore instead of 3. -/
theorem global_ticket_lost :
    (List.range 14).map (fun n =>
        ((driver_run (demo_driver 2) n
            (driver_init (demo_driver 2) 3 ["10.0.0.1", "10.0.0.2", "10.0.0.3"])).pc,
         (driver_run (demo_driver 2) n
            (driver_init (demo_driver 2) 3 ["10.0.0.1", "10.0.0.2", "10.0.0.3"])).semaphore,
         (driver_run (demo_driver 2) n
            (driver_init (demo_driver 2) 3
              ["10.0.0.1", "10.0.0.2", "10.0.0.3"])).semaphore_scantype,
         (driver_run (demo_driver 2) n
            (driver_init (demo_driver 2) 3 ["10.0.0.1", "10.0.0.2", "10.0.0.3"])).live))
      = [(DriverPc.loop_test, 3, 2, 0), (DriverPc.dispatch, 2, 1, 0),
         (DriverPc.loop_test, 2, 1, 1), (DriverPc.dispatch, 1, 0, 1),
         (DriverPc.loop_test, 1, 0, 2), (DriverPc.drain 0, 0, 0, 2),
         (DriverPc.drain 1, 1, 1, 1), (DriverPc.drain 2, 2, 2, 0),
         (DriverPc.loop_test, 2, 2, 0), (DriverPc.dispatch, 1, 1, 0),
         (DriverPc.loop_test, 1, 1, 1), (DriverPc.join 0, 1, 1, 1),
         (DriverPc.join 1, 2, 2, 0), (DriverPc.done, 2, 2, 0)]
    ∧ (driver_run (demo_driver 2) 13
        (driver_init (demo_driver 2) 3 ["10.0.0.1", "10.0.0.2", "10.0.0.3"])).semaphore
      ≠ (driver_init (demo_driver 2) 3 ["10.0.0.1", "10.0.0.2", "10.0.0.3"]).semaphore := by
  decide

/-- C27: for the level "noAuthNoPriv" with a security name and no community,
`init_session` returns 1 with the session of line 714 (version 3, level,
name); the result is the same for any values of the two pass phrases and the
two protocol texts and for any key generator, and the protocol and key
fields of the session are those `snmp_sess_init` left. -/
theorem init_session_noauth_ignores_secrets (env : NetSnmp) (sec : nutscan_snmp_t)
    (secName : String)
    (hcommunity : sec.community = none) (hlevel : sec.secLevel = some "noAuthNoPriv")
    (hname : sec.secName = some secName) :
    init_session env sec
      = ⟨1, init_session_v3_named env sec SNMP_SEC_LEVEL_NOAUTH secName, none⟩
    ∧ (∀ authPassword privPassword authProtocol privProtocol,
        init_session env { sec with authPassword := authPassword,
                                    privPassword := privPassword,
                                    authProtocol := authProtocol,
                                    privProtocol := privProtocol }
          = init_session env sec)
    ∧ (∀ generate_Ku,
        init_session { env with generate_Ku := generate_Ku } sec = init_session env sec)
    ∧ (init_session env sec).sess.securityAuthProto = env.snmp_sess_init.securityAuthProto
    ∧ (init_session env sec).sess.securityAuthKey = env.snmp_sess_init.securityAuthKey
    ∧ (init_session env sec).sess.securityAuthKeyLen = env.snmp_sess_init.securityAuthKeyLen
    ∧ (init_session env sec).sess.securityPrivProto = env.snmp_sess_init.securityPrivProto
    ∧ (init_session env sec).sess.securityPrivKey = env.snmp_sess_init.securityPrivKey
    ∧ (init_session env sec).sess.securityPrivKeyLen
        = env.snmp_sess_init.securityPrivKeyLen := by
  have h : ∀ (env : NetSnmp) (sec : nutscan_snmp_t), sec.community = none →
      sec.secLevel = some "noAuthNoPriv" → sec.secName = some secName →
      init_session env sec
        = ⟨1, init_session_v3_named env sec SNMP_SEC_LEVEL_NOAUTH secName, none⟩ := by
    intro env sec hc hl hn
    rw [init_session_v3_of_named env sec "noAuthNoPriv" SNMP_SEC_LEVEL_NOAUTH secName
      hc hl (by decide) hn, if_pos rfl]
  refine ⟨h env sec hcommunity hlevel hname, ?_, ?_, ?_⟩
  · intro a p ap pp
    rw [h env sec hcommunity hlevel hname,
      h env { sec with authPassword := a, privPassword := p, authProtocol := ap,
                       privProtocol := pp } hcommunity hlevel hname]
    rfl
  · intro g
    rw [h env sec hcommunity hlevel hname,
      h { env with generate_Ku := g } sec hcommunity hlevel hname]
    rfl
  · rw [h env sec hcommunity hlevel hname]
    exact ⟨rfl, rfl, rfl, rfl, rfl, rfl⟩

/-- C27, on an example: with the level "noAuthNoPriv" two unknown protocol
texts are accepted, and dropping the pass phrases changes nothing. -/
theorem init_session_noauth_ignores_secrets_witness :
    ({ demo_sec_v3 "noAuthNoPriv" with authProtocol := some "bogus",
                                        privProtocol := some "bogus" }.community = none
      ∧ (init_session (demo_net demo_agent)
          { demo_sec_v3 "noAuthNoPriv" with authProtocol := some "bogus",
                                             privProtocol := some "bogus" }).ret = 1)
    ∧ init_session (demo_net demo_agent)
        { demo_sec_v3 "noAuthNoPriv" with authPassword := none, privPassword := none,
                                           authProtocol := none, privProtocol := none }
      = init_session (demo_net demo_agent)
        { demo_sec_v3 "noAuthNoPriv" with authProtocol := some "bogus",
                                           privProtocol := some "bogus" } :=
  ⟨by decide,
   (init_session_noauth_ignores_secrets (demo_net demo_agent)
      { demo_sec_v3 "noAuthNoPriv" with authProtocol := some "bogus",
                                         privProtocol := some "bogus" } "u"
      rfl rfl rfl).2.1 none none none none⟩

theorem init_snmp_once_flag (l : LibState) : (init_snmp_once l).nut_initialized_snmp ≠ 0 := by
  unfold init_snmp_once
  split
  · simp
  · assumption

theorem init_snmp_once_of_flag (l : LibState) (h : l.nut_initialized_snmp ≠ 0) :
    init_snmp_once l = l := by
  simp [init_snmp_once, h]

theorem scan_sequence_init_of_flag (calls : List (Bool × Bool)) :
    ∀ l : LibState, l.nut_initialized_snmp ≠ 0 → scan_sequence_init calls l = l := by
  induction calls with
  | nil => intro l _; rfl
  | cons c rest ih =>
    intro l h
    have hstep : nutscan_scan_ip_range_snmp_init l c = l := by
      unfold nutscan_scan_ip_range_snmp_init
      split
      · rfl
      · split
        · rfl
        · exact init_snmp_once_of_flag l h
    simp only [scan_sequence_init, List.foldl_cons, hstep]
    exact ih l h

theorem scan_sequence_init_calls (calls : List (Bool × Bool)) :
    ∀ l : LibState, (scan_sequence_init calls l).init_snmp_calls ≤ l.init_snmp_calls + 1 := by
  induction calls with
  | nil => intro l; exact Nat.le_succ _
  | cons c rest ih =>
    intro l
    have hstep : nutscan_scan_ip_range_snmp_init l c = l
        ∨ nutscan_scan_ip_range_snmp_init l c = init_snmp_once l := by
      unfold nutscan_scan_ip_range_snmp_init
      split
      · exact Or.inl rfl
      · split
        · exact Or.inl rfl
        · exact Or.inr rfl
    have hcons : scan_sequence_init (c :: rest) l
        = scan_sequence_init rest (nutscan_scan_ip_range_snmp_init l c) := rfl
    rw [hcons]
    rcases hstep with h | h
    · rw [h]
      exact ih l
    · rw [h]
      by_cases h0 : l.nut_initialized_snmp = 0
      · rw [scan_sequence_init_of_flag rest (init_snmp_once l) (init_snmp_once_flag l)]
        simp [init_snmp_once, h0]
      · rw [init_snmp_once_of_flag l h0]
        exact ih l

/-- C23: `init_snmp_once` is idempotent and leaves the flag set; over any
sequence of calls of `nutscan_scan_ip_range_snmp` the initializer
`nut_init_snmp` is called at most once more than before, not at all when the
flag was set at the start, and so at most once from the start of the process
(flag 0, no call yet).  The flag is cleared only by
`nutscan_unload_snmp_library` in a build without `WITH_SNMP_STATIC`, after
which the next scan calls the initializer again. -/
theorem init_snmp_at_most_once (calls : List (Bool × Bool)) (l : LibState) :
    init_snmp_once (init_snmp_once l) = init_snmp_once l
    ∧ (init_snmp_once l).nut_initialized_snmp ≠ 0
    ∧ (scan_sequence_init calls l).init_snmp_calls ≤ l.init_snmp_calls + 1
    ∧ (l.nut_initialized_snmp ≠ 0 → scan_sequence_init calls l = l)
    ∧ (scan_sequence_init calls ⟨0, 0⟩).init_snmp_calls ≤ 1
    ∧ (scan_sequence_init [(true, true), (true, true)] ⟨0, 0⟩).init_snmp_calls = 1
    ∧ (scan_sequence_init [(true, true)]
        (nutscan_unload_snmp_library false
          (scan_sequence_init [(true, true)] ⟨0, 0⟩))).init_snmp_calls = 2 := by
  refine ⟨init_snmp_once_of_flag _ (init_snmp_once_flag l), init_snmp_once_flag l,
    scan_sequence_init_calls calls l, scan_sequence_init_of_flag calls l, ?_, ?_, ?_⟩
  · simpa using scan_sequence_init_calls calls ⟨0, 0⟩
  · decide
  · decide

/-- C23, on an example: with the flag set and one call of the initializer
made, four more scans (one with the library unavailable, one without range)
leave the flag and the count as they are. -/
theorem init_snmp_at_most_once_witness :
    (⟨1, 1⟩ : LibState).nut_initialized_snmp ≠ 0
    ∧ scan_sequence_init [(true, true), (false, true), (true, false), (true, true)] ⟨1, 1⟩
      = ⟨1, 1⟩ :=
  ⟨by decide,
   (init_snmp_at_most_once [(true, true), (false, true), (true, false), (true, true)]
      ⟨1, 1⟩).2.2.2.1 (by decide)⟩

theorem scan_snmp_add_device_frame (sec : nutscan_snmp_t) (response : Option snmp_pdu)
    (mib : String) (pre : List nutscan_device_t) (st : ScanState) :
    scan_snmp_add_device sec response mib (with_sink pre st)
      = with_sink pre (scan_snmp_add_device sec response mib st) := by
  unfold scan_snmp_add_device
  cases sec.handle.bind Handle.session with
  | none => rfl
  | some session => simp [with_sink, nutscan_add_device_to_device]

theorem try_all_oid_loop_frame (env : NetSnmp) (sec : nutscan_snmp_t)
    (mib_found : Option String) (pre : List nutscan_device_t)
    (table : List snmp_device_id_t) :
    ∀ st : ScanState,
      try_all_oid_loop env sec mib_found table (with_sink pre st)
        = with_sink pre (try_all_oid_loop env sec mib_found table st) := by
  induction table with
  | nil => intro st; rfl
  | cons e rest ih =>
    intro st
    have hk : ∀ ev, (⟨(with_sink pre st).dev_ret, st.calls + 1,
        (with_sink pre st).trace ++ ev⟩ : ScanState)
        = with_sink pre ⟨st.dev_ret, st.calls + 1, st.trace ++ ev⟩ := fun _ => rfl
    have hc : (with_sink pre st).calls = st.calls := rfl
    rw [try_all_oid_loop_cons, try_all_oid_loop_cons]
    simp only [hk, hc, scan_snmp_add_device_frame, ih]
    by_cases hn : no_probe_oid e = true
    · simp only [hn, if_true]
    · simp only [hn, if_false, Bool.false_eq_true]
      cases scan_snmp_get_oid_result env (e.oid.getD "") sec.handle st.calls with
      | none => simp only [hk, ih]
      | some resp =>
        by_cases hm : mib_found = some e.mib
        · simp only [hm, if_true, hk, ih]
        · simp only [hm, if_false, hk, ih, scan_snmp_add_device_frame]

theorem sysoid_loop_frame (env : NetSnmp) (sec : nutscan_snmp_t) (handle : Handle)
    (objid : Oid) (pre : List nutscan_device_t) (table : List snmp_device_id_t) :
    ∀ (mib_found : Option String) (st : ScanState),
      sysoid_loop env sec handle objid table mib_found (with_sink pre st)
        = ((sysoid_loop env sec handle objid table mib_found st).1,
           with_sink pre (sysoid_loop env sec handle objid table mib_found st).2) := by
  induction table with
  | nil => intro mf st; rfl
  | cons e rest ih =>
    intro mf st
    have hk : ∀ ev, (⟨(with_sink pre st).dev_ret, st.calls + 1,
        (with_sink pre st).trace ++ ev⟩ : ScanState)
        = with_sink pre ⟨st.dev_ret, st.calls + 1, st.trace ++ ev⟩ := fun _ => rfl
    have hc : (with_sink pre st).calls = st.calls := rfl
    rw [sysoid_loop_cons, sysoid_loop_cons]
    simp only [hk, hc, scan_snmp_add_device_frame, ih]
    by_cases hm : sysoid_matches env objid e = true
    · simp only [hm, if_true]
      by_cases hn : no_probe_oid e = true
      · simp only [hn, if_true]
      · simp only [hn, if_false, Bool.false_eq_true]
        cases scan_snmp_get_oid_result env (e.oid.getD "") (some handle) st.calls with
        | none => simp only [hk, ih]
        | some resp => simp only [hk, ih, scan_snmp_add_device_frame]
    · simp only [hm, if_false, Bool.false_eq_true]

theorem try_all_oid_frame (env : NetSnmp) (table : List snmp_device_id_t)
    (sec : nutscan_snmp_t) (mib_found : Option String) (pre : List nutscan_device_t)
    (st : ScanState) :
    try_all_oid env table sec mib_found (with_sink pre st)
      = with_sink pre (try_all_oid env table sec mib_found st) :=
  try_all_oid_loop_frame env sec mib_found pre table
    { st with trace := st.trace ++ [Event.try_all_oid] }

theorem try_SysOID_response_frame (env : NetSnmp) (table : List snmp_device_id_t)
    (sec : nutscan_snmp_t) (handle : Handle) (response : snmp_pdu)
    (pre : List nutscan_device_t) (st : ScanState) :
    try_SysOID_response env table sec handle response (with_sink pre st)
      = with_sink pre (try_SysOID_response env table sec handle response st) := by
  have hp : phase1 env table { sec with handle := some handle } handle response
        (with_sink pre st)
      = ((phase1 env table { sec with handle := some handle } handle response st).1,
         with_sink pre
          (phase1 env table { sec with handle := some handle } handle response st).2) := by
    unfold phase1
    split
    · rfl
    · split
      · rfl
      · exact sysoid_loop_frame env _ handle _ pre table none st
  simp only [try_SysOID_response, hp]
  split
  · exact try_all_oid_frame env table _ _ pre _
  · rfl

theorem try_SysOID_thready_frame (env : NetSnmp) (table : List snmp_device_id_t)
    (g_usec_timeout : Int) (sec : nutscan_snmp_t) (pre : List nutscan_device_t)
    (st : ScanState) :
    try_SysOID_thready env table g_usec_timeout sec (with_sink pre st)
      = with_sink pre (try_SysOID_thready env table g_usec_timeout sec st) := by
  have hc : (with_sink pre st).calls = st.calls := rfl
  simp only [try_SysOID_thready, hc]
  split
  · rfl
  · split
    · rfl
    · split
      · rfl
      · split
        · rfl
        · split
          · exact congrArg sess_close
              (try_SysOID_response_frame env table sec _ _ pre
                ⟨st.dev_ret, st.calls + 1 + 1, _⟩)
          · rfl

theorem scan_loop_nothread_frame (env : NetSnmp) (table : List snmp_device_id_t)
    (g_usec_timeout : Int) (sec : nutscan_snmp_t) (malloc_ok : Nat → Bool)
    (pre : List nutscan_device_t) (addresses : List String) :
    ∀ (n : Nat) (st : ScanState),
      scan_loop_nothread env table g_usec_timeout sec malloc_ok addresses n (with_sink pre st)
        = with_sink pre
            (scan_loop_nothread env table g_usec_timeout sec malloc_ok addresses n st) := by
  induction addresses with
  | nil => intro n st; rfl
  | cons ip_str rest ih =>
    intro n st
    simp only [scan_loop_nothread]
    split
    · rfl
    · rw [try_SysOID_thready_frame]
      exact ih (n + 1) _

/-- The loop of a scan only appends to `dev_ret`, and what it appends does
not depend on what `dev_ret` held. -/
theorem scan_loop_nothread_published (env : NetSnmp) (table : List snmp_device_id_t)
    (g_usec_timeout : Int) (sec : nutscan_snmp_t) (malloc_ok : Nat → Bool)
    (addresses : List String) (st : ScanState) :
    (scan_loop_nothread env table g_usec_timeout sec malloc_ok addresses 0 st).dev_ret
      = st.dev_ret
        ++ scan_published env table g_usec_timeout sec malloc_ok addresses st := by
  have h := scan_loop_nothread_frame env table g_usec_timeout sec malloc_ok st.dev_ret
    addresses 0 { st with dev_ret := [] }
  have hst : with_sink st.dev_ret { st with dev_ret := [] } = st := by
    simp [with_sink]
  rw [hst] at h
  rw [h]
  rfl

theorem scan_nothread_sink (env : NetSnmp) (table : List snmp_device_id_t)
    (nutscan_avail_snmp : Bool) (malloc_ok : Nat → Bool) (irl : Option (List String))
    (usec_timeout : Int) (sec : nutscan_snmp_t) (st : ScanState)
    (hempty : st.dev_ret = []) :
    (nutscan_scan_ip_range_snmp_nothread env table nutscan_avail_snmp malloc_ok irl
      usec_timeout sec st).2.dev_ret = [] := by
  unfold nutscan_scan_ip_range_snmp_nothread
  split
  · exact hempty
  · split
    · exact hempty
    · rfl

theorem scan_nothread_result (env : NetSnmp) (table : List snmp_device_id_t)
    (malloc_ok : Nat → Bool) (addresses : List String)
    (usec_timeout : Int) (sec : nutscan_snmp_t) (st : ScanState)
    (hempty : st.dev_ret = []) :
    (nutscan_scan_ip_range_snmp_nothread env table true malloc_ok (some addresses)
      usec_timeout sec st).1
      = nutscan_rewind_device
          (scan_published env table usec_timeout sec malloc_ok addresses st) := by
  simp only [nutscan_scan_ip_range_snmp_nothread, Bool.true_eq_false, if_false]
  rw [scan_loop_nothread_published, hempty, List.nil_append]

theorem driver_progress_loop_test (D : DriverEnv) (addresses : List String)
    (s : DriverState) (hpc : s.pc = DriverPc.loop_test)
    (h : DriverProgress D addresses s) :
    DriverProgress D addresses (driver_step D s)
    ∧ driver_measure addresses.length (driver_step D s)
        < driver_measure addresses.length s := by
  obtain ⟨pc, ip, sem, st, arr, cnt, it, live, disp, oob⟩ := s
  simp only at hpc
  subst hpc
  simp only [DriverProgress] at h
  obtain ⟨hadd, hoob, htab, hsem⟩ := h
  cases ip with
  | nil =>
    simp only [driver_step, after_loop]
    rcases htab with ⟨ha, hc, hl⟩ | ⟨a, ha, hc, h1, hi, hd, hact, hlive⟩
    · simp only at ha hc hl
      subst ha
      subst hc
      subst hl
      simp only [DriverProgress, driver_measure, if_true]
      exact ⟨⟨hadd, hoob, trivial, trivial⟩, by omega⟩
    · simp only at ha hc h1 hi hd hact hlive
      subst ha
      subst hc
      simp only [DriverProgress, driver_measure]
      refine ⟨⟨hadd, hoob, ⟨a, rfl, rfl, h1, hi, hd, hact, hlive⟩, trivial⟩, ?_⟩
      rw [if_neg (by omega)]
      omega
  | cons x rest =>
    simp only [driver_step, acquire_tickets]
    rcases htab with ⟨ha, hc, hl⟩ | ⟨a, ha, hc, h1, hi, hd, hact, hlive⟩
    · simp only at ha hc hl
      subst ha
      subst hc
      subst hl
      obtain ⟨hs1, hs2⟩ := hsem rfl
      have hblock : ¬ (D.max_threads_scantype > 0 ∧ st = 0) := by
        intro hb
        have := hs2 hb.1
        omega
      have hs0 : ¬ sem = 0 := by omega
      simp only [hblock, if_false]
      by_cases hm : D.max_threads_scantype > 0
      · simp only [hm, if_true, hs0, if_false, DriverProgress, driver_measure]
        exact ⟨⟨hadd, hoob, Or.inl ⟨rfl, rfl, rfl⟩, by simp⟩, by omega⟩
      · simp only [hm, if_false, if_true, hs0, DriverProgress, driver_measure]
        exact ⟨⟨hadd, hoob, Or.inl ⟨rfl, rfl, rfl⟩, by simp⟩, by omega⟩
    · simp only at ha hc h1 hi hd hact hlive
      subst ha
      subst hc
      simp only []
      split
      · simp only [DriverProgress, driver_measure]
        refine ⟨⟨hadd, hoob, Or.inr ⟨a, rfl, rfl, h1, hi, hd, hact, hlive⟩, by simp⟩, ?_⟩
        rw [if_neg (by omega)]
        omega
      · simp only [DriverProgress, driver_measure]
        refine ⟨⟨hadd, hoob, ⟨a, rfl, rfl, h1, hi, hd, hact, hlive⟩, by simp,
          Nat.zero_le _, fun _ => Nat.zero_le _⟩, ?_⟩
        rw [if_neg (by omega)]
        omega

theorem driver_progress_dispatch (D : DriverEnv) (addresses : List String)
    (s : DriverState) (hD : AllSucceed D) (hpc : s.pc = DriverPc.dispatch)
    (h : DriverProgress D addresses s) :
    DriverProgress D addresses (driver_step D s)
    ∧ driver_measure addresses.length (driver_step D s)
        < driver_measure addresses.length s := by
  obtain ⟨pc, ip, sem, st, arr, cnt, it, live, disp, oob⟩ := s
  simp only at hpc
  subst hpc
  simp only [DriverProgress] at h
  obtain ⟨hadd, hoob, htab, hip⟩ := h
  cases ip with
  | nil => exact absurd rfl hip
  | cons x rest =>
    have hlen : disp.length + (rest.length + 1) = addresses.length := by
      rw [← hadd]
      simp
    have hadd2 : (disp ++ [x]) ++ rest = addresses := by
      rw [← hadd]
      simp
    simp only [driver_step, dispatch_worker, hD.1 _, hD.2.1 _, hD.2.2 _, Bool.true_eq_false,
      if_false, if_true]
    rcases htab with ⟨ha, hc, hl⟩ | ⟨a, ha, hc, h1, hi, hd, hact, hlive⟩
    · simp only at ha hc hl
      subst ha
      subst hc
      subst hl
      simp only [DriverProgress, driver_measure, Option.getD_none, List.nil_append,
        List.length_cons, Nat.succ_mul]
      refine ⟨⟨hadd2, hoob, Or.inr ⟨_, rfl, by simp, by simp, by simp, by simp, by simp,
        by simp⟩, by simp⟩, ?_⟩
      rw [if_neg (by omega)]
      omega
    · simp only at ha hc h1 hi hd hact hlive
      subst ha
      subst hc
      simp only [DriverProgress, driver_measure, Option.getD_some, List.length_cons,
        Nat.succ_mul]
      refine ⟨⟨hadd2, hoob, Or.inr ⟨_, rfl, by simp, by simp, by simp,
        by simp only [List.length_append, List.length_singleton]; omega, ?_,
        by simp only [List.length_append, List.length_singleton]; omega⟩, by simp⟩, ?_⟩
      · intro e he
        simp only [List.drop_zero, List.mem_append, List.mem_singleton] at he
        rcases he with he | he
        · exact hact e (by simpa using he)
        · rw [he]
      · rw [if_neg (by omega)]
        omega

theorem driver_progress_drain (D : DriverEnv) (addresses : List String)
    (s : DriverState) (i : Nat) (hpc : s.pc = DriverPc.drain i)
    (h : DriverProgress D addresses s) :
    DriverProgress D addresses (driver_step D s)
    ∧ driver_measure addresses.length (driver_step D s)
        < driver_measure addresses.length s := by
  obtain ⟨pc, ip, sem, st, arr, cnt, it, live, disp, oob⟩ := s
  simp only at hpc
  subst hpc
  simp only [DriverProgress] at h
  obtain ⟨hadd, hoob, ⟨a, ha, hc, h1, hi, hd, hact, hlive⟩, hip, hs1, hs2⟩ := h
  simp only at ha hc h1 hi hd hact hlive hip hs1 hs2
  subst ha
  subst hc
  simp only [driver_step, drain_step]
  by_cases hlt : i < a.length
  · have hget : a[i]? = some a[i] := List.getElem?_eq_getElem hlt
    have hdrop : a.drop i = a[i] :: a.drop (i + 1) := List.drop_eq_getElem_cons hlt
    have hai : a[i].active = true := hact _ (by rw [hdrop]; exact List.mem_cons_self _ _)
    simp only [hlt, if_true, Option.some_bind, hget, hai, Bool.true_eq_false, if_false]
    simp only [DriverProgress, driver_measure, sem_post_both, join_thread,
      Option.map_some']
    refine ⟨⟨hadd, hoob, ⟨_, rfl, by simp, by simpa using h1, by simp; omega,
      by simpa using hd, ?_, by simp only [List.length_set]; omega⟩, hip, by omega,
      fun hm => ?_⟩, by omega⟩
    · intro e he
      rw [List.drop_set_of_lt _ _ (by omega : i < i + 1)] at he
      exact hact e (by rw [hdrop]; exact List.mem_cons_of_mem _ he)
    · have := hs2 hm
      simp only [hm, if_true]
      omega
  · have hia : i = a.length := by omega
    simp only [hlt, if_false, DriverProgress, driver_measure, if_true]
    exact ⟨⟨hadd, hoob, Or.inl ⟨rfl, rfl, by show live = 0; omega⟩,
      fun _ => ⟨by show 1 ≤ sem; omega,
        fun hm => by have := hs2 hm; show 1 ≤ st; omega⟩⟩, by omega⟩

theorem driver_progress_join (D : DriverEnv) (addresses : List String)
    (s : DriverState) (i : Nat) (hpc : s.pc = DriverPc.join i)
    (h : DriverProgress D addresses s) :
    DriverProgress D addresses (driver_step D s)
    ∧ driver_measure addresses.length (driver_step D s)
        < driver_measure addresses.length s := by
  obtain ⟨pc, ip, sem, st, arr, cnt, it, live, disp, oob⟩ := s
  simp only at hpc
  subst hpc
  simp only [DriverProgress] at h
  obtain ⟨hadd, hoob, ⟨a, ha, hc, h1, hi, hd, hact, hlive⟩, hip⟩ := h
  simp only at ha hc h1 hi hd hact hlive hip
  subst ha
  subst hc
  simp only [driver_step, join_step]
  by_cases hlt : i < a.length
  · have hget : a[i]? = some a[i] := List.getElem?_eq_getElem hlt
    have hdrop : a.drop i = a[i] :: a.drop (i + 1) := List.drop_eq_getElem_cons hlt
    have hai : a[i].active = true := hact _ (by rw [hdrop]; exact List.mem_cons_self _ _)
    simp only [hlt, if_true, Option.some_bind, hget, hai, Bool.true_eq_false, if_false]
    simp only [DriverProgress, driver_measure, sem_post_both, join_thread,
      Option.map_some']
    refine ⟨⟨hadd, hoob, ⟨_, rfl, by simp, by simpa using h1, by simp; omega,
      by simpa using hd, ?_, by simp only [List.length_set]; omega⟩, hip⟩, by omega⟩
    intro e he
    rw [List.drop_set_of_lt _ _ (by omega : i < i + 1)] at he
    exact hact e (by rw [hdrop]; exact List.mem_cons_of_mem _ he)
  · have hia : i = a.length := by omega
    simp only [hlt, if_false, DriverProgress, driver_measure]
    exact ⟨⟨hadd, hoob, hip, by omega⟩, by omega⟩

/-- Every step of a driver without failures keeps `DriverProgress`, and
brings the driver nearer to the end unless it is at the end. -/
theorem driver_progress_step (D : DriverEnv) (addresses : List String)
    (s : DriverState) (hD : AllSucceed D) (h : DriverProgress D addresses s) :
    DriverProgress D addresses (driver_step D s)
    ∧ (s.pc ≠ DriverPc.done →
        driver_measure addresses.length (driver_step D s)
          < driver_measure addresses.length s) := by
  cases hpc : s.pc with
  | loop_test =>
    exact ⟨(driver_progress_loop_test D addresses s hpc h).1,
      fun _ => (driver_progress_loop_test D addresses s hpc h).2⟩
  | dispatch =>
    exact ⟨(driver_progress_dispatch D addresses s hD hpc h).1,
      fun _ => (driver_progress_dispatch D addresses s hD hpc h).2⟩
  | drain i =>
    exact ⟨(driver_progress_drain D addresses s i hpc h).1,
      fun _ => (driver_progress_drain D addresses s i hpc h).2⟩
  | join i =>
    exact ⟨(driver_progress_join D addresses s i hpc h).1,
      fun _ => (driver_progress_join D addresses s i hpc h).2⟩
  | blocked =>
    simp only [DriverProgress, hpc] at h
    exact absurd h.2.2 id
  | done =>
    have hs : driver_step D s = s := by simp [driver_step, hpc]
    rw [hs]
    exact ⟨h, fun hne => absurd rfl hne⟩

theorem driver_run_of_done (D : DriverEnv) (n : Nat) :
    ∀ s : DriverState, s.pc = DriverPc.done → driver_run D n s = s := by
  induction n with
  | zero => intro s _; rfl
  | succ n ih =>
    intro s h
    have hs : driver_step D s = s := by simp [driver_step, h]
    simp only [driver_run, hs]
    exact ih s h

theorem driver_run_succ (D : DriverEnv) (n : Nat) :
    ∀ s : DriverState, driver_run D (n + 1) s = driver_step D (driver_run D n s) := by
  induction n with
  | zero => intro s; rfl
  | succ n ih =>
    intro s
    have h1 : driver_run D (n + 1 + 1) s = driver_run D (n + 1) (driver_step D s) := rfl
    have h2 : driver_run D (n + 1) s = driver_run D n (driver_step D s) := rfl
    rw [h1, ih (driver_step D s), h2]

/-- The state of a driver without failures satisfies `DriverProgress` after
any number of steps. -/
theorem driver_run_progress (D : DriverEnv) (addresses : List String) (hD : AllSucceed D)
    (n : Nat) :
    ∀ s, DriverProgress D addresses s → DriverProgress D addresses (driver_run D n s) := by
  induction n with
  | zero => intro s h; exact h
  | succ n ih => intro s h; exact ih _ (driver_progress_step D addresses s hD h).1

/-- A driver without failures is at the end after as many steps as
`driver_measure` says, and stays there. -/
theorem driver_run_done (D : DriverEnv) (addresses : List String) (hD : AllSucceed D)
    (n : Nat) :
    ∀ s, DriverProgress D addresses s → driver_measure addresses.length s ≤ n →
      (driver_run D n s).pc = DriverPc.done := by
  induction n with
  | zero =>
    intro s h hm
    by_cases hd : s.pc = DriverPc.done
    · exact hd
    · have := (driver_progress_step D addresses s hD h).2 hd
      omega
  | succ n ih =>
    intro s h hm
    by_cases hd : s.pc = DriverPc.done
    · rw [driver_run_of_done D _ s hd]
      exact hd
    · have hlt := (driver_progress_step D addresses s hD h).2 hd
      exact ih _ (driver_progress_step D addresses s hD h).1 (by omega)

theorem driver_init_progress (D : DriverEnv) (global_count : Nat)
    (addresses : List String) (hG : 1 ≤ global_count)
    (hS : 1 ≤ D.max_threads_scantype) :
    DriverProgress D addresses (driver_init D global_count addresses) := by
  simp only [driver_init, DriverProgress, List.nil_append, true_and]
  exact ⟨Or.inl ⟨rfl, rfl, rfl⟩, fun _ => ⟨hG, fun _ => hS⟩⟩

theorem driver_init_measure (D : DriverEnv) (global_count : Nat)
    (addresses : List String) :
    driver_measure addresses.length (driver_init D global_count addresses)
      = addresses.length * (addresses.length + 5) + 2 := by
  simp [driver_init, driver_measure]

/-- A step that is not the dispatch of a worker leaves the iterator and the
list of the addresses handed over as they are. -/
theorem driver_step_keeps_iterator (D : DriverEnv) (s : DriverState)
    (hpc : s.pc ≠ DriverPc.dispatch) :
    (driver_step D s).ip = s.ip ∧ (driver_step D s).dispatched = s.dispatched := by
  obtain ⟨pc, ip, sem, st, arr, cnt, it, live, disp, oob⟩ := s
  cases pc with
  | loop_test =>
    cases ip with
    | nil => cases arr <;> exact ⟨rfl, rfl⟩
    | cons x rest =>
      simp only [driver_step, acquire_tickets]
      cases arr with
      | none =>
        simp only []
        split
        · exact ⟨rfl, rfl⟩
        · split <;> (split <;> exact ⟨rfl, rfl⟩)
      | some a =>
        simp only []
        split <;> exact ⟨rfl, rfl⟩
  | dispatch => exact absurd rfl hpc
  | drain i =>
    simp only [driver_step, drain_step]
    split
    · split
      · exact ⟨rfl, rfl⟩
      · split <;> exact ⟨rfl, rfl⟩
    · exact ⟨rfl, rfl⟩
  | join i =>
    simp only [driver_step, join_step]
    split
    · split
      · exact ⟨rfl, rfl⟩
      · split <;> exact ⟨rfl, rfl⟩
    · exact ⟨rfl, rfl⟩
  | blocked => exact ⟨rfl, rfl⟩
  | done => exact ⟨rfl, rfl⟩

/-- The dispatch step of a driver without failures hands the current address
over and advances the iterator by one. -/
theorem driver_step_dispatch (D : DriverEnv) (s : DriverState) (hD : AllSucceed D)
    (hpc : s.pc = DriverPc.dispatch) (ip_str : String) (rest : List String)
    (hip : s.ip = ip_str :: rest) :
    (driver_step D s).ip = rest
    ∧ (driver_step D s).dispatched = s.dispatched ++ [ip_str] := by
  obtain ⟨pc, ip, sem, st, arr, cnt, it, live, disp, oob⟩ := s
  simp only at hpc hip
  subst hpc
  subst hip
  simp only [driver_step, dispatch_worker, hD.1 _, hD.2.1 _, hD.2.2 _, Bool.true_eq_false,
    if_false, if_true, and_self]

/-- The loop of the build without threads, every `malloc` succeeding, runs
`try_SysOID_thready` once for each address, in iterator order. -/
theorem scan_loop_nothread_foldl (env : NetSnmp) (table : List snmp_device_id_t)
    (g_usec_timeout : Int) (sec : nutscan_snmp_t) (malloc_ok : Nat → Bool)
    (hm : ∀ k, malloc_ok k = true) (addresses : List String) :
    ∀ (n : Nat) (st : ScanState),
      scan_loop_nothread env table g_usec_timeout sec malloc_ok addresses n st
        = addresses.foldl (fun st ip_str =>
            try_SysOID_thready env table g_usec_timeout
              { sec with peername := some ip_str } st) st := by
  induction addresses with
  | nil => intro n st; rfl
  | cons ip_str rest ih =>
    intro n st
    simp only [scan_loop_nothread, hm n, Bool.true_eq_false, if_false, List.foldl_cons]
    exact ih (n + 1) _

/-- C25: a driver for which every allocation and thread creation succeeds,
started on the addresses of the iterator with a free ticket in each
semaphore.  At every step the addresses handed to `try_SysOID_thready` so
far, followed by those the iterator still yields, are the addresses of the
iterator; a step other than a dispatch (an acquisition, a turn of the drain)
does not move the iterator, and a dispatch hands over the current address
and moves the iterator by one; after `N * (N + 5) + 2` steps for `N`
addresses the driver is at the end and has handed over each address once, in
order.  In the build without threads the loop runs the worker once per
address, in order. -/
theorem driver_hands_each_address_once (D : DriverEnv) (global_count : Nat)
    (addresses : List String) (n : Nat)
    (hD : AllSucceed D) (hG : 1 ≤ global_count) (hS : 1 ≤ D.max_threads_scantype) :
    (driver_run D n (driver_init D global_count addresses)).dispatched
        ++ (driver_run D n (driver_init D global_count addresses)).ip = addresses
    ∧ ((driver_run D n (driver_init D global_count addresses)).pc ≠ DriverPc.dispatch →
        (driver_run D (n + 1) (driver_init D global_count addresses)).ip
          = (driver_run D n (driver_init D global_count addresses)).ip
        ∧ (driver_run D (n + 1) (driver_init D global_count addresses)).dispatched
          = (driver_run D n (driver_init D global_count addresses)).dispatched)
    ∧ ((driver_run D n (driver_init D global_count addresses)).pc = DriverPc.dispatch →
        ∃ ip_str rest,
          (driver_run D n (driver_init D global_count addresses)).ip = ip_str :: rest
          ∧ (driver_run D (n + 1) (driver_init D global_count addresses)).ip = rest
          ∧ (driver_run D (n + 1) (driver_init D global_count addresses)).dispatched
            = (driver_run D n (driver_init D global_count addresses)).dispatched
              ++ [ip_str])
    ∧ (addresses.length * (addresses.length + 5) + 2 ≤ n →
        (driver_run D n (driver_init D global_count addresses)).pc = DriverPc.done
        ∧ (driver_run D n (driver_init D global_count addresses)).dispatched = addresses)
    ∧ (∀ (env : NetSnmp) (table : List snmp_device_id_t) (g_usec_timeout : Int)
        (sec : nutscan_snmp_t) (st : ScanState),
        scan_loop_nothread env table g_usec_timeout sec D.malloc_ok addresses 0 st
          = addresses.foldl (fun st ip_str =>
              try_SysOID_thready env table g_usec_timeout
                { sec with peername := some ip_str } st) st) := by
  have hinv := driver_run_progress D addresses hD n _
    (driver_init_progress D global_count addresses hG hS)
  refine ⟨hinv.1, ?_, ?_, ?_, ?_⟩
  · intro hpc
    rw [driver_run_succ]
    exact driver_step_keeps_iterator D _ hpc
  · intro hpc
    have h2 := hinv.2.2
    simp only [hpc] at h2
    obtain ⟨ip_str, rest, hip⟩ : ∃ ip_str rest,
        (driver_run D n (driver_init D global_count addresses)).ip = ip_str :: rest := by
      cases hcase : (driver_run D n (driver_init D global_count addresses)).ip with
      | nil => exact absurd hcase h2.2
      | cons x r => exact ⟨x, r, rfl⟩
    rw [driver_run_succ]
    exact ⟨ip_str, rest, hip, driver_step_dispatch D _ hD hpc ip_str rest hip⟩
  · intro hn
    have hdone := driver_run_done D addresses hD n _
      (driver_init_progress D global_count addresses hG hS)
      (by rw [driver_init_measure]; exact hn)
    refine ⟨hdone, ?_⟩
    have h1 := hinv.1
    have h2 := hinv.2.2
    simp only [hdone] at h2
    rw [h2.1, List.append_nil] at h1
    exact h1
  · intro env table g_usec_timeout sec st
    exact scan_loop_nothread_foldl env table g_usec_timeout sec D.malloc_ok hD.1 addresses 0
      st

/-- C25, on the range of scenario S5: 64 addresses with a scan-type cap of 8
and 1024 tickets in the global semaphore give 64 workers, one per address in
order. -/
theorem driver_hands_each_address_once_witness :
    (AllSucceed (demo_driver 8) ∧ 1 ≤ 1024 ∧ 1 ≤ (demo_driver 8).max_threads_scantype
      ∧ demo_range64.length = 64)
    ∧ (driver_run (demo_driver 8) (64 * (64 + 5) + 2)
        (driver_init (demo_driver 8) 1024 demo_range64)).pc = DriverPc.done
    ∧ (driver_run (demo_driver 8) (64 * (64 + 5) + 2)
        (driver_init (demo_driver 8) 1024 demo_range64)).dispatched = demo_range64 :=
  ⟨⟨⟨fun _ => rfl, fun _ => rfl, fun _ => rfl⟩, by decide, by decide,
      by simp [demo_range64]⟩,
   (driver_hands_each_address_once (demo_driver 8) 1024 demo_range64 (64 * (64 + 5) + 2)
      ⟨fun _ => rfl, fun _ => rfl, fun _ => rfl⟩ (by decide) (by decide)).2.2.2.1
      (by simp [demo_range64])⟩

/-- The blocking acquisition of a driver without failures gets its tickets at
once. -/
theorem driver_step_blocking_acquire (D : DriverEnv) (addresses : List String)
    (s : DriverState) (h : DriverProgress D addresses s)
    (hpc : s.pc = DriverPc.loop_test) (harr : s.thread_array = none) (hip : s.ip ≠ []) :
    (driver_step D s).pc = DriverPc.dispatch := by
  obtain ⟨pc, ip, sem, st, arr, cnt, it, live, disp, oob⟩ := s
  simp only at hpc harr hip
  subst hpc
  subst harr
  simp only [DriverProgress] at h
  obtain ⟨hs1, hs2⟩ := h.2.2.2 trivial
  cases ip with
  | nil => exact absurd rfl hip
  | cons x rest =>
    have hblock : ¬ (D.max_threads_scantype > 0 ∧ st = 0) := by
      intro hb
      have := hs2 hb.1
      omega
    have hs0 : ¬ sem = 0 := by omega
    simp only [driver_step, acquire_tickets, hblock, if_false]
    split <;> simp only [hs0, if_false]

/-- The step that ends a drain goes back to the head of the loop, without
worker table and on the same address. -/
theorem driver_step_drain_end (D : DriverEnv) (s : DriverState) (i : Nat)
    (hpc : s.pc = DriverPc.drain i) (hi : s.thread_count ≤ i) :
    (driver_step D s).pc = DriverPc.loop_test ∧ (driver_step D s).thread_array = none
    ∧ (driver_step D s).ip = s.ip := by
  obtain ⟨pc, ip, sem, st, arr, cnt, it, live, disp, oob⟩ := s
  simp only at hpc hi
  subst hpc
  simp only [driver_step, drain_step, Nat.not_lt.mpr hi, if_false, and_self]

/-- The step at the head of the loop, with an address left, goes to the
dispatch, to the drain of the workers, or into a `sem_wait` that does not
return. -/
theorem driver_step_iteration (D : DriverEnv) (s : DriverState)
    (hpc : s.pc = DriverPc.loop_test) (hip : s.ip ≠ []) :
    (driver_step D s).pc = DriverPc.dispatch ∨ (driver_step D s).pc = DriverPc.drain 0
    ∨ (driver_step D s).pc = DriverPc.blocked := by
  obtain ⟨pc, ip, sem, st, arr, cnt, it, live, disp, oob⟩ := s
  simp only at hpc hip
  subst hpc
  cases ip with
  | nil => exact absurd rfl hip
  | cons x rest =>
    simp only [driver_step, acquire_tickets]
    cases arr with
    | none =>
      simp only []
      split
      · exact Or.inr (Or.inr rfl)
      · split <;> (split <;> first | exact Or.inl rfl | exact Or.inr (Or.inr rfl))
    | some a =>
      simp only []
      split
      · exact Or.inl rfl
      · exact Or.inr (Or.inl rfl)

/-- C26: a driver for which every allocation and thread creation succeeds,
started with a free ticket in each semaphore and a scan-type cap of at least
1.  It is never inside a `sem_wait` that does not return; a blocking
acquisition (head of the loop without worker table) finds a free ticket in
each semaphore and is followed by a dispatch; an iteration goes to a dispatch
or to the drain of all the workers of the table; the end of a drain is
followed by the head of the loop and then by a dispatch; and after
`N * (N + 5) + 2` steps for `N` addresses the driver is at the end, every
worker joined and no slot outside the table read. -/
theorem driver_terminates (D : DriverEnv) (global_count : Nat)
    (addresses : List String) (n : Nat)
    (hD : AllSucceed D) (hG : 1 ≤ global_count) (hS : 1 ≤ D.max_threads_scantype) :
    (driver_run D n (driver_init D global_count addresses)).pc ≠ DriverPc.blocked
    ∧ ((driver_run D n (driver_init D global_count addresses)).pc = DriverPc.loop_test →
        (driver_run D n (driver_init D global_count addresses)).thread_array = none →
        1 ≤ (driver_run D n (driver_init D global_count addresses)).semaphore
        ∧ 1 ≤ (driver_run D n (driver_init D global_count addresses)).semaphore_scantype
        ∧ ((driver_run D n (driver_init D global_count addresses)).ip ≠ [] →
          (driver_run D (n + 1) (driver_init D global_count addresses)).pc
            = DriverPc.dispatch))
    ∧ ((driver_run D n (driver_init D global_count addresses)).pc = DriverPc.loop_test →
        (driver_run D n (driver_init D global_count addresses)).ip ≠ [] →
        (driver_run D (n + 1) (driver_init D global_count addresses)).pc = DriverPc.dispatch
        ∨ (driver_run D (n + 1) (driver_init D global_count addresses)).pc
            = DriverPc.drain 0)
    ∧ (∀ i, (driver_run D n (driver_init D global_count addresses)).pc = DriverPc.drain i →
        (driver_run D n (driver_init D global_count addresses)).thread_count ≤ i →
        (driver_run D (n + 1) (driver_init D global_count addresses)).pc
          = DriverPc.loop_test
        ∧ (driver_run D (n + 1 + 1) (driver_init D global_count addresses)).pc
          = DriverPc.dispatch)
    ∧ (addresses.length * (addresses.length + 5) + 2 ≤ n →
        (driver_run D n (driver_init D global_count addresses)).pc = DriverPc.done
        ∧ (driver_run D n (driver_init D global_count addresses)).ip = []
        ∧ (driver_run D n (driver_init D global_count addresses)).live = 0
        ∧ (driver_run D n (driver_init D global_count addresses)).out_of_bounds
            = false) := by
  have hinit := driver_init_progress D global_count addresses hG hS
  have hinv := driver_run_progress D addresses hD n _ hinit
  have hinv1 := driver_run_progress D addresses hD (n + 1) _ hinit
  refine ⟨?_, ?_, ?_, ?_, ?_⟩
  · intro hpc
    have h2 := hinv.2.2
    simp only [hpc] at h2
  · intro hpc harr
    have h2 := hinv.2.2
    simp only [hpc] at h2
    obtain ⟨hs1, hs2⟩ := h2.2 harr
    refine ⟨hs1, hs2 (by omega), fun hip => ?_⟩
    rw [driver_run_succ]
    exact driver_step_blocking_acquire D addresses _ hinv hpc harr hip
  · intro hpc hip
    have hb : (driver_run D (n + 1) (driver_init D global_count addresses)).pc
        ≠ DriverPc.blocked := by
      intro hpc1
      have h2 := hinv1.2.2
      simp only [hpc1] at h2
    rw [driver_run_succ] at hb ⊢
    rcases driver_step_iteration D _ hpc hip with h | h | h
    · exact Or.inl h
    · exact Or.inr h
    · exact absurd h hb
  · intro i hpc hi
    have hip : (driver_run D n (driver_init D global_count addresses)).ip ≠ [] := by
      have h2 := hinv.2.2
      simp only [hpc] at h2
      exact h2.2.1
    have hend := driver_step_drain_end D _ i hpc hi
    rw [driver_run_succ D (n + 1), driver_run_succ D n]
    rw [driver_run_succ D n] at hinv1
    exact ⟨hend.1, driver_step_blocking_acquire D addresses _ hinv1 hend.1 hend.2.1
      (by rw [hend.2.2]; exact hip)⟩
  · intro hn
    have hdone := driver_run_done D addresses hD n _ hinit
      (by rw [driver_init_measure]; exact hn)
    have h2 := hinv.2.2
    simp only [hdone] at h2
    exact ⟨hdone, h2.1, h2.2, hinv.2.1⟩

/-- C26, on three addresses with 3 tickets in the global semaphore and a
scan-type cap of 2: the driver is at the end after 26 steps, with every
worker joined. -/
theorem driver_terminates_witness :
    (AllSucceed (demo_driver 2) ∧ 1 ≤ 3 ∧ 1 ≤ (demo_driver 2).max_threads_scantype
      ∧ ["10.0.0.1", "10.0.0.2", "10.0.0.3"].length * (3 + 5) + 2 ≤ 26)
    ∧ (driver_run (demo_driver 2) 26
        (driver_init (demo_driver 2) 3 ["10.0.0.1", "10.0.0.2", "10.0.0.3"])).pc
        = DriverPc.done
    ∧ (driver_run (demo_driver 2) 26
        (driver_init (demo_driver 2) 3 ["10.0.0.1", "10.0.0.2", "10.0.0.3"])).ip = []
    ∧ (driver_run (demo_driver 2) 26
        (driver_init (demo_driver 2) 3 ["10.0.0.1", "10.0.0.2", "10.0.0.3"])).live = 0
    ∧ (driver_run (demo_driver 2) 26
        (driver_init (demo_driver 2) 3
          ["10.0.0.1", "10.0.0.2", "10.0.0.3"])).out_of_bounds = false :=
  ⟨⟨⟨fun _ => rfl, fun _ => rfl, fun _ => rfl⟩, by decide, by decide, by decide⟩,
   (driver_terminates (demo_driver 2) 3 ["10.0.0.1", "10.0.0.2", "10.0.0.3"] 26
      ⟨fun _ => rfl, fun _ => rfl, fun _ => rfl⟩ (by decide) (by decide)).2.2.2.2
      (by decide)⟩

theorem tracked_after_loop (s : DriverState) (hoob : s.out_of_bounds = false)
    (h : (s.thread_array = none ∧ s.thread_count = 0 ∧ s.live = 0) ∨ TrackedFrom 0 s) :
    Tracked (after_loop s) := by
  obtain ⟨pc, ip, sem, st, arr, cnt, it, live, disp, oob⟩ := s
  try simp only at hoob
  rcases h with ⟨ha, hc, hl⟩ | ⟨a, ha, hc, hi, hact, hlive⟩
  · try simp only at ha hc hl
    subst ha
    simp only [after_loop, Tracked]
    exact ⟨hoob, hl⟩
  · try simp only at ha hc hi hact hlive
    subst ha
    simp only [after_loop, Tracked]
    exact ⟨hoob, a, rfl, hc, hi, hact, hlive⟩

theorem tracked_loop_test (D : DriverEnv) (s : DriverState)
    (hpc : s.pc = DriverPc.loop_test) (h : Tracked s) : Tracked (driver_step D s) := by
  obtain ⟨pc, ip, sem, st, arr, cnt, it, live, disp, oob⟩ := s
  try simp only at hpc
  subst hpc
  simp only [Tracked] at h
  obtain ⟨hoob, htab⟩ := h
  cases ip with
  | nil => exact tracked_after_loop _ hoob htab
  | cons x rest =>
    simp only [driver_step, acquire_tickets]
    rcases htab with ⟨ha, hc, hl⟩ | ⟨a, ha, hc, hi, hact, hlive⟩
    · try simp only at ha hc hl
      subst ha
      simp only []
      split
      · exact ⟨hoob, trivial⟩
      · split <;> (split <;> first | exact ⟨hoob, trivial⟩ | exact ⟨hoob, Or.inl ⟨rfl, hc, hl⟩⟩)
    · try simp only at ha hc hi hact hlive
      subst ha
      simp only []
      split
      · exact ⟨hoob, Or.inr ⟨a, rfl, hc, hi, hact, hlive⟩⟩
      · exact ⟨hoob, a, rfl, hc, hi, hact, hlive⟩

theorem tracked_dispatch (D : DriverEnv) (s : DriverState)
    (hr : ∀ n, D.realloc_ok n = true)
    (hpc : s.pc = DriverPc.dispatch) (h : Tracked s) : Tracked (driver_step D s) := by
  obtain ⟨pc, ip, sem, st, arr, cnt, it, live, disp, oob⟩ := s
  try simp only at hpc
  subst hpc
  simp only [Tracked] at h
  obtain ⟨hoob, htab⟩ := h
  cases ip with
  | nil => exact tracked_after_loop _ hoob htab
  | cons x rest =>
    simp only [driver_step, dispatch_worker, hr _, Bool.true_eq_false, if_false]
    split
    · exact tracked_after_loop _ hoob htab
    · split
      · rcases htab with ⟨ha, hc, hl⟩ | ⟨a, ha, hc, hi, hact, hlive⟩
        · try simp only at ha hc hl
          subst ha
          subst hc
          subst hl
          simp only [Tracked, Option.getD_none, List.nil_append]
          exact ⟨hoob, Or.inr ⟨_, rfl, by simp, by simp, by simp, by simp⟩⟩
        · try simp only at ha hc hi hact hlive
          subst ha
          subst hc
          simp only [Tracked, Option.getD_some]
          refine ⟨hoob, Or.inr ⟨_, rfl, by simp, by simp, ?_,
            by simp only [List.length_append, List.length_singleton]; omega⟩⟩
          intro e he
          simp only [List.drop_zero, List.mem_append, List.mem_singleton] at he
          rcases he with he | he
          · exact hact e (by simpa using he)
          · rw [he]
      · rcases htab with ⟨ha, hc, hl⟩ | ⟨a, ha, hc, hi, hact, hlive⟩
        · exact ⟨hoob, Or.inl ⟨ha, hc, hl⟩⟩
        · exact ⟨hoob, Or.inr ⟨a, ha, hc, hi, hact, hlive⟩⟩

theorem tracked_drain (D : DriverEnv) (s : DriverState) (i : Nat)
    (hpc : s.pc = DriverPc.drain i) (h : Tracked s) : Tracked (driver_step D s) := by
  obtain ⟨pc, ip, sem, st, arr, cnt, it, live, disp, oob⟩ := s
  try simp only at hpc
  subst hpc
  simp only [Tracked] at h
  obtain ⟨hoob, a, ha, hc, hi, hact, hlive⟩ := h
  try simp only at ha hc hi hact hlive
  subst ha
  subst hc
  simp only [driver_step, drain_step]
  by_cases hlt : i < a.length
  · have hget : a[i]? = some a[i] := List.getElem?_eq_getElem hlt
    have hdrop : a.drop i = a[i] :: a.drop (i + 1) := List.drop_eq_getElem_cons hlt
    have hai : a[i].active = true := hact _ (by rw [hdrop]; exact List.mem_cons_self _ _)
    simp only [hlt, if_true, Option.some_bind, hget, hai, Bool.true_eq_false, if_false]
    simp only [Tracked, sem_post_both, join_thread, Option.map_some']
    refine ⟨hoob, _, rfl, by simp, by simp; omega, ?_,
      by simp only [List.length_set]; omega⟩
    intro e he
    rw [List.drop_set_of_lt _ _ (by omega : i < i + 1)] at he
    exact hact e (by rw [hdrop]; exact List.mem_cons_of_mem _ he)
  · simp only [hlt, if_false, Tracked]
    exact ⟨hoob, Or.inl ⟨trivial, trivial, by show live = 0; omega⟩⟩

theorem tracked_join (D : DriverEnv) (s : DriverState) (i : Nat)
    (hpc : s.pc = DriverPc.join i) (h : Tracked s) : Tracked (driver_step D s) := by
  obtain ⟨pc, ip, sem, st, arr, cnt, it, live, disp, oob⟩ := s
  try simp only at hpc
  subst hpc
  simp only [Tracked] at h
  obtain ⟨hoob, a, ha, hc, hi, hact, hlive⟩ := h
  try simp only at ha hc hi hact hlive
  subst ha
  subst hc
  simp only [driver_step, join_step]
  by_cases hlt : i < a.length
  · have hget : a[i]? = some a[i] := List.getElem?_eq_getElem hlt
    have hdrop : a.drop i = a[i] :: a.drop (i + 1) := List.drop_eq_getElem_cons hlt
    have hai : a[i].active = true := hact _ (by rw [hdrop]; exact List.mem_cons_self _ _)
    simp only [hlt, if_true, Option.some_bind, hget, hai, Bool.true_eq_false, if_false]
    simp only [Tracked, sem_post_both, join_thread, Option.map_some']
    refine ⟨hoob, _, rfl, by simp, by simp; omega, ?_,
      by simp only [List.length_set]; omega⟩
    intro e he
    rw [List.drop_set_of_lt _ _ (by omega : i < i + 1)] at he
    exact hact e (by rw [hdrop]; exact List.mem_cons_of_mem _ he)
  · simp only [hlt, if_false, Tracked]
    exact ⟨hoob, by show live = 0; omega⟩

/-- Every step of a driver whose `realloc` never fails keeps `Tracked`. -/
theorem tracked_step (D : DriverEnv) (s : DriverState)
    (hr : ∀ n, D.realloc_ok n = true) (h : Tracked s) : Tracked (driver_step D s) := by
  cases hpc : s.pc with
  | loop_test => exact tracked_loop_test D s hpc h
  | dispatch => exact tracked_dispatch D s hr hpc h
  | drain i => exact tracked_drain D s i hpc h
  | join i => exact tracked_join D s i hpc h
  | blocked =>
    have hs : driver_step D s = s := by simp [driver_step, hpc]
    rw [hs]
    exact h
  | done =>
    have hs : driver_step D s = s := by simp [driver_step, hpc]
    rw [hs]
    exact h

theorem tracked_run (D : DriverEnv) (hr : ∀ n, D.realloc_ok n = true) (n : Nat) :
    ∀ s, Tracked s → Tracked (driver_run D n s) := by
  induction n with
  | zero => intro s h; exact h
  | succ n ih => intro s h; exact ih _ (tracked_step D s hr h)

theorem tracked_init (D : DriverEnv) (global_count : Nat) (addresses : List String) :
    Tracked (driver_init D global_count addresses) :=
  ⟨rfl, Or.inl ⟨rfl, rfl, rfl⟩⟩

theorem driver_run_add (D : DriverEnv) (a b : Nat) :
    ∀ s : DriverState, driver_run D (a + b) s = driver_run D b (driver_run D a s) := by
  induction a with
  | zero => intro s; simp [driver_run]
  | succ a ih =>
    intro s
    have h1 : a + 1 + b = (a + b) + 1 := by omega
    rw [h1]
    exact ih (driver_step D s)

/-- After the loop (final join or end) the driver hands over no address any
more and does not go back into the loop. -/
theorem driver_step_after_loop (D : DriverEnv) (s : DriverState)
    (h : (∃ i, s.pc = DriverPc.join i) ∨ s.pc = DriverPc.done) :
    ((∃ i, (driver_step D s).pc = DriverPc.join i) ∨ (driver_step D s).pc = DriverPc.done)
    ∧ (driver_step D s).dispatched = s.dispatched := by
  obtain ⟨pc, ip, sem, st, arr, cnt, it, live, disp, oob⟩ := s
  rcases h with ⟨i, h⟩ | h
  · simp only at h
    subst h
    simp only [driver_step, join_step]
    split
    · split
      · exact ⟨Or.inl ⟨_, rfl⟩, rfl⟩
      · split <;> exact ⟨Or.inl ⟨_, rfl⟩, rfl⟩
    · exact ⟨Or.inr rfl, rfl⟩
  · simp only at h
    subst h
    exact ⟨Or.inr rfl, rfl⟩

theorem driver_run_after_loop (D : DriverEnv) (n : Nat) :
    ∀ s : DriverState, ((∃ i, s.pc = DriverPc.join i) ∨ s.pc = DriverPc.done) →
      ((∃ i, (driver_run D n s).pc = DriverPc.join i)
        ∨ (driver_run D n s).pc = DriverPc.done)
      ∧ (driver_run D n s).dispatched = s.dispatched := by
  induction n with
  | zero => intro s h; exact ⟨h, rfl⟩
  | succ n ih =>
    intro s h
    have hs := driver_step_after_loop D s h
    have := ih _ hs.1
    exact ⟨this.1, this.2.trans hs.2⟩

theorem after_loop_pc (s : DriverState) :
    ((∃ i, (after_loop s).pc = DriverPc.join i) ∨ (after_loop s).pc = DriverPc.done)
    ∧ (after_loop s).dispatched = s.dispatched := by
  obtain ⟨pc, ip, sem, st, arr, cnt, it, live, disp, oob⟩ := s
  cases arr with
  | none => exact ⟨Or.inr rfl, rfl⟩
  | some a => exact ⟨Or.inl ⟨0, rfl⟩, rfl⟩

/-- A `malloc` that fails at the dispatch ends the dispatching: no address
is handed over from then on, and the driver is in the final join or at the
end. -/
theorem driver_malloc_failure (D : DriverEnv) (s : DriverState)
    (hpc : s.pc = DriverPc.dispatch) (hm : D.malloc_ok s.iterations = false) (m : Nat) :
    ((∃ i, (driver_run D (m + 1) s).pc = DriverPc.join i)
      ∨ (driver_run D (m + 1) s).pc = DriverPc.done)
    ∧ (driver_run D (m + 1) s).dispatched = s.dispatched := by
  have hstep : driver_step D s = after_loop s := by
    obtain ⟨pc, ip, sem, st, arr, cnt, it, live, disp, oob⟩ := s
    simp only at hpc hm
    subst hpc
    cases ip with
    | nil => rfl
    | cons x rest => simp only [driver_step, dispatch_worker, hm, if_true]
  have h1 : driver_run D (m + 1) s = driver_run D m (driver_step D s) := rfl
  rw [h1, hstep]
  have h2 := driver_run_after_loop D m (after_loop s) (after_loop_pc s).1
  exact ⟨h2.1, h2.2.trans (after_loop_pc s).2⟩

/-- C21: for a driver whose `realloc` never fails, whatever `malloc` and
`pthread_create` do, no slot outside the worker table is ever read and at the
end every worker created has been joined; a `malloc` that fails at the
dispatch ends the dispatching.  But when the `realloc` of the worker table
fails after `pthread_create` succeeded, the worker just created has no slot:
with three addresses and the failure in the second iteration the driver ends
with one worker not joined, after reading the slot 1 of a table of one slot;
with the failure in the first iteration it ends without any join, the worker
running. -/
theorem realloc_failure_leaves_worker (D : DriverEnv) (global_count : Nat)
    (addresses : List String) (n : Nat) :
    ((∀ k, D.realloc_ok k = true) →
      (driver_run D n (driver_init D global_count addresses)).out_of_bounds = false
      ∧ ((driver_run D n (driver_init D global_count addresses)).pc = DriverPc.done →
          (driver_run D n (driver_init D global_count addresses)).live = 0))
    ∧ ((driver_run D n (driver_init D global_count addresses)).pc = DriverPc.dispatch →
        D.malloc_ok (driver_run D n (driver_init D global_count addresses)).iterations
          = false →
        ∀ m, (((∃ i, (driver_run D (n + (m + 1)) (driver_init D global_count addresses)).pc
                  = DriverPc.join i)
              ∨ (driver_run D (n + (m + 1)) (driver_init D global_count addresses)).pc
                  = DriverPc.done)
          ∧ (driver_run D (n + (m + 1)) (driver_init D global_count addresses)).dispatched
              = (driver_run D n (driver_init D global_count addresses)).dispatched))
    ∧ ((driver_run (realloc_fails_at 2 3) 7
          (driver_init (realloc_fails_at 2 3) 3 ["10.0.0.1", "10.0.0.2", "10.0.0.3"])).pc
          = DriverPc.done
      ∧ (driver_run (realloc_fails_at 2 3) 7
          (driver_init (realloc_fails_at 2 3) 3
            ["10.0.0.1", "10.0.0.2", "10.0.0.3"])).dispatched = ["10.0.0.1", "10.0.0.2"]
      ∧ (driver_run (realloc_fails_at 2 3) 7
          (driver_init (realloc_fails_at 2 3) 3
            ["10.0.0.1", "10.0.0.2", "10.0.0.3"])).thread_array
          = some [⟨1, false⟩]
      ∧ (driver_run (realloc_fails_at 2 3) 7
          (driver_init (realloc_fails_at 2 3) 3
            ["10.0.0.1", "10.0.0.2", "10.0.0.3"])).thread_count = 2
      ∧ (driver_run (realloc_fails_at 2 3) 7
          (driver_init (realloc_fails_at 2 3) 3
            ["10.0.0.1", "10.0.0.2", "10.0.0.3"])).live = 1
      ∧ (driver_run (realloc_fails_at 2 3) 7
          (driver_init (realloc_fails_at 2 3) 3
            ["10.0.0.1", "10.0.0.2", "10.0.0.3"])).out_of_bounds = true)
    ∧ ((driver_run (realloc_fails_at 1 3) 2
          (driver_init (realloc_fails_at 1 3) 3 ["10.0.0.1", "10.0.0.2", "10.0.0.3"])).pc
          = DriverPc.done
      ∧ (driver_run (realloc_fails_at 1 3) 2
          (driver_init (realloc_fails_at 1 3) 3
            ["10.0.0.1", "10.0.0.2", "10.0.0.3"])).dispatched = ["10.0.0.1"]
      ∧ (driver_run (realloc_fails_at 1 3) 2
          (driver_init (realloc_fails_at 1 3) 3
            ["10.0.0.1", "10.0.0.2", "10.0.0.3"])).live = 1) := by
  refine ⟨?_, ?_, by decide, by decide⟩
  · intro hr
    have h := tracked_run D hr n _ (tracked_init D global_count addresses)
    refine ⟨h.1, fun hpc => ?_⟩
    have h2 := h.2
    simp only [hpc] at h2
    exact h2
  · intro hpc hm m
    rw [driver_run_add]
    exact driver_malloc_failure D _ hpc hm m

/-- C21, on a `malloc` that fails in the second iteration: the worker of
the first address is joined, the other addresses are not handed over, and
the driver ends without a read outside the table. -/
theorem realloc_failure_leaves_worker_witness :
    ((∀ k, (malloc_fails_at 2 3).realloc_ok k = true)
      ∧ (driver_run (malloc_fails_at 2 3) 6
          (driver_init (malloc_fails_at 2 3) 3 ["10.0.0.1", "10.0.0.2", "10.0.0.3"])).pc
          = DriverPc.done
      ∧ (driver_run (malloc_fails_at 2 3) 6
          (driver_init (malloc_fails_at 2 3) 3
            ["10.0.0.1", "10.0.0.2", "10.0.0.3"])).dispatched = ["10.0.0.1"])
    ∧ (driver_run (malloc_fails_at 2 3) 6
        (driver_init (malloc_fails_at 2 3) 3
          ["10.0.0.1", "10.0.0.2", "10.0.0.3"])).out_of_bounds = false
    ∧ (driver_run (malloc_fails_at 2 3) 6
        (driver_init (malloc_fails_at 2 3) 3 ["10.0.0.1", "10.0.0.2", "10.0.0.3"])).live = 0 :=
  ⟨⟨fun _ => rfl, by decide, by decide⟩,
   ((realloc_failure_leaves_worker (malloc_fails_at 2 3) 3
      ["10.0.0.1", "10.0.0.2", "10.0.0.3"] 6).1 (fun _ => rfl)).1,
   ((realloc_failure_leaves_worker (malloc_fails_at 2 3) 3
      ["10.0.0.1", "10.0.0.2", "10.0.0.3"] 6).1 (fun _ => rfl)).2 (by decide)⟩

theorem next_publication_perm (k : Nat) :
    ∀ (ps : List (List nutscan_device_t)) (dev : nutscan_device_t)
      (ps1 : List (List nutscan_device_t)),
      next_publication k ps = some (dev, ps1) →
      List.Perm ps.flatten (dev :: ps1.flatten) := by
  induction k with
  | zero =>
    intro ps dev ps1 h
    match ps, h with
    | (d :: rest) :: ps2, h =>
      simp only [next_publication, Option.some.injEq, Prod.mk.injEq] at h
      obtain ⟨h1, h2⟩ := h
      subst h1
      subst h2
      simp
  | succ k ih =>
    intro ps dev ps1 h
    match ps, h with
    | p :: ps2, h =>
      simp only [next_publication, Option.map_eq_some', Prod.mk.injEq] at h
      obtain ⟨r, hr, h1, h2⟩ := h
      subst h1
      subst h2
      have := ih ps2 r.1 r.2 hr
      simp only [List.flatten_cons]
      exact (List.Perm.append_left p this).trans List.perm_middle

/-- What a worker appends to `dev_ret` does not depend on what `dev_ret`
holds when the worker runs. -/
theorem try_SysOID_thready_appends (env : NetSnmp) (table : List snmp_device_id_t)
    (g_usec_timeout : Int) (sec : nutscan_snmp_t) (st : ScanState) :
    (try_SysOID_thready env table g_usec_timeout sec st).dev_ret
      = st.dev_ret
        ++ (try_SysOID_thready env table g_usec_timeout sec
              { st with dev_ret := [] }).dev_ret := by
  have h := try_SysOID_thready_frame env table g_usec_timeout sec st.dev_ret
    { st with dev_ret := [] }
  have hst : with_sink st.dev_ret { st with dev_ret := [] } = st := by
    simp [with_sink]
  rw [hst] at h
  rw [h]
  rfl

theorem next_publication_spec (k : Nat) :
    ∀ (ps : List (List nutscan_device_t)) (dev : nutscan_device_t)
      (ps1 : List (List nutscan_device_t)),
      next_publication k ps = some (dev, ps1) →
      ps1.length = ps.length
      ∧ (∃ r, ps[k]? = some (dev :: r) ∧ ps1[k]? = some r)
      ∧ ∀ j, j ≠ k → ps1[j]? = ps[j]? := by
  induction k with
  | zero =>
    intro ps dev ps1 h
    match ps, h with
    | (d :: rest) :: ps2, h =>
      simp only [next_publication, Option.some.injEq, Prod.mk.injEq] at h
      obtain ⟨h1, h2⟩ := h
      subst h1
      subst h2
      refine ⟨rfl, ⟨rest, by simp, by simp⟩, ?_⟩
      intro j hj
      cases j with
      | zero => exact absurd rfl hj
      | succ j => rfl
  | succ k ih =>
    intro ps dev ps1 h
    match ps, h with
    | p :: ps2, h =>
      simp only [next_publication, Option.map_eq_some', Prod.mk.injEq] at h
      obtain ⟨r, hr, h1, h2⟩ := h
      subst h1
      subst h2
      obtain ⟨hl, ⟨r1, hk1, hk2⟩, hj⟩ := ih ps2 r.1 r.2 hr
      refine ⟨by simp [hl], ⟨r1, by simpa using hk1, by simpa using hk2⟩, ?_⟩
      intro j hjk
      cases j with
      | zero => simp
      | succ j =>
        simpa using hj j (by omega)

theorem next_publication_none (k : Nat) :
    ∀ (ps : List (List nutscan_device_t)), (∀ p ∈ ps, p = []) →
      next_publication k ps = none := by
  induction k with
  | zero =>
    intro ps h
    match ps, h with
    | [], _ => rfl
    | [] :: _, _ => rfl
    | (d :: r) :: ps2, h => exact absurd (h (d :: r) (List.mem_cons_self _ _)) (by simp)
  | succ k ih =>
    intro ps h
    match ps, h with
    | [], _ => rfl
    | p :: ps2, h =>
      simp only [next_publication, Option.map_eq_none']
      exact ih ps2 (fun q hq => h q (List.mem_cons_of_mem _ hq))

theorem thread_ids_step (D : DriverEnv) (d : DriverState)
    (hr : ∀ n, D.realloc_ok n = true) (h : ThreadIds d) : ThreadIds (driver_step D d) := by
  obtain ⟨pc, ip, sem, st, arr, cnt, it, live, disp, oob⟩ := d
  have hafter : ∀ s : DriverState, ThreadIds s → ThreadIds (after_loop s) := by
    intro s hs
    obtain ⟨pc, ip, sem, st, arr, cnt, it, live, disp, oob⟩ := s
    cases arr with
    | none => exact hs
    | some a => exact hs
  cases pc with
  | loop_test =>
    cases ip with
    | nil => exact hafter _ h
    | cons x rest =>
      simp only [driver_step, acquire_tickets]
      cases arr with
      | none =>
        simp only []
        split
        · exact h
        · split <;> (split <;> exact h)
      | some a =>
        simp only []
        split <;> exact h
  | dispatch =>
    cases ip with
    | nil => exact hafter _ h
    | cons x rest =>
      simp only [driver_step, dispatch_worker, hr _, Bool.true_eq_false, if_false]
      split
      · exact hafter _ h
      · split
        · intro a ha
          simp only [Option.some.injEq] at ha
          subst ha
          cases arr with
          | none =>
            simp only [Option.getD_none, List.nil_append, List.length_singleton,
              List.length_append]
            refine ⟨by omega, ?_⟩
            intro j e hj
            cases j with
            | zero =>
              simp only [List.getElem?_cons_zero, Option.some.injEq] at hj
              subst hj
              simp
            | succ j => simp at hj
          | some a =>
            obtain ⟨hl, hid⟩ := h a rfl
            simp only at hl hid
            simp only [Option.getD_some, List.length_singleton, List.length_append]
            refine ⟨by omega, ?_⟩
            intro j e hj
            by_cases hja : j < a.length
            · rw [List.getElem?_append_left hja] at hj
              have := hid j e hj
              omega
            · rw [List.getElem?_append_right (by omega)] at hj
              have hj0 : j - a.length = 0 := by
                by_contra hne
                obtain ⟨n, hn⟩ : ∃ n, j - a.length = n + 1 := ⟨j - a.length - 1, by omega⟩
                rw [hn] at hj
                simp at hj
              rw [hj0] at hj
              simp only [List.getElem?_cons_zero, Option.some.injEq] at hj
              subst hj
              simp only
              omega
        · exact h
  | drain i =>
    simp only [driver_step, drain_step]
    split
    · split
      · exact h
      · rename_i e he
        split
        · exact h
        · intro a ha
          cases arr with
          | none => simp at he
          | some a0 =>
            simp only [sem_post_both, join_thread, Option.map_some', Option.some.injEq] at ha
            subst ha
            obtain ⟨hl, hid⟩ := h a0 rfl
            simp only at hl hid
            simp only [Option.some_bind] at he
            simp only [List.length_set]
            refine ⟨hl, ?_⟩
            intro j e1 hj
            by_cases hji : i = j
            · subst hji
              have hlt : i < a0.length := by
                by_contra hc
                rw [List.getElem?_eq_none (by omega)] at he
                simp at he
              rw [List.getElem?_set_self hlt] at hj
              simp only [Option.some.injEq] at hj
              subst hj
              exact hid i e he
            · rw [List.getElem?_set_ne hji] at hj
              exact hid j e1 hj
    · intro a ha
      simp at ha
  | join i =>
    simp only [driver_step, join_step]
    split
    · split
      · exact h
      · rename_i e he
        split
        · exact h
        · intro a ha
          cases arr with
          | none => simp at he
          | some a0 =>
            simp only [sem_post_both, join_thread, Option.map_some', Option.some.injEq] at ha
            subst ha
            obtain ⟨hl, hid⟩ := h a0 rfl
            simp only at hl hid
            simp only [Option.some_bind] at he
            simp only [List.length_set]
            refine ⟨hl, ?_⟩
            intro j e1 hj
            by_cases hji : i = j
            · subst hji
              have hlt : i < a0.length := by
                by_contra hc
                rw [List.getElem?_eq_none (by omega)] at he
                simp at he
              rw [List.getElem?_set_self hlt] at hj
              simp only [Option.some.injEq] at hj
              subst hj
              exact hid i e he
            · rw [List.getElem?_set_ne hji] at hj
              exact hid j e1 hj
    · exact h
  | blocked => exact h
  | done => exact h

theorem thread_ids_run (D : DriverEnv) (hr : ∀ n, D.realloc_ok n = true) (n : Nat) :
    ∀ d, ThreadIds d → ThreadIds (driver_run D n d) := by
  induction n with
  | zero => intro d h; exact h
  | succ n ih => intro d h; exact ih _ (thread_ids_step D d hr h)

theorem thread_ids_init (D : DriverEnv) (global_count : Nat) (addresses : List String) :
    ThreadIds (driver_init D global_count addresses) := by
  intro a ha
  simp [driver_init] at ha

theorem after_loop_fields (s : DriverState) :
    (after_loop s).dispatched = s.dispatched ∧ (after_loop s).live = s.live := by
  obtain ⟨pc, ip, sem, st, arr, cnt, it, live, disp, oob⟩ := s
  cases arr <;> exact ⟨rfl, rfl⟩

/-- A step of the driver that joins a thread: under `Tracked` and `ThreadIds`
the thread is the oldest live worker, and the step makes it one live worker
less without handing over an address. -/
theorem join_target_some (D : DriverEnv) (d : DriverState) (t : Nat)
    (ht : Tracked d) (hi : ThreadIds d) (h : join_target d = some t) :
    t = d.dispatched.length - d.live + 1 ∧ 1 ≤ d.live ∧ d.live ≤ d.dispatched.length
    ∧ (driver_step D d).live = d.live - 1
    ∧ (driver_step D d).dispatched = d.dispatched := by
  obtain ⟨pc, ip, sem, st, arr, cnt, it, live, disp, oob⟩ := d
  cases pc with
  | drain i =>
    simp only [join_target, join_entry, Option.map_eq_some'] at h
    obtain ⟨e, he, het⟩ := h
    simp only [Tracked] at ht
    obtain ⟨hoob, a, ha, hc, hia, hact, hlive⟩ := ht
    try simp only at ha hc hia hact hlive
    subst ha
    subst hc
    by_cases hlt : i < a.length
    · have hget : a[i]? = some a[i] := List.getElem?_eq_getElem hlt
      have hdrop : a.drop i = a[i] :: a.drop (i + 1) := List.drop_eq_getElem_cons hlt
      have hai : a[i].active = true := hact _ (by rw [hdrop]; exact List.mem_cons_self _ _)
      simp only [hlt, if_true, Option.some_bind, hget, hai, Option.some.injEq] at he
      subst he
      obtain ⟨hl, hid⟩ := hi a rfl
      try simp only at hl hid
      have hthr := hid i a[i] hget
      refine ⟨by rw [← het, hthr]; show _ = disp.length - live + 1; omega,
        by show 1 ≤ live; omega, by show live ≤ disp.length; omega, ?_, ?_⟩
      · simp only [driver_step, drain_step, hlt, if_true, Option.some_bind, hget, hai,
          Bool.true_eq_false, if_false, sem_post_both, join_thread]
      · simp only [driver_step, drain_step, hlt, if_true, Option.some_bind, hget, hai,
          Bool.true_eq_false, if_false, sem_post_both, join_thread]
    · simp only [hlt, if_false] at he
      exact absurd he (by simp)
  | join i =>
    simp only [join_target, join_entry, Option.map_eq_some'] at h
    obtain ⟨e, he, het⟩ := h
    simp only [Tracked] at ht
    obtain ⟨hoob, a, ha, hc, hia, hact, hlive⟩ := ht
    try simp only at ha hc hia hact hlive
    subst ha
    subst hc
    by_cases hlt : i < a.length
    · have hget : a[i]? = some a[i] := List.getElem?_eq_getElem hlt
      have hdrop : a.drop i = a[i] :: a.drop (i + 1) := List.drop_eq_getElem_cons hlt
      have hai : a[i].active = true := hact _ (by rw [hdrop]; exact List.mem_cons_self _ _)
      simp only [hlt, if_true, Option.some_bind, hget, hai, Option.some.injEq] at he
      subst he
      obtain ⟨hl, hid⟩ := hi a rfl
      try simp only at hl hid
      have hthr := hid i a[i] hget
      refine ⟨by rw [← het, hthr]; show _ = disp.length - live + 1; omega,
        by show 1 ≤ live; omega, by show live ≤ disp.length; omega, ?_, ?_⟩
      · simp only [driver_step, join_step, hlt, if_true, Option.some_bind, hget, hai,
          Bool.true_eq_false, if_false, sem_post_both, join_thread]
      · simp only [driver_step, join_step, hlt, if_true, Option.some_bind, hget, hai,
          Bool.true_eq_false, if_false, sem_post_both, join_thread]
    · simp only [hlt, if_false] at he
      exact absurd he (by simp)
  | loop_test => simp [join_target] at h
  | dispatch => simp [join_target] at h
  | blocked => simp [join_target] at h
  | done => simp [join_target] at h

/-- A step of the driver that joins no thread either creates one worker,
for the address it hands over, or leaves the workers as they are. -/
theorem join_target_none (D : DriverEnv) (d : DriverState) (h : join_target d = none) :
    ((driver_step D d).dispatched = d.dispatched ∧ (driver_step D d).live = d.live)
    ∨ (∃ x, (driver_step D d).dispatched = d.dispatched ++ [x]
        ∧ (driver_step D d).live = d.live + 1) := by
  obtain ⟨pc, ip, sem, st, arr, cnt, it, live, disp, oob⟩ := d
  cases pc with
  | loop_test =>
    left
    cases ip with
    | nil => exact after_loop_fields _
    | cons x rest =>
      simp only [driver_step, acquire_tickets]
      cases arr with
      | none =>
        simp only []
        split
        · exact ⟨rfl, rfl⟩
        · split <;> (split <;> exact ⟨rfl, rfl⟩)
      | some a =>
        simp only []
        split <;> exact ⟨rfl, rfl⟩
  | dispatch =>
    cases ip with
    | nil => exact Or.inl (after_loop_fields _)
    | cons x rest =>
      simp only [driver_step, dispatch_worker]
      split
      · exact Or.inl (after_loop_fields _)
      · split
        · right
          split
          · exact ⟨x, (after_loop_fields _).1, (after_loop_fields _).2⟩
          · exact ⟨x, rfl, rfl⟩
        · exact Or.inl ⟨rfl, rfl⟩
  | drain i =>
    left
    simp only [join_target, join_entry, Option.map_eq_none'] at h
    simp only [driver_step, drain_step]
    split
    · rename_i hlt
      simp only [hlt, if_true] at h
      split
      · exact ⟨rfl, rfl⟩
      · rename_i e he
        simp only [he] at h
        split
        · exact ⟨rfl, rfl⟩
        · rename_i hact
          have : e.active = true := by simpa using hact
          simp [this] at h
    · exact ⟨rfl, rfl⟩
  | join i =>
    left
    simp only [join_target, join_entry, Option.map_eq_none'] at h
    simp only [driver_step, join_step]
    split
    · rename_i hlt
      simp only [hlt, if_true] at h
      split
      · exact ⟨rfl, rfl⟩
      · rename_i e he
        simp only [he] at h
        split
        · exact ⟨rfl, rfl⟩
        · rename_i hact
          have : e.active = true := by simpa using hact
          simp [this] at h
    · exact ⟨rfl, rfl⟩
  | blocked => exact Or.inl ⟨rfl, rfl⟩
  | done => exact Or.inl ⟨rfl, rfl⟩

theorem worker_turn_inv (D : DriverEnv) (publications : String → List nutscan_device_t)
    (global_count : Nat) (addresses : List String) (dev0 : List nutscan_device_t)
    (k : Nat) (s : ThreadedState)
    (h : ThreadedInv D publications global_count addresses dev0 s) :
    ThreadedInv D publications global_count addresses dev0 (worker_turn k s) := by
  obtain ⟨drv, pending, dev_ret, result⟩ := s
  unfold worker_turn
  cases hnp : next_publication k pending with
  | none => exact h
  | some r =>
    obtain ⟨dev, ps1⟩ := r
    obtain ⟨hm, hlen, hend, hres⟩ := h
    simp only at hm hlen hend hres
    obtain ⟨hl1, ⟨r1, hk, hk1⟩, hother⟩ := next_publication_spec k pending dev ps1 hnp
    have hperm := next_publication_perm k pending dev ps1 hnp
    refine ⟨hm, by simp only; omega, ?_, ?_⟩
    · intro j hj
      have hold := hend j hj
      have hjk : j ≠ k := by
        intro hjk
        subst hjk
        rw [hk] at hold
        simp at hold
      simp only
      rw [hother j hjk]
      exact hold
    · cases result with
      | none =>
        simp only at hres ⊢
        simp only [nutscan_add_device_to_device, List.append_assoc, List.singleton_append]
        exact (List.Perm.append_left dev_ret hperm.symm).trans hres
      | some r =>
        simp only at hres
        rw [next_publication_none k pending hres.2.2.1] at hnp
        simp at hnp

theorem driver_turn_inv (D : DriverEnv) (publications : String → List nutscan_device_t)
    (global_count : Nat) (addresses : List String) (dev0 : List nutscan_device_t)
    (hr : ∀ n, D.realloc_ok n = true) (s : ThreadedState)
    (h : ThreadedInv D publications global_count addresses dev0 s) :
    ThreadedInv D publications global_count addresses dev0
      (driver_turn D publications s) := by
  obtain ⟨drv, pending, dev_ret, result⟩ := s
  cases result with
  | some r => exact h
  | none =>
    obtain ⟨hm, hlen, hend, hres⟩ := h
    simp only at hm hlen hend hres
    obtain ⟨m, hm⟩ := hm
    have htr : Tracked drv := by
      rw [hm]
      exact tracked_run D hr m _ (tracked_init D global_count addresses)
    have hid : ThreadIds drv := by
      rw [hm]
      exact thread_ids_run D hr m _ (thread_ids_init D global_count addresses)
    have hm1 : ∃ m1, driver_step D drv
        = driver_run D m1 (driver_init D global_count addresses) :=
      ⟨m + 1, by rw [driver_run_succ, hm]⟩
    simp only [driver_turn]
    by_cases hdone : drv.pc = DriverPc.done
    · simp only [hdone, if_true]
      have hlive : drv.live = 0 := by
        have h2 := htr.2
        simp only [hdone] at h2
        exact h2
      have hall : ∀ p ∈ pending, p = [] := by
        intro p hp
        obtain ⟨k, hk⟩ := List.mem_iff_getElem?.mp hp
        have hklt : k < pending.length := by
          by_contra hc
          rw [List.getElem?_eq_none (by omega)] at hk
          simp at hk
        have := hend k (by omega)
        rw [hk] at this
        simpa using this.symm
      have hflat : pending.flatten = [] := by
        simpa [List.flatten_eq_nil_iff] using hall
      refine ⟨⟨m, hm⟩, hlen, hend, hdone, rfl, hall, ?_⟩
      rw [hflat, List.append_nil] at hres
      exact hres
    · simp only [hdone, if_false]
      cases hjt : join_target drv with
      | some t =>
        simp only []
        by_cases hwe : worker_ended pending t = true
        · simp only [hwe, if_true]
          obtain ⟨ht, hl1, hl2, hsl, hsd⟩ := join_target_some D drv t htr hid hjt
          refine ⟨hm1, by simp only; rw [hsd]; exact hlen, ?_, ?_⟩
          · intro k hk
            simp only at hk ⊢
            rw [hsl, hsd] at hk
            by_cases hk2 : k + drv.live < drv.dispatched.length
            · exact hend k hk2
            · have hkt : k = t - 1 := by omega
              subst hkt
              have hin : t - 1 < pending.length := by omega
              simp only [worker_ended] at hwe
              rw [List.getElem?_eq_getElem hin] at hwe ⊢
              cases hp : pending[t - 1] with
              | nil => rfl
              | cons x xs =>
                rw [hp] at hwe
                simp at hwe
          · simp only
            rw [hsd]
            exact hres
        · simp only [hwe, if_false, Bool.false_eq_true]
          exact ⟨⟨m, hm⟩, hlen, hend, hres⟩
      | none =>
        simp only []
        rcases join_target_none D drv hjt with ⟨hsd, hsl⟩ | ⟨x, hsd, hsl⟩
        · have hdrop : (driver_step D drv).dispatched.drop drv.dispatched.length = [] := by
            rw [hsd]
            simp
          simp only [hdrop, List.map_nil, List.append_nil]
          refine ⟨hm1, by simp only; rw [hsd]; exact hlen, ?_, ?_⟩
          · intro k hk
            simp only at hk ⊢
            rw [hsl, hsd] at hk
            exact hend k hk
          · simp only
            rw [hsd]
            exact hres
        · have hdrop : (driver_step D drv).dispatched.drop drv.dispatched.length = [x] := by
            rw [hsd]
            simp
          simp only [hdrop, List.map_cons, List.map_nil]
          refine ⟨hm1, by simp only; rw [hsd]; simp [hlen], ?_, ?_⟩
          · intro k hk
            simp only at hk ⊢
            rw [hsl, hsd] at hk
            simp only [List.length_append, List.length_singleton] at hk
            have hold := hend k (by omega)
            rw [List.getElem?_append_left (by omega)]
            exact hold
          · simp only
            rw [hsd]
            simp only [List.flatten_append, List.map_append, List.map_cons, List.map_nil,
              List.flatten_cons, List.flatten_nil, List.append_nil, ← List.append_assoc]
            exact List.Perm.append_right _ hres

/-- Every step of a scan with threads whose `realloc` never fails keeps
`ThreadedInv`. -/
theorem threaded_step_inv (D : DriverEnv) (publications : String → List nutscan_device_t)
    (global_count : Nat) (addresses : List String) (dev0 : List nutscan_device_t)
    (hr : ∀ n, D.realloc_ok n = true) (s : ThreadedState) (turn : Turn)
    (h : ThreadedInv D publications global_count addresses dev0 s) :
    ThreadedInv D publications global_count addresses dev0
      (threaded_step D publications s turn) := by
  cases turn with
  | driver => exact driver_turn_inv D publications global_count addresses dev0 hr s h
  | worker k => exact worker_turn_inv D publications global_count addresses dev0 k s h

theorem threaded_run_inv (D : DriverEnv) (publications : String → List nutscan_device_t)
    (global_count : Nat) (addresses : List String) (dev0 : List nutscan_device_t)
    (hr : ∀ n, D.realloc_ok n = true) (schedule : List Turn) :
    ∀ s, ThreadedInv D publications global_count addresses dev0 s →
      ThreadedInv D publications global_count addresses dev0
        (threaded_run D publications schedule s) := by
  induction schedule with
  | nil => intro s h; exact h
  | cons turn rest ih =>
    intro s h
    exact ih _ (threaded_step_inv D publications global_count addresses dev0 hr s turn h)

theorem threaded_entry_inv (D : DriverEnv) (publications : String → List nutscan_device_t)
    (global_count : Nat) (addresses : List String) (dev0 : List nutscan_device_t) :
    ThreadedInv D publications global_count addresses dev0
      (threaded_entry D global_count true (some addresses) dev0) := by
  simp only [threaded_entry, Bool.true_eq_false, if_false]
  refine ⟨⟨0, rfl⟩, rfl, ?_, ?_⟩
  · intro k hk
    simp [driver_init] at hk
  · simp [driver_init]

/-- Once the function has returned, its result does not change. -/
theorem threaded_run_result (D : DriverEnv)
    (publications : String → List nutscan_device_t) (schedule : List Turn) :
    ∀ (s : ThreadedState) (r : List nutscan_device_t), s.result = some r →
      (threaded_run D publications schedule s).result = some r := by
  induction schedule with
  | nil => intro s r h; exact h
  | cons turn rest ih =>
    intro s r h
    apply ih
    cases turn with
    | driver =>
      simp only [threaded_step, driver_turn, h]
    | worker k =>
      simp only [threaded_step, worker_turn]
      split
      · exact h
      · exact h

/-- After one of the two early returns nothing moves: no worker exists, the
result is the empty list and `dev_ret` is as it was. -/
theorem threaded_run_early (D : DriverEnv)
    (publications : String → List nutscan_device_t) (d : DriverState)
    (dev_ret : List nutscan_device_t) (schedule : List Turn) :
    threaded_run D publications schedule ⟨d, [], dev_ret, some []⟩
      = ⟨d, [], dev_ret, some []⟩ := by
  induction schedule with
  | nil => rfl
  | cons turn rest ih =>
    have hstep : threaded_step D publications ⟨d, [], dev_ret, some []⟩ turn
        = ⟨d, [], dev_ret, some []⟩ := by
      cases turn with
      | driver => rfl
      | worker k =>
        simp only [threaded_step, worker_turn]
        cases k <;> rfl
    simp only [threaded_run, List.foldl_cons, hstep]
    exact ih

/-- Two runs of the driver that are both at the end are in the same
state. -/
theorem driver_run_done_unique (D : DriverEnv) (init : DriverState) (m1 m2 : Nat)
    (h1 : (driver_run D m1 init).pc = DriverPc.done)
    (h2 : (driver_run D m2 init).pc = DriverPc.done) :
    driver_run D m1 init = driver_run D m2 init := by
  have e1 : driver_run D (m1 + m2) init = driver_run D m1 init := by
    rw [driver_run_add]
    exact driver_run_of_done D m2 _ h1
  have e2 : driver_run D (m2 + m1) init = driver_run D m2 init := by
    rw [driver_run_add]
    exact driver_run_of_done D m1 _ h2
  rw [← e1, ← e2, Nat.add_comm]

theorem threaded_returned (D : DriverEnv) (publications : String → List nutscan_device_t)
    (global_count : Nat) (nutscan_avail_snmp : Bool) (irl : Option (List String))
    (schedule : List Turn) (hr : ∀ n, D.realloc_ok n = true)
    (h : (threaded_run D publications schedule
      (threaded_entry D global_count nutscan_avail_snmp irl [])).result.isSome = true) :
    (threaded_run D publications schedule
      (threaded_entry D global_count nutscan_avail_snmp irl [])).dev_ret = []
    ∧ (∀ p ∈ (threaded_run D publications schedule
        (threaded_entry D global_count nutscan_avail_snmp irl [])).pending, p = [])
    ∧ List.Perm
        ((threaded_run D publications schedule
          (threaded_entry D global_count nutscan_avail_snmp irl [])).result.getD [])
        (((threaded_run D publications schedule
          (threaded_entry D global_count nutscan_avail_snmp irl [])).driver.dispatched.map
            publications).flatten) := by
  have hearly : ∀ s0 : ThreadedState, s0 = ⟨driver_init D global_count [], [], [], some []⟩ →
      (threaded_run D publications schedule s0).dev_ret = []
      ∧ (∀ p ∈ (threaded_run D publications schedule s0).pending, p = [])
      ∧ List.Perm ((threaded_run D publications schedule s0).result.getD [])
          (((threaded_run D publications schedule s0).driver.dispatched.map
            publications).flatten) := by
    intro s0 hs0
    rw [hs0, threaded_run_early]
    simp [driver_init]
  by_cases ha : nutscan_avail_snmp = false
  · exact hearly _ (by simp [threaded_entry, ha])
  · cases irl with
    | none => exact hearly _ (by simp [threaded_entry, ha])
    | some addresses =>
      have ha1 : nutscan_avail_snmp = true := by simpa using ha
      subst ha1
      have hinv := threaded_run_inv D publications global_count addresses [] hr schedule _
        (threaded_entry_inv D publications global_count addresses [])
      obtain ⟨r, hres⟩ := Option.isSome_iff_exists.mp h
      have h4 := hinv.2.2.2
      simp only [hres] at h4
      refine ⟨h4.2.1, h4.2.2.1, ?_⟩
      rw [hres]
      simpa using h4.2.2.2

theorem threaded_returned_driver (D : DriverEnv)
    (publications : String → List nutscan_device_t)
    (global_count : Nat) (nutscan_avail_snmp : Bool) (irl : Option (List String))
    (schedule1 schedule2 : List Turn) (hr : ∀ n, D.realloc_ok n = true)
    (h1 : (threaded_run D publications schedule1
      (threaded_entry D global_count nutscan_avail_snmp irl [])).result.isSome = true)
    (h2 : (threaded_run D publications schedule2
      (threaded_entry D global_count nutscan_avail_snmp irl [])).result.isSome = true) :
    (threaded_run D publications schedule1
      (threaded_entry D global_count nutscan_avail_snmp irl [])).driver
    = (threaded_run D publications schedule2
      (threaded_entry D global_count nutscan_avail_snmp irl [])).driver := by
  have hearly : ∀ s0 : ThreadedState, s0 = ⟨driver_init D global_count [], [], [], some []⟩ →
      (threaded_run D publications schedule1 s0).driver
        = (threaded_run D publications schedule2 s0).driver := by
    intro s0 hs0
    rw [hs0, threaded_run_early, threaded_run_early]
  by_cases ha : nutscan_avail_snmp = false
  · exact hearly _ (by simp [threaded_entry, ha])
  · cases irl with
    | none => exact hearly _ (by simp [threaded_entry, ha])
    | some addresses =>
      have ha1 : nutscan_avail_snmp = true := by simpa using ha
      subst ha1
      have hinv1 := threaded_run_inv D publications global_count addresses [] hr schedule1 _
        (threaded_entry_inv D publications global_count addresses [])
      have hinv2 := threaded_run_inv D publications global_count addresses [] hr schedule2 _
        (threaded_entry_inv D publications global_count addresses [])
      obtain ⟨r1, hres1⟩ := Option.isSome_iff_exists.mp h1
      obtain ⟨r2, hres2⟩ := Option.isSome_iff_exists.mp h2
      have d1 := hinv1.2.2.2
      have d2 := hinv2.2.2.2
      simp only [hres1] at d1
      simp only [hres2] at d2
      obtain ⟨m1, e1⟩ := hinv1.1
      obtain ⟨m2, e2⟩ := hinv2.1
      rw [e1, e2]
      exact driver_run_done_unique D _ m1 m2 (by rw [← e1]; exact d1.1)
        (by rw [← e2]; exact d2.1)

/-- C22: in a build with threads whose `realloc` never fails, once
`nutscan_scan_ip_range_snmp`, entered with `dev_ret` empty, has returned,
`dev_ret` is empty and stays empty whatever runs afterwards, and the returned
list holds, up to order, the publications of the workers of this call; in
the build without threads `dev_ret` is empty after the call and the returned
list is what the loop of the call published.  But when the `realloc` of the
worker table fails, the worker just created is not joined.  With the failure
in the first iteration the driver leaves the loop and returns the empty list
without any join; the worker publishes after the return into the `dev_ret`
that was reset, and a following scan of the address 10.0.0.9 returns the
descriptor of the host 10.0.0.1 of the earlier scan.  With the failure in the
second iteration the function returns the descriptor of the first host only,
and the descriptor of the host 10.0.0.2 comes back from the following
scan. -/
theorem unjoined_worker_publishes_after_return (env : NetSnmp)
    (table : List snmp_device_id_t) (D : DriverEnv) (global_count : Nat)
    (nutscan_avail_snmp : Bool) (irl : Option (List String)) (usec_timeout : Int)
    (sec : nutscan_snmp_t) (schedule more : List Turn) :
    ((∀ k, D.realloc_ok k = true) →
      (nutscan_scan_ip_range_snmp_threaded env table D global_count nutscan_avail_snmp irl
        usec_timeout sec schedule []).result.isSome = true →
      (nutscan_scan_ip_range_snmp_threaded env table D global_count nutscan_avail_snmp irl
        usec_timeout sec schedule []).dev_ret = []
      ∧ (nutscan_scan_ip_range_snmp_threaded env table D global_count nutscan_avail_snmp
          irl usec_timeout sec (schedule ++ more) []).dev_ret = []
      ∧ (nutscan_scan_ip_range_snmp_threaded env table D global_count nutscan_avail_snmp
          irl usec_timeout sec (schedule ++ more) []).result
        = (nutscan_scan_ip_range_snmp_threaded env table D global_count nutscan_avail_snmp
          irl usec_timeout sec schedule []).result
      ∧ List.Perm
          ((nutscan_scan_ip_range_snmp_threaded env table D global_count
            nutscan_avail_snmp irl usec_timeout sec schedule []).result.getD [])
          (((nutscan_scan_ip_range_snmp_threaded env table D global_count
            nutscan_avail_snmp irl usec_timeout sec schedule []).driver.dispatched.map
              (worker_publications env table usec_timeout sec)).flatten))
    ∧ (∀ (malloc_ok : Nat → Bool) (st : ScanState), st.dev_ret = [] →
        (nutscan_scan_ip_range_snmp_nothread env table nutscan_avail_snmp malloc_ok irl
          usec_timeout sec st).2.dev_ret = []
        ∧ (∀ addresses, nutscan_avail_snmp = true → irl = some addresses →
            (nutscan_scan_ip_range_snmp_nothread env table nutscan_avail_snmp malloc_ok irl
              usec_timeout sec st).1
              = nutscan_rewind_device
                  (scan_published env table usec_timeout sec malloc_ok addresses st)))
    ∧ ((demo_threaded_scan (realloc_fails_at 1 3) ["10.0.0.1", "10.0.0.2", "10.0.0.3"]
          schedule_first_failure []).result = some []
      ∧ (demo_threaded_scan (realloc_fails_at 1 3) ["10.0.0.1", "10.0.0.2", "10.0.0.3"]
          schedule_first_failure []).dev_ret = []
      ∧ (demo_threaded_scan (realloc_fails_at 1 3) ["10.0.0.1", "10.0.0.2", "10.0.0.3"]
          schedule_first_failure []).driver.live = 1
      ∧ (demo_threaded_scan (realloc_fails_at 1 3) ["10.0.0.1", "10.0.0.2", "10.0.0.3"]
          schedule_first_failure []).driver.out_of_bounds = false
      ∧ device_ports (demo_threaded_scan (realloc_fails_at 1 3)
          ["10.0.0.1", "10.0.0.2", "10.0.0.3"]
          (schedule_first_failure ++ [Turn.worker 0]) []).dev_ret = [some "10.0.0.1"]
      ∧ device_ports ((demo_threaded_scan (demo_driver 3) ["10.0.0.9"]
          schedule_one_address
          (demo_threaded_scan (realloc_fails_at 1 3) ["10.0.0.1", "10.0.0.2", "10.0.0.3"]
            (schedule_first_failure ++ [Turn.worker 0]) []).dev_ret).result.getD [])
          = [some "10.0.0.1", some "10.0.0.9"])
    ∧ ((demo_threaded_scan (realloc_fails_at 2 3) ["10.0.0.1", "10.0.0.2", "10.0.0.3"]
          schedule_return_early []).result.isSome = true
      ∧ device_ports ((demo_threaded_scan (realloc_fails_at 2 3)
          ["10.0.0.1", "10.0.0.2", "10.0.0.3"] schedule_return_early []).result.getD [])
          = [some "10.0.0.1"]
      ∧ (demo_threaded_scan (realloc_fails_at 2 3) ["10.0.0.1", "10.0.0.2", "10.0.0.3"]
          schedule_return_early []).dev_ret = []
      ∧ (demo_threaded_scan (realloc_fails_at 2 3) ["10.0.0.1", "10.0.0.2", "10.0.0.3"]
          schedule_return_early []).driver.live = 1
      ∧ device_ports (demo_threaded_scan (realloc_fails_at 2 3)
          ["10.0.0.1", "10.0.0.2", "10.0.0.3"]
          (schedule_return_early ++ [Turn.worker 1]) []).dev_ret = [some "10.0.0.2"]
      ∧ device_ports ((demo_threaded_scan (demo_driver 3) ["10.0.0.9"]
          schedule_one_address
          (demo_threaded_scan (realloc_fails_at 2 3) ["10.0.0.1", "10.0.0.2", "10.0.0.3"]
            (schedule_return_early ++ [Turn.worker 1]) []).dev_ret).result.getD [])
          = [some "10.0.0.2", some "10.0.0.9"]) := by
  refine ⟨?_, ?_, by decide, by decide⟩
  · intro hr h
    have h1 := threaded_returned D (worker_publications env table usec_timeout sec)
      global_count nutscan_avail_snmp irl schedule hr h
    obtain ⟨r, hres⟩ := Option.isSome_iff_exists.mp h
    have hmore : nutscan_scan_ip_range_snmp_threaded env table D global_count
        nutscan_avail_snmp irl usec_timeout sec (schedule ++ more) []
        = threaded_run D (worker_publications env table usec_timeout sec) more
            (nutscan_scan_ip_range_snmp_threaded env table D global_count
              nutscan_avail_snmp irl usec_timeout sec schedule []) := by
      simp only [nutscan_scan_ip_range_snmp_threaded, threaded_run, List.foldl_append]
    have hres2 : (nutscan_scan_ip_range_snmp_threaded env table D global_count
        nutscan_avail_snmp irl usec_timeout sec (schedule ++ more) []).result = some r := by
      rw [hmore]
      exact threaded_run_result D _ more _ r hres
    have h2 := threaded_returned D (worker_publications env table usec_timeout sec)
      global_count nutscan_avail_snmp irl (schedule ++ more) hr
      (by
        have := hres2
        simp only [nutscan_scan_ip_range_snmp_threaded] at this
        rw [this]
        rfl)
    exact ⟨h1.1, h2.1, by rw [hres2, hres], h1.2.2⟩
  · intro malloc_ok st hempty
    refine ⟨scan_nothread_sink env table nutscan_avail_snmp malloc_ok irl usec_timeout sec st
      hempty, ?_⟩
    intro addresses ha hi
    subst ha
    subst hi
    exact scan_nothread_result env table malloc_ok addresses usec_timeout sec st hempty

/-- C22, on a scan of one address without failure: after the return the
worker has nothing left to publish, and `dev_ret` stays empty. -/
theorem unjoined_worker_publishes_after_return_witness :
    ((∀ k, (demo_driver 3).realloc_ok k = true)
      ∧ (nutscan_scan_ip_range_snmp_threaded (demo_net demo_agent) table_S1
          (demo_driver 3) 3 true (some ["10.0.0.9"]) 1000000 (demo_sec (some "public"))
          schedule_one_address []).result.isSome = true
      ∧ device_ports ((nutscan_scan_ip_range_snmp_threaded (demo_net demo_agent) table_S1
          (demo_driver 3) 3 true (some ["10.0.0.9"]) 1000000 (demo_sec (some "public"))
          schedule_one_address []).result.getD []) = [some "10.0.0.9"])
    ∧ (nutscan_scan_ip_range_snmp_threaded (demo_net demo_agent) table_S1
        (demo_driver 3) 3 true (some ["10.0.0.9"]) 1000000 (demo_sec (some "public"))
        (schedule_one_address ++ [Turn.worker 0, Turn.driver]) []).dev_ret = [] :=
  ⟨⟨fun _ => rfl, by decide, by decide⟩,
   ((unjoined_worker_publishes_after_return (demo_net demo_agent) table_S1
      (demo_driver 3) 3 true (some ["10.0.0.9"]) 1000000 (demo_sec (some "public"))
      schedule_one_address [Turn.worker 0, Turn.driver]).1 (fun _ => rfl)
      (by decide)).2.1⟩

/-- C24: in a build with threads whose `realloc` never fails, two schedules
after which `nutscan_scan_ip_range_snmp` has returned give lists that are
permutations of each other, of the same length, the sum of the numbers of
descriptors that the workers created publish; when every allocation and
thread creation succeeds there is one worker per address.  What a worker
publishes does not depend on what the sink holds when it runs.  But when the
`realloc` of the worker table fails, the worker just created is not joined
and the length depends on the schedule.  With the failure in the first
iteration: no descriptor when the driver returns before the worker
publishes, one when the worker publishes first.  With the failure in the
second iteration: one descriptor when the driver returns before the second
worker publishes, two when the second worker publishes first. -/
theorem scan_length_depends_on_schedule (env : NetSnmp)
    (table : List snmp_device_id_t) (D : DriverEnv) (global_count : Nat)
    (nutscan_avail_snmp : Bool) (irl : Option (List String)) (usec_timeout : Int)
    (sec : nutscan_snmp_t) (schedule1 schedule2 : List Turn) :
    ((∀ k, D.realloc_ok k = true) →
      (nutscan_scan_ip_range_snmp_threaded env table D global_count nutscan_avail_snmp irl
        usec_timeout sec schedule1 []).result.isSome = true →
      (nutscan_scan_ip_range_snmp_threaded env table D global_count nutscan_avail_snmp irl
        usec_timeout sec schedule2 []).result.isSome = true →
      List.Perm
        ((nutscan_scan_ip_range_snmp_threaded env table D global_count nutscan_avail_snmp
          irl usec_timeout sec schedule1 []).result.getD [])
        ((nutscan_scan_ip_range_snmp_threaded env table D global_count nutscan_avail_snmp
          irl usec_timeout sec schedule2 []).result.getD [])
      ∧ ((nutscan_scan_ip_range_snmp_threaded env table D global_count nutscan_avail_snmp
          irl usec_timeout sec schedule1 []).result.getD []).length
        = ((nutscan_scan_ip_range_snmp_threaded env table D global_count
          nutscan_avail_snmp irl usec_timeout sec schedule2 []).result.getD []).length
      ∧ ((nutscan_scan_ip_range_snmp_threaded env table D global_count nutscan_avail_snmp
          irl usec_timeout sec schedule1 []).result.getD []).length
        = ((nutscan_scan_ip_range_snmp_threaded env table D global_count
            nutscan_avail_snmp irl usec_timeout sec schedule1 []).driver.dispatched.map
              (fun ip_str =>
                (worker_publications env table usec_timeout sec ip_str).length)).sum)
    ∧ (AllSucceed D → 1 ≤ global_count → 1 ≤ D.max_threads_scantype →
        ∀ addresses, nutscan_avail_snmp = true → irl = some addresses →
        (nutscan_scan_ip_range_snmp_threaded env table D global_count nutscan_avail_snmp
          irl usec_timeout sec schedule1 []).result.isSome = true →
        (nutscan_scan_ip_range_snmp_threaded env table D global_count nutscan_avail_snmp
          irl usec_timeout sec schedule1 []).driver.dispatched = addresses)
    ∧ (∀ (ip_str : String) (st : ScanState),
        (try_SysOID_thready env table usec_timeout
          { sec with peername := some ip_str } st).dev_ret
          = st.dev_ret
            ++ (try_SysOID_thready env table usec_timeout
                  { sec with peername := some ip_str } { st with dev_ret := [] }).dev_ret)
    ∧ ((demo_threaded_scan (realloc_fails_at 1 3) ["10.0.0.1", "10.0.0.2", "10.0.0.3"]
          schedule_first_failure []).result = some []
      ∧ (demo_threaded_scan (realloc_fails_at 1 3) ["10.0.0.1", "10.0.0.2", "10.0.0.3"]
          schedule_first_failure_published []).result.isSome = true
      ∧ device_ports ((demo_threaded_scan (realloc_fails_at 1 3)
          ["10.0.0.1", "10.0.0.2", "10.0.0.3"]
          schedule_first_failure_published []).result.getD []) = [some "10.0.0.1"]
      ∧ ((demo_threaded_scan (realloc_fails_at 1 3) ["10.0.0.1", "10.0.0.2", "10.0.0.3"]
          schedule_first_failure []).result.getD []).length
        ≠ ((demo_threaded_scan (realloc_fails_at 1 3) ["10.0.0.1", "10.0.0.2", "10.0.0.3"]
          schedule_first_failure_published []).result.getD []).length)
    ∧ ((demo_threaded_scan (realloc_fails_at 2 3) ["10.0.0.1", "10.0.0.2", "10.0.0.3"]
          schedule_return_early []).result.isSome = true
      ∧ (demo_threaded_scan (realloc_fails_at 2 3) ["10.0.0.1", "10.0.0.2", "10.0.0.3"]
          schedule_publish_first []).result.isSome = true
      ∧ device_ports ((demo_threaded_scan (realloc_fails_at 2 3)
          ["10.0.0.1", "10.0.0.2", "10.0.0.3"] schedule_return_early []).result.getD [])
          = [some "10.0.0.1"]
      ∧ device_ports ((demo_threaded_scan (realloc_fails_at 2 3)
          ["10.0.0.1", "10.0.0.2", "10.0.0.3"] schedule_publish_first []).result.getD [])
          = [some "10.0.0.1", some "10.0.0.2"]
      ∧ ((demo_threaded_scan (realloc_fails_at 2 3) ["10.0.0.1", "10.0.0.2", "10.0.0.3"]
          schedule_return_early []).result.getD []).length
        ≠ ((demo_threaded_scan (realloc_fails_at 2 3) ["10.0.0.1", "10.0.0.2", "10.0.0.3"]
          schedule_publish_first []).result.getD []).length) := by
  refine ⟨?_, ?_, ?_, by decide, by decide⟩
  · intro hr h1 h2
    have p1 := (threaded_returned D (worker_publications env table usec_timeout sec)
      global_count nutscan_avail_snmp irl schedule1 hr h1).2.2
    have p2 := (threaded_returned D (worker_publications env table usec_timeout sec)
      global_count nutscan_avail_snmp irl schedule2 hr h2).2.2
    have hd := threaded_returned_driver D (worker_publications env table usec_timeout sec)
      global_count nutscan_avail_snmp irl schedule1 schedule2 hr h1 h2
    rw [← hd] at p2
    have hperm := p1.trans p2.symm
    refine ⟨hperm, hperm.length_eq, ?_⟩
    have hl := p1.length_eq
    simp only [nutscan_scan_ip_range_snmp_threaded]
    rw [hl, List.length_flatten, List.map_map]
    rfl
  · intro hD hG hS addresses ha hi h1
    subst ha
    subst hi
    have hinv := threaded_run_inv D (worker_publications env table usec_timeout sec)
      global_count addresses [] hD.2.2 schedule1 _
      (threaded_entry_inv D (worker_publications env table usec_timeout sec) global_count
        addresses [])
    obtain ⟨r, hres⟩ := Option.isSome_iff_exists.mp h1
    simp only [nutscan_scan_ip_range_snmp_threaded] at hres ⊢
    have h4 := hinv.2.2.2
    simp only [hres] at h4
    obtain ⟨m, hm⟩ := hinv.1
    have hprog := driver_run_progress D addresses hD m _
      (driver_init_progress D global_count addresses hG hS)
    rw [← hm] at hprog
    have hp1 := hprog.1
    have hp2 := hprog.2.2
    simp only [h4.1] at hp2
    rw [hp2.1, List.append_nil] at hp1
    exact hp1
  · intro ip_str st
    exact try_SysOID_thready_appends env table usec_timeout _ st

/-- C24, on two responding hosts without failure: the worker of the first
or of the second address publishing first, the scan returns two descriptors,
in a different order. -/
theorem scan_length_depends_on_schedule_witness :
    ((∀ k, (demo_driver 3).realloc_ok k = true)
      ∧ (nutscan_scan_ip_range_snmp_threaded (demo_net demo_agent) table_S1
          (demo_driver 3) 3 true (some ["10.0.0.1", "10.0.0.2"]) 1000000
          (demo_sec (some "public")) schedule_two_in_order []).result.isSome = true
      ∧ (nutscan_scan_ip_range_snmp_threaded (demo_net demo_agent) table_S1
          (demo_driver 3) 3 true (some ["10.0.0.1", "10.0.0.2"]) 1000000
          (demo_sec (some "public")) schedule_two_reversed []).result.isSome = true
      ∧ device_ports ((nutscan_scan_ip_range_snmp_threaded (demo_net demo_agent) table_S1
          (demo_driver 3) 3 true (some ["10.0.0.1", "10.0.0.2"]) 1000000
          (demo_sec (some "public")) schedule_two_in_order []).result.getD [])
          = [some "10.0.0.1", some "10.0.0.2"]
      ∧ device_ports ((nutscan_scan_ip_range_snmp_threaded (demo_net demo_agent) table_S1
          (demo_driver 3) 3 true (some ["10.0.0.1", "10.0.0.2"]) 1000000
          (demo_sec (some "public")) schedule_two_reversed []).result.getD [])
          = [some "10.0.0.2", some "10.0.0.1"])
    ∧ ((nutscan_scan_ip_range_snmp_threaded (demo_net demo_agent) table_S1
        (demo_driver 3) 3 true (some ["10.0.0.1", "10.0.0.2"]) 1000000
        (demo_sec (some "public")) schedule_two_in_order []).result.getD []).length
      = ((nutscan_scan_ip_range_snmp_threaded (demo_net demo_agent) table_S1
        (demo_driver 3) 3 true (some ["10.0.0.1", "10.0.0.2"]) 1000000
        (demo_sec (some "public")) schedule_two_reversed []).result.getD []).length :=
  ⟨⟨fun _ => rfl, by decide, by decide, by decide, by decide⟩,
   ((scan_length_depends_on_schedule (demo_net demo_agent) table_S1 (demo_driver 3) 3 true
      (some ["10.0.0.1", "10.0.0.2"]) 1000000 (demo_sec (some "public"))
      schedule_two_in_order schedule_two_reversed).1 (fun _ => rfl) (by decide)
      (by decide)).2.1⟩

end ScanSnmp
